import Mathlib

/-!
# Multi-Link Element codec (ns-3, `src/wifi/model/eht/multi-link-element.cc`)

A shallow embedding of the Multi-Link Element and of its Per-STA Profile
sub-element, followed by theorems about the embedded operations.

Conventions of the embedding.

* A fatal termination of the C++ program is a value `Except.error k`, where
  `k : Fatal` records which mechanism stops the program.  `NS_ASSERT` is
  modelled as fatal (a build with assertions enabled).
* A `Buffer::Iterator` positioned for reading is the list of bytes that remain
  in front of it; a `Buffer::Iterator` positioned for writing is modelled by
  the list of bytes the callee writes.
* Unsigned machine integers are natural numbers, reduced explicitly modulo
  `2^w` wherever the C++ code narrows a value; `Byte` and `U16` are the
  range-restricted carriers of stored `uint8_t` and `uint16_t` values.
* Code of the repository that is not part of the translated file (the buffer,
  the MAC address, the generic information element framing, the Common Info
  field and the management frames) is either modelled from the specification,
  and marked so, or taken as a parameter (`Env`).
-/

namespace ns3

/-! ## Fatal terminations -/

/-- Ways in which the translated code leaves the normal path: the first three and the
buffer checks stop the program, the fourth is a use of the language that no check
guards. -/
inductive Fatal
  /-- `NS_ABORT_MSG`, `NS_ABORT_MSG_IF`, `NS_ABORT_IF`, `NS_ABORT_UNLESS`. -/
  | abort
  /-- `NS_ASSERT`, `NS_ASSERT_MSG`. -/
  | assert
  /-- An exception thrown by `std::get`, `std::optional::value` or `std::vector::at`. -/
  | badAccess
  /-- Dereference of an empty `std::optional` through `operator->`: the behaviour is
  undefined, nothing stops the program. -/
  | undefinedBehaviour
  /-- A read, peek or advance beyond the end of the buffer. -/
  | bufferEnd
  /-- An information field longer than the one-byte Length can announce. -/
  | tooLong
  deriving DecidableEq, Repr

/-- Whether a result is a fatal termination. -/
def isFatal {α : Type} : Except Fatal α → Bool
  | .error _ => true
  | .ok _ => false

/-! ## Bytes, buffers, addresses, time -/

/-- A stored `uint8_t`. -/
abbrev Byte := Fin 256

/-- A stored `uint16_t`. -/
abbrev U16 := Fin 65536

/-- Narrowing conversion to `uint8_t`. -/
def toU8 (n : Nat) : Byte := ⟨n % 256, Nat.mod_lt _ (by decide)⟩

/-- Narrowing conversion to `uint16_t`. -/
def toU16 (n : Nat) : U16 := ⟨n % 65536, Nat.mod_lt _ (by decide)⟩

/-- Modelled from the spec: the 6-byte hardware address (`Mac48Address`, declared
outside the translated file).  The default address is all zeros. -/
structure Mac48Address where
  b0 : Byte := 0
  b1 : Byte := 0
  b2 : Byte := 0
  b3 : Byte := 0
  b4 : Byte := 0
  b5 : Byte := 0
  deriving DecidableEq, Repr

instance : Inhabited Mac48Address := ⟨{}⟩

/-- Modelled from the spec: `WriteTo (Buffer::Iterator&, Mac48Address)` writes the 6
address bytes in order. -/
def WriteTo (a : Mac48Address) : List Byte := [a.b0, a.b1, a.b2, a.b3, a.b4, a.b5]

/-- Modelled from the spec: `ReadFrom (Buffer::Iterator&, Mac48Address&)` reads 6
bytes. -/
def ReadFrom : List Byte → Except Fatal (Mac48Address × List Byte)
  | b0 :: b1 :: b2 :: b3 :: b4 :: b5 :: rest => .ok (⟨b0, b1, b2, b3, b4, b5⟩, rest)
  | _ => .error .bufferEnd

/-- Modelled from the spec: `Buffer::Iterator::WriteU8`. -/
def WriteU8 (v : Nat) : List Byte := [toU8 v]

/-- Modelled from the spec: `Buffer::Iterator::WriteHtolsbU16`; multi-byte integers
are little-endian, low byte first. -/
def WriteHtolsbU16 (v : Nat) : List Byte := [toU8 v, toU8 (v / 256)]

/-- Modelled from the spec: `Buffer::Iterator::ReadU8`. -/
def ReadU8 : List Byte → Except Fatal (Nat × List Byte)
  | b :: rest => .ok (b.val, rest)
  | [] => .error .bufferEnd

/-- Modelled from the spec: `Buffer::Iterator::PeekU8`. -/
def PeekU8 : List Byte → Except Fatal Nat
  | b :: _ => .ok b.val
  | [] => .error .bufferEnd

/-- Modelled from the spec: `Buffer::Iterator::ReadLsbtohU16`. -/
def ReadLsbtohU16 : List Byte → Except Fatal (Nat × List Byte)
  | lo :: hi :: rest => .ok (lo.val + 256 * hi.val, rest)
  | _ => .error .bufferEnd

/-- Modelled from the spec: `Buffer::Iterator::Next (delta)`. -/
def Next (delta : Nat) (i : List Byte) : Except Fatal (List Byte) :=
  if delta ≤ i.length then .ok (i.drop delta) else .error .bufferEnd

/-- Modelled from the spec: `Buffer::Iterator::GetDistanceFrom`, for an iterator `i`
obtained from `start` by reading. -/
def GetDistanceFrom (i start : List Byte) : Nat := start.length - i.length

/-- Modelled from the spec: `ns3::Time`, represented by its whole number of
microseconds (a signed 64-bit quantity in the code). -/
abbrev Time := Int

/-- Modelled from the spec: `Time::GetMicroSeconds`. -/
def Time.GetMicroSeconds (t : Time) : Int := t

/-- Modelled from the spec: `MicroSeconds (n)`. -/
def MicroSeconds (n : Int) : Time := n

/-! ## Common Info field of the Basic variant (data) -/

/-- Modelled from the spec: `CommonInfoBasicMle::EmlCapabilities`, the record
`{emlsrSupport, emlsrPaddingDelay, emlsrTransitionDelay, transitionTimeout}`;
value-initialisation zeroes every member. -/
structure EmlCapabilities where
  emlsrSupport : Nat := 0
  emlsrPaddingDelay : Nat := 0
  emlsrTransitionDelay : Nat := 0
  transitionTimeout : Nat := 0
  deriving DecidableEq, Repr

/-- Modelled from the spec: the data members of `CommonInfoBasicMle` used by the
translated file.  A default-constructed object has the default address and no
optional field. -/
structure CommonInfoBasicMle where
  m_mldMacAddress : Mac48Address := {}
  m_linkIdInfo : Option Byte := none
  m_bssParamsChangeCount : Option Byte := none
  m_emlCapabilities : Option EmlCapabilities := none
  deriving DecidableEq, Repr

/-! ## Containing frame and STA profile -/

/-- The `ContainingFrame` variant: `std::monostate` or a reference to the management
frame that contains the element.  `A`, `R`, `P` stand for `MgtAssocRequestHeader`,
`MgtReassocRequestHeader` and `MgtAssocResponseHeader`. -/
inductive ContainingFrame (A R P : Type)
  | monostate
  | assocRequest (frame : A)
  | reassocRequest (frame : R)
  | assocResponse (frame : P)
  deriving DecidableEq, Repr

/-- The `m_staProfile` variant: `std::monostate` or an owned management frame. -/
inductive StaProfile (A R P : Type)
  | monostate
  | assocRequest (frame : A)
  | reassocRequest (frame : R)
  | assocResponse (frame : P)
  deriving DecidableEq, Repr

/-! ## Collaborators -/

/-- The three operations a management frame offers for the Per-STA Profile:
`GetSerializedSizeInPerStaProfile (containing)`,
`SerializeInPerStaProfile (start, containing)` and
`DeserializeFromPerStaProfile (start, length, containing)`, the last one run on
a default-constructed frame and yielding the frame read and the bytes consumed. -/
structure ProfileCodec (H : Type) where
  GetSerializedSizeInPerStaProfile : H → H → Nat
  SerializeInPerStaProfile : H → H → List Byte
  DeserializeFromPerStaProfile : List Byte → Nat → H → Except Fatal (H × Nat)

/-- Everything the translated file uses without defining it: the enumerators of
`Variant` and `SubElementId`, the member functions of `CommonInfoBasicMle`, and the
per-STA-profile operations of the three management frames. -/
structure Env (A R P : Type) where
  BASIC_VARIANT : Nat
  UNSET : Nat
  basic_ne_unset : BASIC_VARIANT ≠ UNSET
  PER_STA_PROFILE_SUBELEMENT_ID : Byte
  GetSize : CommonInfoBasicMle → Nat
  GetPresenceBitmap : CommonInfoBasicMle → Nat
  Serialize : CommonInfoBasicMle → List Byte
  Deserialize : CommonInfoBasicMle → List Byte → Nat → Except Fatal (CommonInfoBasicMle × Nat)
  EncodeEmlsrPaddingDelay : Time → Except Fatal Nat
  DecodeEmlsrPaddingDelay : Nat → Time
  EncodeEmlsrTransitionDelay : Time → Except Fatal Nat
  DecodeEmlsrTransitionDelay : Nat → Time
  assocRequest : ProfileCodec A
  reassocRequest : ProfileCodec R
  assocResponse : ProfileCodec P

/-! ## Per-STA Profile sub-element -/

/-- The data members of `MultiLinkElement::PerStaProfileSubelement`. -/
structure PerStaProfileSubelement (A R P : Type) where
  m_variant : Nat
  m_staControl : U16
  m_staMacAddress : Mac48Address
  m_staProfile : StaProfile A R P
  m_containingFrame : ContainingFrame A R P
  deriving DecidableEq, Repr

/-- The data members of `MultiLinkElement`; `m_commonInfo = none` is the
`std::monostate` alternative. -/
structure MultiLinkElement (A R P : Type) where
  m_containingFrame : ContainingFrame A R P
  m_commonInfo : Option CommonInfoBasicMle
  m_perStaProfileSubelements : List (PerStaProfileSubelement A R P)
  deriving DecidableEq, Repr

variable {A R P : Type}

/-! ## Multi-Link Element: variant and Common Info accessors -/

namespace MultiLinkElement

/-- `MultiLinkElement::MultiLinkElement (ContainingFrame frame)`: the Common Info
holds `std::monostate` (UNSET) and there is no sub-element. -/
def create (frame : ContainingFrame A R P) : MultiLinkElement A R P :=
  { m_containingFrame := frame, m_commonInfo := none, m_perStaProfileSubelements := [] }

/-- `MultiLinkElement::GetVariant`: the index of the alternative held by
`m_commonInfo`. -/
def GetVariant (env : Env A R P) (e : MultiLinkElement A R P) : Nat :=
  match e.m_commonInfo with
  | some _ => env.BASIC_VARIANT
  | none => env.UNSET

/-- `MultiLinkElement::SetVariant`. -/
def SetVariant (env : Env A R P) (e : MultiLinkElement A R P) (variant : Nat) :
    Except Fatal (MultiLinkElement A R P) :=
  if GetVariant env e ≠ env.UNSET then .error .abort
  else if variant = env.UNSET then .error .abort
  else if variant = env.BASIC_VARIANT then .ok { e with m_commonInfo := some {} }
  else .error .abort

/-- `MultiLinkElement::MultiLinkElement (Variant variant, ContainingFrame frame)`. -/
def createWithVariant (env : Env A R P) (variant : Nat) (frame : ContainingFrame A R P) :
    Except Fatal (MultiLinkElement A R P) :=
  if variant = env.UNSET then .error .assert
  else SetVariant env (create frame) variant

/-- `MultiLinkElement::GetCommonInfoBasic`: `std::get<BASIC_VARIANT>` throws when the
Common Info holds `std::monostate`. -/
def GetCommonInfoBasic (e : MultiLinkElement A R P) : Except Fatal CommonInfoBasicMle :=
  match e.m_commonInfo with
  | some c => .ok c
  | none => .error .badAccess

/-- `MultiLinkElement::SetMldMacAddress`. -/
def SetMldMacAddress (e : MultiLinkElement A R P) (address : Mac48Address) :
    Except Fatal (MultiLinkElement A R P) :=
  match e.m_commonInfo with
  | some c => .ok { e with m_commonInfo := some { c with m_mldMacAddress := address } }
  | none => .error .badAccess

/-- `MultiLinkElement::GetMldMacAddress`. -/
def GetMldMacAddress (e : MultiLinkElement A R P) : Except Fatal Mac48Address :=
  match e.m_commonInfo with
  | some c => .ok c.m_mldMacAddress
  | none => .error .badAccess

/-- `MultiLinkElement::SetLinkIdInfo`. -/
def SetLinkIdInfo (e : MultiLinkElement A R P) (linkIdInfo : Byte) :
    Except Fatal (MultiLinkElement A R P) :=
  match e.m_commonInfo with
  | some c => .ok { e with m_commonInfo := some { c with m_linkIdInfo := some (toU8 (linkIdInfo.val &&& 0x0f)) } }
  | none => .error .badAccess

/-- `MultiLinkElement::HasLinkIdInfo`. -/
def HasLinkIdInfo (e : MultiLinkElement A R P) : Except Fatal Bool :=
  match e.m_commonInfo with
  | some c => .ok c.m_linkIdInfo.isSome
  | none => .error .badAccess

/-- `MultiLinkElement::GetLinkIdInfo`: `std::optional::value` throws when empty. -/
def GetLinkIdInfo (e : MultiLinkElement A R P) : Except Fatal Byte :=
  match e.m_commonInfo with
  | some c =>
    match c.m_linkIdInfo with
    | some v => .ok v
    | none => .error .badAccess
  | none => .error .badAccess

/-- `MultiLinkElement::SetBssParamsChangeCount`. -/
def SetBssParamsChangeCount (e : MultiLinkElement A R P) (count : Byte) :
    Except Fatal (MultiLinkElement A R P) :=
  match e.m_commonInfo with
  | some c => .ok { e with m_commonInfo := some { c with m_bssParamsChangeCount := some count } }
  | none => .error .badAccess

/-- `MultiLinkElement::HasBssParamsChangeCount`. -/
def HasBssParamsChangeCount (e : MultiLinkElement A R P) : Except Fatal Bool :=
  match e.m_commonInfo with
  | some c => .ok c.m_bssParamsChangeCount.isSome
  | none => .error .badAccess

/-- `MultiLinkElement::GetBssParamsChangeCount`. -/
def GetBssParamsChangeCount (e : MultiLinkElement A R P) : Except Fatal Byte :=
  match e.m_commonInfo with
  | some c =>
    match c.m_bssParamsChangeCount with
    | some v => .ok v
    | none => .error .badAccess
  | none => .error .badAccess

/-- The common prologue of the EML setters: the existing record, or a
value-initialised one when the optional is empty. -/
def emlCapabilitiesOrNew (c : CommonInfoBasicMle) : EmlCapabilities :=
  match c.m_emlCapabilities with
  | some caps => caps
  | none => {}

/-- `MultiLinkElement::SetEmlsrSupported`. -/
def SetEmlsrSupported (e : MultiLinkElement A R P) (supported : Bool) :
    Except Fatal (MultiLinkElement A R P) :=
  match e.m_commonInfo with
  | none => .error .badAccess
  | some c =>
    let emlCapabilities := emlCapabilitiesOrNew c
    let caps : EmlCapabilities := { emlCapabilities with emlsrSupport := if supported then 1 else 0 }
    .ok { e with m_commonInfo := some { c with m_emlCapabilities := some caps } }

/-- `MultiLinkElement::SetEmlsrPaddingDelay`. -/
def SetEmlsrPaddingDelay (env : Env A R P) (e : MultiLinkElement A R P) (delay : Time) :
    Except Fatal (MultiLinkElement A R P) :=
  match e.m_commonInfo with
  | none => .error .badAccess
  | some c =>
    let emlCapabilities := emlCapabilitiesOrNew c
    match env.EncodeEmlsrPaddingDelay delay with
    | .error k => .error k
    | .ok code =>
      let caps : EmlCapabilities := { emlCapabilities with emlsrPaddingDelay := code }
      .ok { e with m_commonInfo := some { c with m_emlCapabilities := some caps } }

/-- `MultiLinkElement::SetEmlsrTransitionDelay`. -/
def SetEmlsrTransitionDelay (env : Env A R P) (e : MultiLinkElement A R P) (delay : Time) :
    Except Fatal (MultiLinkElement A R P) :=
  match e.m_commonInfo with
  | none => .error .badAccess
  | some c =>
    let emlCapabilities := emlCapabilitiesOrNew c
    match env.EncodeEmlsrTransitionDelay delay with
    | .error k => .error k
    | .ok code =>
      let caps : EmlCapabilities := { emlCapabilities with emlsrTransitionDelay := code }
      .ok { e with m_commonInfo := some { c with m_emlCapabilities := some caps } }

/-- The loop `for (i = 1; i <= 10; i++) { if (1 << (i + 6) == timeoutUs) { ...; break; } }`
of `SetTransitionTimeout`, started at `i` with `n` as a bound on the iterations left.
It yields the record and the value of `i` when the loop is left. -/
def SetTransitionTimeout.loop (timeoutUs : Int) (emlCapabilities : EmlCapabilities) :
    Nat → Nat → EmlCapabilities × Nat
  | 0, i => (emlCapabilities, i)
  | n + 1, i =>
    if i ≤ 10 then
      if ((1 <<< (i + 6) : Nat) : Int) = timeoutUs then
        ({ emlCapabilities with transitionTimeout := i }, i)
      else SetTransitionTimeout.loop timeoutUs emlCapabilities n (i + 1)
    else (emlCapabilities, i)

/-- `MultiLinkElement::SetTransitionTimeout`. -/
def SetTransitionTimeout (e : MultiLinkElement A R P) (timeout : Time) :
    Except Fatal (MultiLinkElement A R P) :=
  match e.m_commonInfo with
  | none => .error .badAccess
  | some c =>
    let emlCapabilities := emlCapabilitiesOrNew c
    let timeoutUs := Time.GetMicroSeconds timeout
    if timeoutUs = 0 then
      let caps : EmlCapabilities := { emlCapabilities with transitionTimeout := 0 }
      .ok { e with m_commonInfo := some { c with m_emlCapabilities := some caps } }
    else
      let r := SetTransitionTimeout.loop timeoutUs emlCapabilities 11 1
      if r.2 > 10 then .error .abort
      else .ok { e with m_commonInfo := some { c with m_emlCapabilities := some r.1 } }

/-- `MultiLinkElement::HasEmlCapabilities`. -/
def HasEmlCapabilities (e : MultiLinkElement A R P) : Except Fatal Bool :=
  match e.m_commonInfo with
  | some c => .ok c.m_emlCapabilities.isSome
  | none => .error .badAccess

/-- `MultiLinkElement::IsEmlsrSupported`: the optional is dereferenced unchecked. -/
def IsEmlsrSupported (e : MultiLinkElement A R P) : Except Fatal Bool :=
  match e.m_commonInfo with
  | none => .error .badAccess
  | some c =>
    match c.m_emlCapabilities with
    | none => .error .undefinedBehaviour
    | some caps => .ok (decide (caps.emlsrSupport ≠ 0))

/-- `MultiLinkElement::GetEmlsrPaddingDelay`. -/
def GetEmlsrPaddingDelay (env : Env A R P) (e : MultiLinkElement A R P) : Except Fatal Time :=
  match e.m_commonInfo with
  | none => .error .badAccess
  | some c =>
    match c.m_emlCapabilities with
    | none => .error .assert
    | some caps => .ok (env.DecodeEmlsrPaddingDelay caps.emlsrPaddingDelay)

/-- `MultiLinkElement::GetEmlsrTransitionDelay`. -/
def GetEmlsrTransitionDelay (env : Env A R P) (e : MultiLinkElement A R P) : Except Fatal Time :=
  match e.m_commonInfo with
  | none => .error .badAccess
  | some c =>
    match c.m_emlCapabilities with
    | none => .error .assert
    | some caps => .ok (env.DecodeEmlsrTransitionDelay caps.emlsrTransitionDelay)

/-- `MultiLinkElement::GetTransitionTimeout`. -/
def GetTransitionTimeout (e : MultiLinkElement A R P) : Except Fatal Time :=
  match e.m_commonInfo with
  | none => .error .badAccess
  | some c =>
    match c.m_emlCapabilities with
    | none => .error .assert
    | some caps =>
      if caps.transitionTimeout = 0 then .ok (MicroSeconds 0)
      else .ok (MicroSeconds ((1 <<< (6 + caps.transitionTimeout) : Nat) : Int))

end MultiLinkElement

/-! ## Per-STA Profile sub-element: operations -/

namespace PerStaProfileSubelement

/-- `PerStaProfileSubelement::PerStaProfileSubelement (Variant variant)`; the members
not named by the constructor are default-constructed. -/
def create (variant : Nat) : PerStaProfileSubelement A R P :=
  { m_variant := variant, m_staControl := 0, m_staMacAddress := {},
    m_staProfile := .monostate, m_containingFrame := .monostate }

/-- `PerStaProfileSubelement::SetLinkId`. -/
def SetLinkId (s : PerStaProfileSubelement A R P) (linkId : Byte) : PerStaProfileSubelement A R P :=
  let staControl := toU16 (s.m_staControl.val &&& 0xfff0)
  { s with m_staControl := toU16 (staControl.val ||| (linkId.val &&& 0x0f)) }

/-- `PerStaProfileSubelement::GetLinkId`. -/
def GetLinkId (s : PerStaProfileSubelement A R P) : Byte :=
  toU8 (s.m_staControl.val &&& 0x000f)

/-- `PerStaProfileSubelement::SetCompleteProfile`. -/
def SetCompleteProfile (s : PerStaProfileSubelement A R P) : PerStaProfileSubelement A R P :=
  { s with m_staControl := toU16 (s.m_staControl.val ||| 0x0010) }

/-- `PerStaProfileSubelement::IsCompleteProfileSet`. -/
def IsCompleteProfileSet (s : PerStaProfileSubelement A R P) : Bool :=
  decide ((s.m_staControl.val &&& 0x0010) ≠ 0)

/-- `PerStaProfileSubelement::SetStaMacAddress`. -/
def SetStaMacAddress (env : Env A R P) (s : PerStaProfileSubelement A R P)
    (address : Mac48Address) : Except Fatal (PerStaProfileSubelement A R P) :=
  if s.m_variant ≠ env.BASIC_VARIANT then .error .abort
  else .ok { s with m_staMacAddress := address,
                    m_staControl := toU16 (s.m_staControl.val ||| 0x0020) }

/-- `PerStaProfileSubelement::HasStaMacAddress`. -/
def HasStaMacAddress (s : PerStaProfileSubelement A R P) : Bool :=
  decide ((s.m_staControl.val &&& 0x0020) ≠ 0)

/-- `PerStaProfileSubelement::GetStaMacAddress`. -/
def GetStaMacAddress (s : PerStaProfileSubelement A R P) : Except Fatal Mac48Address :=
  if ¬ HasStaMacAddress s then .error .abort else .ok s.m_staMacAddress

/-- `PerStaProfileSubelement::SetAssocRequest`, both overloads: the argument holds an
Association Request or a Reassociation Request. -/
def SetAssocRequest (s : PerStaProfileSubelement A R P) (assoc : A ⊕ R) :
    PerStaProfileSubelement A R P :=
  match assoc with
  | .inl frame => { s with m_staProfile := .assocRequest frame }
  | .inr frame => { s with m_staProfile := .reassocRequest frame }

/-- `PerStaProfileSubelement::HasAssocRequest`. -/
def HasAssocRequest (s : PerStaProfileSubelement A R P) : Bool :=
  match s.m_staProfile with
  | .assocRequest _ => true
  | _ => false

/-- `PerStaProfileSubelement::HasReassocRequest`. -/
def HasReassocRequest (s : PerStaProfileSubelement A R P) : Bool :=
  match s.m_staProfile with
  | .reassocRequest _ => true
  | _ => false

/-- `PerStaProfileSubelement::GetAssocRequest`. -/
def GetAssocRequest (s : PerStaProfileSubelement A R P) : Except Fatal (A ⊕ R) :=
  match s.m_staProfile with
  | .assocRequest frame => .ok (.inl frame)
  | .reassocRequest frame => .ok (.inr frame)
  | _ => .error .abort

/-- `PerStaProfileSubelement::SetAssocResponse`, both overloads. -/
def SetAssocResponse (s : PerStaProfileSubelement A R P) (assoc : P) :
    PerStaProfileSubelement A R P :=
  { s with m_staProfile := .assocResponse assoc }

/-- `PerStaProfileSubelement::HasAssocResponse`. -/
def HasAssocResponse (s : PerStaProfileSubelement A R P) : Bool :=
  match s.m_staProfile with
  | .assocResponse _ => true
  | _ => false

/-- `PerStaProfileSubelement::GetAssocResponse`. -/
def GetAssocResponse (s : PerStaProfileSubelement A R P) : Except Fatal P :=
  match s.m_staProfile with
  | .assocResponse frame => .ok frame
  | _ => .error .abort

/-- `PerStaProfileSubelement::GetStaInfoLength`. -/
def GetStaInfoLength (s : PerStaProfileSubelement A R P) : Nat :=
  let ret := 1
  if HasStaMacAddress s then (ret + 6) % 256 else ret

/-- `PerStaProfileSubelement::ElementId`. -/
def ElementId (env : Env A R P) (_s : PerStaProfileSubelement A R P) : Byte :=
  env.PER_STA_PROFILE_SUBELEMENT_ID

/-- The visitor `staProfileSize` of `GetInformationFieldSize`; its result is a
`uint32_t`. -/
def staProfileSize (env : Env A R P) (s : PerStaProfileSubelement A R P) : Except Fatal Nat :=
  match s.m_staProfile with
  | .monostate =>
    match s.m_containingFrame with
    | .monostate => .ok 0
    | _ => .error .assert
  | .assocRequest frame =>
    match s.m_containingFrame with
    | .assocRequest containing =>
      .ok (env.assocRequest.GetSerializedSizeInPerStaProfile frame containing % 4294967296)
    | _ => .error .assert
  | .reassocRequest frame =>
    match s.m_containingFrame with
    | .reassocRequest containing =>
      .ok (env.reassocRequest.GetSerializedSizeInPerStaProfile frame containing % 4294967296)
    | _ => .error .assert
  | .assocResponse frame =>
    match s.m_containingFrame with
    | .assocResponse containing =>
      .ok (env.assocResponse.GetSerializedSizeInPerStaProfile frame containing % 4294967296)
    | _ => .error .assert

/-- `PerStaProfileSubelement::GetInformationFieldSize`; `ret` is a `uint16_t`. -/
def GetInformationFieldSize (env : Env A R P) (s : PerStaProfileSubelement A R P) :
    Except Fatal Nat :=
  let ret := 2
  let ret := (ret + GetStaInfoLength s) % 65536
  match staProfileSize env s with
  | .error k => .error k
  | .ok n => .ok ((ret + n) % 65536)

/-- The visitor `staProfileSerialize` of `SerializeInformationField`: the bytes the
owned frame writes. -/
def staProfileSerialize (env : Env A R P) (s : PerStaProfileSubelement A R P) :
    Except Fatal (List Byte) :=
  match s.m_staProfile with
  | .monostate =>
    match s.m_containingFrame with
    | .monostate => .ok []
    | _ => .error .assert
  | .assocRequest frame =>
    match s.m_containingFrame with
    | .assocRequest containing => .ok (env.assocRequest.SerializeInPerStaProfile frame containing)
    | _ => .error .assert
  | .reassocRequest frame =>
    match s.m_containingFrame with
    | .reassocRequest containing =>
      .ok (env.reassocRequest.SerializeInPerStaProfile frame containing)
    | _ => .error .assert
  | .assocResponse frame =>
    match s.m_containingFrame with
    | .assocResponse containing =>
      .ok (env.assocResponse.SerializeInPerStaProfile frame containing)
    | _ => .error .assert

/-- `PerStaProfileSubelement::SerializeInformationField`: the bytes written from
`start` on. -/
def SerializeInformationField (env : Env A R P) (s : PerStaProfileSubelement A R P) :
    Except Fatal (List Byte) :=
  let out := WriteHtolsbU16 s.m_staControl.val ++ WriteU8 (GetStaInfoLength s)
  let out := if HasStaMacAddress s then out ++ WriteTo s.m_staMacAddress else out
  match staProfileSerialize env s with
  | .error k => .error k
  | .ok bytes => .ok (out ++ bytes)

/-- The visitor `staProfileDeserialize` of `DeserializeInformationField`, applied to
the containing frame with the iterator `i`, the declared `length` and the bytes
`count` read so far. -/
def staProfileDeserialize (env : Env A R P) (s : PerStaProfileSubelement A R P)
    (i : List Byte) (length count : Nat) : Except Fatal (PerStaProfileSubelement A R P × Nat) :=
  match s.m_containingFrame with
  | .monostate => .ok (s, count)
  | .assocRequest containing =>
    match env.assocRequest.DeserializeFromPerStaProfile i (length - count) containing with
    | .error k => .error k
    | .ok (assoc, n) =>
      .ok ({ s with m_staProfile := .assocRequest assoc }, (count + n % 4294967296) % 65536)
  | .reassocRequest containing =>
    match env.reassocRequest.DeserializeFromPerStaProfile i (length - count) containing with
    | .error k => .error k
    | .ok (assoc, n) =>
      .ok ({ s with m_staProfile := .reassocRequest assoc }, (count + n % 4294967296) % 65536)
  | .assocResponse containing =>
    match env.assocResponse.DeserializeFromPerStaProfile i (length - count) containing with
    | .error k => .error k
    | .ok (assoc, n) =>
      .ok ({ s with m_staProfile := .assocResponse assoc }, (count + n % 4294967296) % 65536)

/-- The optional read of the STA MAC address in `DeserializeInformationField`. -/
def readStaInfo (s : PerStaProfileSubelement A R P) (i : List Byte) :
    Except Fatal (PerStaProfileSubelement A R P × List Byte) :=
  if HasStaMacAddress s then
    match ReadFrom i with
    | .error k => .error k
    | .ok (address, i) => .ok ({ s with m_staMacAddress := address }, i)
  else .ok (s, i)

/-- `PerStaProfileSubelement::DeserializeInformationField (start, length)`: the
sub-element after the call and the returned count. -/
def DeserializeInformationField (env : Env A R P) (s : PerStaProfileSubelement A R P)
    (start : List Byte) (length : Nat) : Except Fatal (PerStaProfileSubelement A R P × Nat) :=
  match ReadLsbtohU16 start with
  | .error k => .error k
  | .ok (staControl, i) =>
    let s := { s with m_staControl := toU16 staControl }
    match ReadU8 i with
    | .error k => .error k
    | .ok (_, i) =>
      match readStaInfo s i with
      | .error k => .error k
      | .ok (s, i) =>
        let count := GetDistanceFrom i start % 65536
        if ¬ count ≤ length then .error .assert
        else if count = length then .ok (s, count)
        else staProfileDeserialize env s i length count

/-- Modelled from the spec: `WifiInformationElement::GetSerializedSize` for the
sub-element, whose framing is Sub-element ID (1 byte) + Length (1 byte) + payload.
A payload the one-byte Length cannot announce is outside the model. -/
def GetSerializedSize (env : Env A R P) (s : PerStaProfileSubelement A R P) : Except Fatal Nat :=
  match GetInformationFieldSize env s with
  | .error k => .error k
  | .ok size => if size ≤ 255 then .ok (2 + size) else .error .tooLong

/-- Modelled from the spec: `WifiInformationElement::Serialize` for the sub-element:
Sub-element ID, Length, then the information field. -/
def Serialize (env : Env A R P) (s : PerStaProfileSubelement A R P) : Except Fatal (List Byte) :=
  match GetInformationFieldSize env s with
  | .error k => .error k
  | .ok size =>
    if size ≤ 255 then
      match SerializeInformationField env s with
      | .error k => .error k
      | .ok bytes => .ok (WriteU8 (ElementId env s).val ++ WriteU8 size ++ bytes)
    else .error .tooLong

/-- Modelled from the spec: `WifiInformationElement::Deserialize` for the sub-element:
the Sub-element ID is checked, the Length is read, the information field is
deserialized with that declared length, a mismatch between the declared length and
the bytes consumed is fatal, and the iterator is left behind the payload. -/
def Deserialize (env : Env A R P) (s : PerStaProfileSubelement A R P) (i : List Byte) :
    Except Fatal (PerStaProfileSubelement A R P × List Byte) :=
  match ReadU8 i with
  | .error k => .error k
  | .ok (id, i) =>
    if id ≠ (ElementId env s).val then .error .assert
    else
      match ReadU8 i with
      | .error k => .error k
      | .ok (length, i) =>
        match DeserializeInformationField env s i length with
        | .error k => .error k
        | .ok (s, count) =>
          if count ≠ length then .error .abort
          else
            match Next length i with
            | .error k => .error k
            | .ok i => .ok (s, i)

/-- `PerStaProfileSubelement::operator=` for two distinct objects: the profile of the
target is replaced only when the source owns a frame. -/
def assign (target source : PerStaProfileSubelement A R P) : PerStaProfileSubelement A R P :=
  let target := { target with m_variant := source.m_variant,
                              m_staControl := source.m_staControl,
                              m_staMacAddress := source.m_staMacAddress }
  match source.m_staProfile with
  | .monostate => target
  | profile => { target with m_staProfile := profile }

/-- The copy constructor `PerStaProfileSubelement (const PerStaProfileSubelement&)`;
`m_staProfile` and `m_containingFrame` start default-constructed. -/
def copy (source : PerStaProfileSubelement A R P) : PerStaProfileSubelement A R P :=
  let target : PerStaProfileSubelement A R P :=
    { m_variant := source.m_variant, m_staControl := source.m_staControl,
      m_staMacAddress := source.m_staMacAddress, m_staProfile := .monostate,
      m_containingFrame := .monostate }
  match source.m_staProfile with
  | .monostate => target
  | profile => { target with m_staProfile := profile }

end PerStaProfileSubelement

/-! ## Multi-Link Element: sub-elements, size, serialization, deserialization -/

namespace MultiLinkElement

/-- `MultiLinkElement::AddPerStaProfileSubelement`. -/
def AddPerStaProfileSubelement (env : Env A R P) (e : MultiLinkElement A R P) :
    Except Fatal (MultiLinkElement A R P) :=
  let variant := GetVariant env e
  if variant = env.UNSET then .error .abort
  else .ok { e with m_perStaProfileSubelements :=
                      e.m_perStaProfileSubelements ++ [PerStaProfileSubelement.create variant] }

/-- `MultiLinkElement::GetNPerStaProfileSubelements`. -/
def GetNPerStaProfileSubelements (e : MultiLinkElement A R P) : Nat :=
  e.m_perStaProfileSubelements.length

/-- `MultiLinkElement::GetPerStaProfile (i)`: `std::vector::at` throws when `i` is out
of range. -/
def GetPerStaProfile (e : MultiLinkElement A R P) (i : Nat) :
    Except Fatal (PerStaProfileSubelement A R P) :=
  match e.m_perStaProfileSubelements.get? i with
  | some s => .ok s
  | none => .error .badAccess

/-- A write through the reference returned by `GetPerStaProfile (i)`. -/
def updatePerStaProfile (e : MultiLinkElement A R P) (i : Nat)
    (s : PerStaProfileSubelement A R P) : MultiLinkElement A R P :=
  { e with m_perStaProfileSubelements := e.m_perStaProfileSubelements.set i s }

/-- The loop over the sub-elements in `GetInformationFieldSize`: each sub-element
receives the containing frame, then its serialized size is added to the `uint16_t`
accumulator.  It yields the accumulator and the sub-elements as the loop leaves them. -/
def GetInformationFieldSize.loop (env : Env A R P) (frame : ContainingFrame A R P) :
    List (PerStaProfileSubelement A R P) → Nat →
      Except Fatal (Nat × List (PerStaProfileSubelement A R P))
  | [], ret => .ok (ret, [])
  | subelement :: rest, ret =>
    let subelement := { subelement with m_containingFrame := frame }
    match PerStaProfileSubelement.GetSerializedSize env subelement with
    | .error k => .error k
    | .ok n =>
      match GetInformationFieldSize.loop env frame rest ((ret + n) % 65536) with
      | .error k => .error k
      | .ok (ret, rest) => .ok (ret, subelement :: rest)

/-- `MultiLinkElement::GetInformationFieldSize`: the returned size and the element
with the `mutable` member `m_containingFrame` of its sub-elements updated. -/
def GetInformationFieldSize (env : Env A R P) (e : MultiLinkElement A R P) :
    Except Fatal (Nat × MultiLinkElement A R P) :=
  let ret := 3
  match e.m_commonInfo with
  | none => .error .abort
  | some arg =>
    let ret := (ret + env.GetSize arg % 256) % 65536
    match GetInformationFieldSize.loop env e.m_containingFrame e.m_perStaProfileSubelements ret with
    | .error k => .error k
    | .ok (ret, subelements) => .ok (ret, { e with m_perStaProfileSubelements := subelements })

/-- The loop over the sub-elements in `SerializeInformationField`. -/
def SerializeInformationField.loop (env : Env A R P) :
    List (PerStaProfileSubelement A R P) → Except Fatal (List Byte)
  | [] => .ok []
  | subelement :: rest =>
    match PerStaProfileSubelement.Serialize env subelement with
    | .error k => .error k
    | .ok bytes =>
      match SerializeInformationField.loop env rest with
      | .error k => .error k
      | .ok more => .ok (bytes ++ more)

/-- `MultiLinkElement::SerializeInformationField`: the bytes written from `start` on. -/
def SerializeInformationField (env : Env A R P) (e : MultiLinkElement A R P) :
    Except Fatal (List Byte) :=
  match e.m_commonInfo with
  | none => .error .abort
  | some arg =>
    let mlControl := (GetVariant env e % 256 + (env.GetPresenceBitmap arg % 65536) <<< 4) % 65536
    let out := WriteHtolsbU16 mlControl ++ env.Serialize arg
    match SerializeInformationField.loop env e.m_perStaProfileSubelements with
    | .error k => .error k
    | .ok bytes => .ok (out ++ bytes)

/-- The `while (count < length)` loop of `DeserializeInformationField`.  `fuel` bounds
the number of iterations; every iteration that does not stop the program moves the
iterator forward by two bytes at least, so the bytes in front of the iterator, plus
one, are fuel enough. -/
def DeserializeInformationField.loop (env : Env A R P) (start : List Byte) (length : Nat) :
    Nat → MultiLinkElement A R P → List Byte → Nat → Except Fatal (MultiLinkElement A R P × Nat)
  | 0, _, _, _ => .error .bufferEnd
  | fuel + 1, e, i, count =>
    if count < length then
      match PeekU8 i with
      | .error k => .error k
      | .ok id =>
        if id = env.PER_STA_PROFILE_SUBELEMENT_ID.val then
          match AddPerStaProfileSubelement env e with
          | .error k => .error k
          | .ok e =>
            match GetPerStaProfile e (GetNPerStaProfileSubelements e - 1) with
            | .error k => .error k
            | .ok perStaProfile =>
              let perStaProfile := { perStaProfile with m_containingFrame := e.m_containingFrame }
              match PerStaProfileSubelement.Deserialize env perStaProfile i with
              | .error k => .error k
              | .ok (perStaProfile, i) =>
                let e := updatePerStaProfile e (GetNPerStaProfileSubelements e - 1) perStaProfile
                let count := GetDistanceFrom i start % 65536
                DeserializeInformationField.loop env start length fuel e i count
        else .error .abort
    else .ok (e, count)

/-- `MultiLinkElement::DeserializeInformationField (start, length)`: the element after
the call and the returned count. -/
def DeserializeInformationField (env : Env A R P) (e : MultiLinkElement A R P)
    (start : List Byte) (length : Nat) : Except Fatal (MultiLinkElement A R P × Nat) :=
  let count := 0
  match ReadLsbtohU16 start with
  | .error k => .error k
  | .ok (mlControl, i) =>
    let count := count + 2
    match SetVariant env e (mlControl &&& 0x0007) with
    | .error k => .error k
    | .ok e =>
      let presence := mlControl >>> 4
      match e.m_commonInfo with
      | none => .error .abort
      | some arg =>
        match env.Deserialize arg i presence with
        | .error k => .error k
        | .ok (arg, nBytes) =>
          let nBytes := nBytes % 256
          let e := { e with m_commonInfo := some arg }
          match Next nBytes i with
          | .error k => .error k
          | .ok i =>
            let count := (count + nBytes) % 65536
            DeserializeInformationField.loop env start length (i.length + 1) e i count

/-- States of a Multi-Link Element that a program can reach: a constructed element,
changed by the public operations.  A write through the reference returned by
`GetPerStaProfile` may leave any sub-element value in place of the old one. -/
inductive Reachable (env : Env A R P) : MultiLinkElement A R P → Prop
  | create (frame : ContainingFrame A R P) : Reachable env (create frame)
  | SetVariant {e e1 : MultiLinkElement A R P} (variant : Nat) :
      Reachable env e → SetVariant env e variant = .ok e1 → Reachable env e1
  | SetMldMacAddress {e e1 : MultiLinkElement A R P} (address : Mac48Address) :
      Reachable env e → SetMldMacAddress e address = .ok e1 → Reachable env e1
  | SetLinkIdInfo {e e1 : MultiLinkElement A R P} (linkIdInfo : Byte) :
      Reachable env e → SetLinkIdInfo e linkIdInfo = .ok e1 → Reachable env e1
  | SetBssParamsChangeCount {e e1 : MultiLinkElement A R P} (count : Byte) :
      Reachable env e → SetBssParamsChangeCount e count = .ok e1 → Reachable env e1
  | SetEmlsrSupported {e e1 : MultiLinkElement A R P} (supported : Bool) :
      Reachable env e → SetEmlsrSupported e supported = .ok e1 → Reachable env e1
  | SetEmlsrPaddingDelay {e e1 : MultiLinkElement A R P} (delay : Time) :
      Reachable env e → SetEmlsrPaddingDelay env e delay = .ok e1 → Reachable env e1
  | SetEmlsrTransitionDelay {e e1 : MultiLinkElement A R P} (delay : Time) :
      Reachable env e → SetEmlsrTransitionDelay env e delay = .ok e1 → Reachable env e1
  | SetTransitionTimeout {e e1 : MultiLinkElement A R P} (timeout : Time) :
      Reachable env e → SetTransitionTimeout e timeout = .ok e1 → Reachable env e1
  | AddPerStaProfileSubelement {e e1 : MultiLinkElement A R P} :
      Reachable env e → AddPerStaProfileSubelement env e = .ok e1 → Reachable env e1
  | updatePerStaProfile {e : MultiLinkElement A R P} (i : Nat)
      (s s1 : PerStaProfileSubelement A R P) :
      Reachable env e → GetPerStaProfile e i = .ok s → Reachable env (updatePerStaProfile e i s1)
  | GetInformationFieldSize {e e1 : MultiLinkElement A R P} (size : Nat) :
      Reachable env e → GetInformationFieldSize env e = .ok (size, e1) → Reachable env e1
  | DeserializeInformationField {e e1 : MultiLinkElement A R P} (start : List Byte)
      (length count : Nat) :
      Reachable env e → DeserializeInformationField env e start length = .ok (e1, count) →
      Reachable env e1

/-- States of a Multi-Link Element built from a newly constructed element by
`SetVariant`, the Common Info setters, `AddPerStaProfileSubelement` and
`DeserializeInformationField`, and by writes through the reference returned by
`GetPerStaProfile` that keep the variant of the sub-element, as all its setters do. -/
inductive Constructed (env : Env A R P) : MultiLinkElement A R P → Prop
  | create (frame : ContainingFrame A R P) : Constructed env (create frame)
  | SetVariant {e e1 : MultiLinkElement A R P} (variant : Nat) :
      Constructed env e → SetVariant env e variant = .ok e1 → Constructed env e1
  | SetMldMacAddress {e e1 : MultiLinkElement A R P} (address : Mac48Address) :
      Constructed env e → SetMldMacAddress e address = .ok e1 → Constructed env e1
  | SetLinkIdInfo {e e1 : MultiLinkElement A R P} (linkIdInfo : Byte) :
      Constructed env e → SetLinkIdInfo e linkIdInfo = .ok e1 → Constructed env e1
  | SetBssParamsChangeCount {e e1 : MultiLinkElement A R P} (count : Byte) :
      Constructed env e → SetBssParamsChangeCount e count = .ok e1 → Constructed env e1
  | SetEmlsrSupported {e e1 : MultiLinkElement A R P} (supported : Bool) :
      Constructed env e → SetEmlsrSupported e supported = .ok e1 → Constructed env e1
  | SetEmlsrPaddingDelay {e e1 : MultiLinkElement A R P} (delay : Time) :
      Constructed env e → SetEmlsrPaddingDelay env e delay = .ok e1 → Constructed env e1
  | SetEmlsrTransitionDelay {e e1 : MultiLinkElement A R P} (delay : Time) :
      Constructed env e → SetEmlsrTransitionDelay env e delay = .ok e1 → Constructed env e1
  | SetTransitionTimeout {e e1 : MultiLinkElement A R P} (timeout : Time) :
      Constructed env e → SetTransitionTimeout e timeout = .ok e1 → Constructed env e1
  | AddPerStaProfileSubelement {e e1 : MultiLinkElement A R P} :
      Constructed env e → AddPerStaProfileSubelement env e = .ok e1 → Constructed env e1
  | DeserializeInformationField {e e1 : MultiLinkElement A R P} (start : List Byte)
      (length count : Nat) :
      Constructed env e → DeserializeInformationField env e start length = .ok (e1, count) →
      Constructed env e1
  | updatePerStaProfile {e : MultiLinkElement A R P} (i : Nat)
      (s s1 : PerStaProfileSubelement A R P) :
      Constructed env e → GetPerStaProfile e i = .ok s → s1.m_variant = s.m_variant →
      Constructed env (updatePerStaProfile e i s1)

end MultiLinkElement

/-! ## Conditions named by the specification -/

/-- The collaborator contract of a management frame `frame` inside `containing`: the
reported size is the number of bytes written, at least one byte is written, and
deserializing the bytes written, with their number as the length, gives the frame back
and reports that number as consumed. -/
def ProfileCodec.Faithful {H : Type} (codec : ProfileCodec H) (frame containing : H) : Prop :=
  codec.GetSerializedSizeInPerStaProfile frame containing
      = (codec.SerializeInPerStaProfile frame containing).length
  ∧ 0 < (codec.SerializeInPerStaProfile frame containing).length
  ∧ ∀ rest : List Byte,
      codec.DeserializeFromPerStaProfile (codec.SerializeInPerStaProfile frame containing ++ rest)
          (codec.SerializeInPerStaProfile frame containing).length containing
        = .ok (frame, (codec.SerializeInPerStaProfile frame containing).length)

/-- The assumption that the collaborators write exactly as many bytes as their own
size operation reports: the Common Info field and the three management frames. -/
def Env.SizesAgree (env : Env A R P) : Prop :=
  (∀ c, env.GetSize c = (env.Serialize c).length)
  ∧ (∀ frame containing, env.assocRequest.GetSerializedSizeInPerStaProfile frame containing
        = (env.assocRequest.SerializeInPerStaProfile frame containing).length)
  ∧ (∀ frame containing, env.reassocRequest.GetSerializedSizeInPerStaProfile frame containing
        = (env.reassocRequest.SerializeInPerStaProfile frame containing).length)
  ∧ (∀ frame containing, env.assocResponse.GetSerializedSizeInPerStaProfile frame containing
        = (env.assocResponse.SerializeInPerStaProfile frame containing).length)

/-- The collaborator contract of the Common Info field `c`: the presence bitmap fits
the 12 bits the Multi-Link Control field has for it, fewer than 256 bytes are written,
and deserializing the bytes written into a default-constructed Common Info, with the
presence bitmap of `c`, gives `c` back and reports the number of bytes written. -/
def Env.CommonInfoFaithful (env : Env A R P) (c : CommonInfoBasicMle) : Prop :=
  env.GetPresenceBitmap c < 4096
  ∧ (env.Serialize c).length < 256
  ∧ ∀ rest : List Byte,
      env.Deserialize {} (env.Serialize c ++ rest) (env.GetPresenceBitmap c)
        = .ok (c, (env.Serialize c).length)

namespace PerStaProfileSubelement

/-- The profile kind matches the containing frame: no owned frame and no containing
frame, or an owned frame of the kind of the containing frame. -/
def profileMatchesFrame (s : PerStaProfileSubelement A R P) : Bool :=
  match s.m_staProfile, s.m_containingFrame with
  | .monostate, .monostate => true
  | .assocRequest _, .assocRequest _ => true
  | .reassocRequest _, .reassocRequest _ => true
  | .assocResponse _, .assocResponse _ => true
  | _, _ => false

/-- The size-as-profile of the owned frame, 0 when no frame is owned. -/
def ownedFrameSize (env : Env A R P) (s : PerStaProfileSubelement A R P) : Nat :=
  match s.m_staProfile, s.m_containingFrame with
  | .assocRequest frame, .assocRequest containing =>
    env.assocRequest.GetSerializedSizeInPerStaProfile frame containing
  | .reassocRequest frame, .reassocRequest containing =>
    env.reassocRequest.GetSerializedSizeInPerStaProfile frame containing
  | .assocResponse frame, .assocResponse containing =>
    env.assocResponse.GetSerializedSizeInPerStaProfile frame containing
  | _, _ => 0

/-- The bytes the owned frame writes as a profile, none when no frame is owned. -/
def ownedFrameBytes (env : Env A R P) (s : PerStaProfileSubelement A R P) : List Byte :=
  match s.m_staProfile, s.m_containingFrame with
  | .assocRequest frame, .assocRequest containing =>
    env.assocRequest.SerializeInPerStaProfile frame containing
  | .reassocRequest frame, .reassocRequest containing =>
    env.reassocRequest.SerializeInPerStaProfile frame containing
  | .assocResponse frame, .assocResponse containing =>
    env.assocResponse.SerializeInPerStaProfile frame containing
  | _, _ => []

/-- The owned frame, if any, is of the kind of the containing frame and its
collaborator is faithful on it. -/
def FrameFaithful (env : Env A R P) (s : PerStaProfileSubelement A R P) : Prop :=
  match s.m_staProfile, s.m_containingFrame with
  | .monostate, .monostate => True
  | .assocRequest frame, .assocRequest containing => env.assocRequest.Faithful frame containing
  | .reassocRequest frame, .reassocRequest containing =>
    env.reassocRequest.Faithful frame containing
  | .assocResponse frame, .assocResponse containing =>
    env.assocResponse.Faithful frame containing
  | _, _ => False

/-- A sub-element as an element bound to `frame` holds it when validly constructed: it
was created by `AddPerStaProfileSubelement` of a Basic element (Basic variant, default
address unless an address was set), it has received the containing frame of the
element, and its owned frame matches that containing frame. -/
def Valid (env : Env A R P) (frame : ContainingFrame A R P)
    (s : PerStaProfileSubelement A R P) : Prop :=
  s.m_variant = env.BASIC_VARIANT
  ∧ s.m_containingFrame = frame
  ∧ (HasStaMacAddress s = false → s.m_staMacAddress = {})
  ∧ FrameFaithful env s

end PerStaProfileSubelement

/-! ## A concrete environment

The parametric statements below are instantiated at this environment. -/

namespace Example

/-- A management frame seen as the bytes of its per-STA profile: the size is the
number of bytes, serialization writes them, deserialization takes `length` bytes. -/
def rawProfile : ProfileCodec (List Byte) where
  GetSerializedSizeInPerStaProfile := fun frame _ => frame.length
  SerializeInPerStaProfile := fun frame _ => frame
  DeserializeFromPerStaProfile := fun i length _ =>
    if length ≤ i.length then .ok (i.take length, length) else .error .bufferEnd

/-- Modelled from the spec: the presence bitmap of the Common Info field, one bit per
optional field. -/
def GetPresenceBitmap (c : CommonInfoBasicMle) : Nat :=
  (if c.m_linkIdInfo.isSome then 1 else 0) + (if c.m_bssParamsChangeCount.isSome then 2 else 0)
    + (if c.m_emlCapabilities.isSome then 8 else 0)

/-- Modelled from the spec: the size of the Common Info field, the mandatory address
(6 bytes) plus the sizes of the populated optional fields. -/
def GetSize (c : CommonInfoBasicMle) : Nat :=
  6 + (if c.m_linkIdInfo.isSome then 1 else 0) + (if c.m_bssParamsChangeCount.isSome then 1 else 0)
    + (if c.m_emlCapabilities.isSome then 2 else 0)

/-- Modelled from the spec: the bit-packed EML Capabilities, the support flag followed
by the three delay and timeout codes. -/
def packEml (caps : EmlCapabilities) : Nat :=
  caps.emlsrSupport % 2 + (caps.emlsrPaddingDelay % 8) * 2 + (caps.emlsrTransitionDelay % 8) * 16
    + (caps.transitionTimeout % 16) * 2048

/-- Modelled from the spec: the inverse of `packEml`. -/
def unpackEml (v : Nat) : EmlCapabilities :=
  { emlsrSupport := v % 2, emlsrPaddingDelay := v / 2 % 8, emlsrTransitionDelay := v / 16 % 8,
    transitionTimeout := v / 2048 % 16 }

/-- Modelled from the spec: serialization of the Common Info field, the mandatory
address, then each populated optional field in the declared order. -/
def Serialize (c : CommonInfoBasicMle) : List Byte :=
  WriteTo c.m_mldMacAddress
    ++ (match c.m_linkIdInfo with
        | some v => WriteU8 (v.val &&& 0x0f)
        | none => [])
    ++ (match c.m_bssParamsChangeCount with
        | some v => WriteU8 v.val
        | none => [])
    ++ (match c.m_emlCapabilities with
        | some caps => WriteHtolsbU16 (packEml caps)
        | none => [])

/-- Modelled from the spec: the optional Link ID Info of `Deserialize`. -/
def readLinkIdInfo (presence : Nat) (c : CommonInfoBasicMle) (i : List Byte) :
    Except Fatal (CommonInfoBasicMle × List Byte) :=
  if presence % 2 = 1 then
    match ReadU8 i with
    | .error k => .error k
    | .ok (v, i) => .ok ({ c with m_linkIdInfo := some (toU8 (v &&& 0x0f)) }, i)
  else .ok (c, i)

/-- Modelled from the spec: the optional BSS Parameters Change Count of `Deserialize`. -/
def readBssParamsChangeCount (presence : Nat) (c : CommonInfoBasicMle) (i : List Byte) :
    Except Fatal (CommonInfoBasicMle × List Byte) :=
  if presence / 2 % 2 = 1 then
    match ReadU8 i with
    | .error k => .error k
    | .ok (v, i) => .ok ({ c with m_bssParamsChangeCount := some (toU8 v) }, i)
  else .ok (c, i)

/-- Modelled from the spec: the optional EML Capabilities of `Deserialize`. -/
def readEmlCapabilities (presence : Nat) (c : CommonInfoBasicMle) (i : List Byte) :
    Except Fatal (CommonInfoBasicMle × List Byte) :=
  if presence / 8 % 2 = 1 then
    match ReadLsbtohU16 i with
    | .error k => .error k
    | .ok (v, i) => .ok ({ c with m_emlCapabilities := some (unpackEml v) }, i)
  else .ok (c, i)

/-- Modelled from the spec: deserialization of the Common Info field, which reads the
address and exactly the optional fields flagged by the presence bitmap, in the same
order, and returns the bytes read. -/
def Deserialize (c : CommonInfoBasicMle) (start : List Byte) (presence : Nat) :
    Except Fatal (CommonInfoBasicMle × Nat) :=
  match ReadFrom start with
  | .error k => .error k
  | .ok (address, i) =>
    match readLinkIdInfo presence { c with m_mldMacAddress := address } i with
    | .error k => .error k
    | .ok (c, i) =>
      match readBssParamsChangeCount presence c i with
      | .error k => .error k
      | .ok (c, i) =>
        match readEmlCapabilities presence c i with
        | .error k => .error k
        | .ok (c, i) => .ok (c, GetDistanceFrom i start)

/-- Modelled from the spec: a delay code, 0 for no delay, otherwise the exponent `i`
in `1..limit` with `delay = 2^(i + shift)` microseconds; any other delay is fatal. -/
def encodeDelay (shift limit : Nat) (delay : Time) : Except Fatal Nat :=
  if Time.GetMicroSeconds delay = 0 then .ok 0
  else
    match (List.range' 1 limit).find? (fun i => decide (((1 <<< (i + shift) : Nat) : Int) = delay)) with
    | some i => .ok i
    | none => .error .abort

/-- Modelled from the spec: the inverse of `encodeDelay`. -/
def decodeDelay (shift : Nat) (code : Nat) : Time :=
  if code = 0 then MicroSeconds 0 else MicroSeconds ((1 <<< (code + shift) : Nat) : Int)

/-- Modelled from the spec: an environment in which the Basic variant has tag 1, the
Per-STA Profile sub-element has identifier 0, the Common Info field is laid out as in
the wire table, and a management frame is the bytes of its per-STA profile. -/
def env : Env (List Byte) (List Byte) (List Byte) where
  BASIC_VARIANT := 1
  UNSET := 0
  basic_ne_unset := by decide
  PER_STA_PROFILE_SUBELEMENT_ID := 0
  GetSize := GetSize
  GetPresenceBitmap := GetPresenceBitmap
  Serialize := Serialize
  Deserialize := Deserialize
  EncodeEmlsrPaddingDelay := encodeDelay 4 4
  DecodeEmlsrPaddingDelay := decodeDelay 4
  EncodeEmlsrTransitionDelay := encodeDelay 3 5
  DecodeEmlsrTransitionDelay := decodeDelay 3
  assocRequest := rawProfile
  reassocRequest := rawProfile
  assocResponse := rawProfile

/-- The address `AA:BB:CC:DD:EE:FF`. -/
def address : Mac48Address := ⟨0xAA, 0xBB, 0xCC, 0xDD, 0xEE, 0xFF⟩

/-- A sub-element with link ID 3, the complete-profile flag, no address, no frame. -/
def subelement3 : PerStaProfileSubelement (List Byte) (List Byte) (List Byte) :=
  { m_variant := 1, m_staControl := 0x13, m_staMacAddress := {}, m_staProfile := .monostate,
    m_containingFrame := .monostate }

/-- A sub-element with link ID 5, an address, and an Association Request frame of two
bytes, inside an Association Request. -/
def subelement5 : PerStaProfileSubelement (List Byte) (List Byte) (List Byte) :=
  { m_variant := 1, m_staControl := 0x25, m_staMacAddress := address,
    m_staProfile := .assocRequest [0x31, 0x04], m_containingFrame := .assocRequest [0x07] }

/-- A sub-element with link ID 3, the complete-profile flag, no address, and an
Association Request frame of 65534 bytes, inside an Association Request. -/
def subelementLarge : PerStaProfileSubelement (List Byte) (List Byte) (List Byte) :=
  { m_variant := 1, m_staControl := 0x13, m_staMacAddress := {},
    m_staProfile := .assocRequest (List.replicate 65534 0),
    m_containingFrame := .assocRequest [0x07] }

/-- The Common Info of the example elements: an address, a Link ID Info and EML
Capabilities with transition timeout code 6. -/
def commonInfo : CommonInfoBasicMle :=
  { m_mldMacAddress := address, m_linkIdInfo := some 2, m_bssParamsChangeCount := none,
    m_emlCapabilities := some { emlsrSupport := 1, emlsrPaddingDelay := 2,
                                emlsrTransitionDelay := 3, transitionTimeout := 6 } }

/-- A Basic element without a containing frame, with one sub-element. -/
def element : MultiLinkElement (List Byte) (List Byte) (List Byte) :=
  { m_containingFrame := .monostate, m_commonInfo := some commonInfo,
    m_perStaProfileSubelements := [subelement3] }

/-- A Basic element inside an Association Request, with one sub-element that owns an
Association Request frame. -/
def elementInAssocRequest : MultiLinkElement (List Byte) (List Byte) (List Byte) :=
  { m_containingFrame := .assocRequest [0x07], m_commonInfo := some commonInfo,
    m_perStaProfileSubelements := [subelement5] }

/-- A Basic element with the address `AA:BB:CC:DD:EE:FF`, no optional field and no
sub-element. -/
def bareElement : MultiLinkElement (List Byte) (List Byte) (List Byte) :=
  { m_containingFrame := .monostate, m_commonInfo := some { m_mldMacAddress := address },
    m_perStaProfileSubelements := [] }

end Example

end ns3

/-! # Theorems -/

namespace ns3

variable {A R P : Type}

/-! ## Arithmetic of the byte-level primitives -/

theorem toU16_val (n : Nat) : (toU16 n).val = n % 65536 := rfl

theorem toU8_val (n : Nat) : (toU8 n).val = n % 256 := rfl

theorem toU16_of_val (c : U16) : toU16 c.val = c := by
  apply Fin.ext
  simp [toU16_val, Nat.mod_eq_of_lt c.isLt]

theorem read_write_U16 (v : Nat) (hv : v < 65536) (rest : List Byte) :
    ReadLsbtohU16 (WriteHtolsbU16 v ++ rest) = .ok (v, rest) := by
  simp only [WriteHtolsbU16, ReadLsbtohU16, List.cons_append, List.nil_append, toU8_val]
  have : v % 256 + 256 * (v / 256 % 256) = v := by omega
  rw [this]

theorem read_write_address (a : Mac48Address) (rest : List Byte) :
    ReadFrom (WriteTo a ++ rest) = .ok (a, rest) := by
  cases a
  rfl

theorem writeTo_length (a : Mac48Address) : (WriteTo a).length = 6 := rfl

/-! ## Transition timeout -/

namespace MultiLinkElement

/-- The loop of `SetTransitionTimeout` finds the exponent of a legal timeout. -/
theorem SetTransitionTimeout.loop_legal (caps : EmlCapabilities) (i : Nat) (h1 : 1 ≤ i)
    (h10 : i ≤ 10) :
    SetTransitionTimeout.loop (((1 <<< (i + 6) : Nat) : Int)) caps 11 1
      = ({ caps with transitionTimeout := i }, i) := by
  interval_cases i <;> simp [SetTransitionTimeout.loop]

/-- The loop of `SetTransitionTimeout` leaves `i = 11` and the record untouched when
the timeout is no legal power of two. -/
theorem SetTransitionTimeout.loop_illegal (caps : EmlCapabilities) (t : Int)
    (h : ∀ i, 1 ≤ i → i ≤ 10 → t ≠ ((1 <<< (i + 6) : Nat) : Int)) :
    SetTransitionTimeout.loop t caps 11 1 = (caps, 11) := by
  have h1 := h 1 (by decide) (by decide)
  have h2 := h 2 (by decide) (by decide)
  have h3 := h 3 (by decide) (by decide)
  have h4 := h 4 (by decide) (by decide)
  have h5 := h 5 (by decide) (by decide)
  have h6 := h 6 (by decide) (by decide)
  have h7 := h 7 (by decide) (by decide)
  have h8 := h 8 (by decide) (by decide)
  have h9 := h 9 (by decide) (by decide)
  have h10 := h 10 (by decide) (by decide)
  simp only [Nat.reduceAdd, Nat.reduceShiftLeft, Nat.cast_ofNat] at h1 h2 h3 h4 h5 h6 h7 h8 h9 h10
  simp [SetTransitionTimeout.loop, Ne.symm h1, Ne.symm h2, Ne.symm h3, Ne.symm h4, Ne.symm h5,
    Ne.symm h6, Ne.symm h7, Ne.symm h8, Ne.symm h9, Ne.symm h10]

/-- What `SetTransitionTimeout` does on a Basic element, stated without the loop: a
zero timeout stores code 0, the timeout `2^(i+6)` with `i` in `1..10` stores `i`. -/
theorem SetTransitionTimeout_legal (frame : ContainingFrame A R P) (c : CommonInfoBasicMle)
    (subs : List (PerStaProfileSubelement A R P)) (i : Nat) (h10 : i ≤ 10) :
    SetTransitionTimeout ⟨frame, some c, subs⟩ (if i = 0 then 0 else ((2 ^ (i + 6) : Nat) : Int))
      = .ok ⟨frame, some { c with m_emlCapabilities := some { emlCapabilitiesOrNew c with transitionTimeout := i } }, subs⟩ := by
  by_cases h0 : i = 0
  · subst h0
    simp [SetTransitionTimeout, Time.GetMicroSeconds]
  · have hl := SetTransitionTimeout.loop_legal (emlCapabilitiesOrNew c) i (by omega) h10
    rw [Nat.one_shiftLeft] at hl
    have hne : ((2 ^ (i + 6) : Nat) : Int) ≠ 0 := by positivity
    simp only [SetTransitionTimeout, Time.GetMicroSeconds, if_neg h0, if_neg hne, hl]
    rw [if_neg (by omega)]

/-- `SetTransitionTimeout` aborts on a Basic element when the timeout is neither zero
nor a legal power of two. -/
theorem SetTransitionTimeout_illegal (frame : ContainingFrame A R P) (c : CommonInfoBasicMle)
    (subs : List (PerStaProfileSubelement A R P)) (t : Time) (h0 : t ≠ 0)
    (h : ∀ i, 1 ≤ i → i ≤ 10 → t ≠ ((2 ^ (i + 6) : Nat) : Int)) :
    SetTransitionTimeout ⟨frame, some c, subs⟩ t = .error .abort := by
  have hl := SetTransitionTimeout.loop_illegal (emlCapabilitiesOrNew c) t
    (fun i h1 h10 => by rw [Nat.one_shiftLeft]; exact h i h1 h10)
  simp [SetTransitionTimeout, Time.GetMicroSeconds, h0, hl]

/-- C3: on a Basic element, for every legal timeout `v` (zero, or `2^(i+6)` microseconds
with `i` in `1..10`), `SetTransitionTimeout (v)` succeeds and `GetTransitionTimeout`
then returns exactly `v`. -/
theorem C3_transition_timeout_round_trip (frame : ContainingFrame A R P)
    (c : CommonInfoBasicMle) (subs : List (PerStaProfileSubelement A R P)) (v : Time)
    (hv : v = 0 ∨ ∃ i, 1 ≤ i ∧ i ≤ 10 ∧ v = ((2 ^ (i + 6) : Nat) : Int)) :
    ∃ e1, SetTransitionTimeout ⟨frame, some c, subs⟩ v = .ok e1
      ∧ GetTransitionTimeout e1 = .ok v := by
  rcases hv with h0 | ⟨i, h1, h10, hi⟩
  · have h := SetTransitionTimeout_legal frame c subs 0 (by decide)
    simp only [if_pos] at h
    subst h0
    exact ⟨_, h, by simp [GetTransitionTimeout, MicroSeconds]⟩
  · have h := SetTransitionTimeout_legal frame c subs i h10
    rw [if_neg (by omega)] at h
    subst hi
    refine ⟨_, h, ?_⟩
    have hne : i ≠ 0 := by omega
    simp [GetTransitionTimeout, MicroSeconds, hne, Nat.one_shiftLeft, Nat.add_comm]

/-- The statement of C3 at the timeout 4096 microseconds on the example element. -/
theorem C3_transition_timeout_round_trip_witness :
    ((4096 : Time) = 0 ∨ ∃ i, 1 ≤ i ∧ i ≤ 10 ∧ (4096 : Time) = ((2 ^ (i + 6) : Nat) : Int))
    ∧ ∃ e1, SetTransitionTimeout Example.bareElement 4096 = .ok e1
      ∧ GetTransitionTimeout e1 = .ok 4096 :=
  ⟨Or.inr ⟨6, by decide, by decide, by norm_num⟩,
   C3_transition_timeout_round_trip _ _ _ 4096 (Or.inr ⟨6, by decide, by decide, by norm_num⟩)⟩

/-- C4: on a Basic element, `SetTransitionTimeout` stops the program if and only if the
timeout in microseconds is neither 0 nor `2^(i+6)` for some `i` in `1..10`; so a non-zero
timeout that is not a power of two times 64 microseconds is rejected, and so are 64
microseconds and 131072 microseconds. -/
theorem C4_transition_timeout_rejects (frame : ContainingFrame A R P)
    (c : CommonInfoBasicMle) (subs : List (PerStaProfileSubelement A R P)) :
    (∀ timeout : Time,
        isFatal (SetTransitionTimeout ⟨frame, some c, subs⟩ timeout) = true ↔
          ¬ (Time.GetMicroSeconds timeout = 0 ∨
              ∃ i, 1 ≤ i ∧ i ≤ 10 ∧ Time.GetMicroSeconds timeout = ((2 ^ (i + 6) : Nat) : Int)))
    ∧ (∀ timeout : Time, timeout ≠ 0 → (∀ k : Nat, timeout ≠ ((64 * 2 ^ k : Nat) : Int)) →
        SetTransitionTimeout ⟨frame, some c, subs⟩ timeout = .error .abort)
    ∧ SetTransitionTimeout ⟨frame, some c, subs⟩ 64 = .error .abort
    ∧ SetTransitionTimeout ⟨frame, some c, subs⟩ 131072 = .error .abort := by
  refine ⟨?_, ?_, ?_, ?_⟩
  · intro timeout
    simp only [Time.GetMicroSeconds]
    constructor
    · rintro hf (h0 | ⟨i, h1, h10, hi⟩)
      · have h := SetTransitionTimeout_legal frame c subs 0 (by decide)
        simp only [if_pos] at h
        rw [h0, h] at hf
        simp [isFatal] at hf
      · have h := SetTransitionTimeout_legal frame c subs i h10
        rw [if_neg (by omega)] at h
        rw [hi, h] at hf
        simp [isFatal] at hf
    · intro hn
      rw [SetTransitionTimeout_illegal frame c subs timeout (fun h0 => hn (Or.inl h0))
        (fun i h1 h10 hi => hn (Or.inr ⟨i, h1, h10, hi⟩))]
      rfl
  · intro timeout h0 hk
    apply SetTransitionTimeout_illegal frame c subs timeout h0
    intro i _ _ hi
    apply hk i
    rw [hi]
    congr 1
    rw [pow_add]
    ring
  · apply SetTransitionTimeout_illegal frame c subs 64 (by decide)
    intro i h1 h10
    interval_cases i <;> decide
  · apply SetTransitionTimeout_illegal frame c subs 131072 (by decide)
    intro i h1 h10
    interval_cases i <;> decide

/-- C5: on a Basic element the code stored by `SetTransitionTimeout` is the exponent:
timeout 0 stores code 0 and `2^(i+6)` microseconds with `i` in `1..10` stores `i`, the
rest of the element being unchanged; 4096 microseconds stores code 6, which decodes
back to 4096 microseconds. -/
theorem C5_transition_timeout_code (frame : ContainingFrame A R P)
    (c : CommonInfoBasicMle) (subs : List (PerStaProfileSubelement A R P)) :
    SetTransitionTimeout ⟨frame, some c, subs⟩ 0
        = .ok ⟨frame, some { c with m_emlCapabilities := some { emlCapabilitiesOrNew c with transitionTimeout := 0 } }, subs⟩
    ∧ (∀ i, 1 ≤ i ∧ i ≤ 10 →
        SetTransitionTimeout ⟨frame, some c, subs⟩ ((2 ^ (i + 6) : Nat) : Int)
          = .ok ⟨frame, some { c with m_emlCapabilities := some { emlCapabilitiesOrNew c with transitionTimeout := i } }, subs⟩)
    ∧ SetTransitionTimeout ⟨frame, some c, subs⟩ 4096
        = .ok ⟨frame, some { c with m_emlCapabilities := some { emlCapabilitiesOrNew c with transitionTimeout := 6 } }, subs⟩
    ∧ GetTransitionTimeout (⟨frame, some { c with m_emlCapabilities := some { emlCapabilitiesOrNew c with transitionTimeout := 6 } }, subs⟩ :
            MultiLinkElement A R P) = .ok 4096 := by
  refine ⟨?_, ?_, ?_, ?_⟩
  · have h := SetTransitionTimeout_legal frame c subs 0 (by decide)
    simpa using h
  · rintro i ⟨h1, h10⟩
    have h := SetTransitionTimeout_legal frame c subs i h10
    rwa [if_neg (by omega)] at h
  · have h := SetTransitionTimeout_legal frame c subs 6 (by decide)
    simpa using h
  · simp [GetTransitionTimeout, MicroSeconds]

/-- `GetVariant` returns `UNSET` exactly when the Common Info holds `std::monostate`. -/
theorem GetVariant_eq_UNSET (env : Env A R P) (e : MultiLinkElement A R P) :
    GetVariant env e = env.UNSET ↔ e.m_commonInfo = none := by
  unfold GetVariant
  cases h : e.m_commonInfo with
  | none => simp
  | some c => simpa using env.basic_ne_unset

/-- `SetVariant` in closed form. -/
theorem SetVariant_eq (env : Env A R P) (e : MultiLinkElement A R P) (w : Nat) :
    SetVariant env e w
      = (if GetVariant env e = env.UNSET ∧ w = env.BASIC_VARIANT
         then .ok { e with m_commonInfo := some {} } else .error .abort) := by
  have hne := env.basic_ne_unset
  unfold SetVariant
  by_cases h1 : GetVariant env e = env.UNSET
  · by_cases h2 : w = env.UNSET
    · simp [h1, h2, Ne.symm hne]
    · by_cases h3 : w = env.BASIC_VARIANT <;> simp [h1, h2, h3, hne]
  · simp [h1]

/-- C6: `SetVariant (v)` succeeds if and only if the current variant is `UNSET` and `v`
is `BASIC_VARIANT`; it then installs a default Common Info, after which `GetVariant`
returns `BASIC_VARIANT`; in every other case (variant already set, `v = UNSET`, `v`
unsupported) it aborts. -/
theorem C6_set_variant_once (env : Env A R P) (e : MultiLinkElement A R P) (v : Nat) :
    SetVariant env e v
        = (if GetVariant env e = env.UNSET ∧ v = env.BASIC_VARIANT
           then .ok { e with m_commonInfo := some {} } else .error .abort)
    ∧ GetVariant env { e with m_commonInfo := some {} } = env.BASIC_VARIANT
    ∧ ((∃ e1, SetVariant env e v = .ok e1) ↔
          (GetVariant env e = env.UNSET ∧ v = env.BASIC_VARIANT))
    ∧ (GetVariant env e ≠ env.UNSET → SetVariant env e v = .error .abort)
    ∧ SetVariant env e env.UNSET = .error .abort
    ∧ (v ≠ env.BASIC_VARIANT → SetVariant env e v = .error .abort) := by
  have hne := env.basic_ne_unset
  refine ⟨SetVariant_eq env e v, rfl, ?_, ?_, ?_, ?_⟩
  · rw [SetVariant_eq env e v]
    by_cases h : GetVariant env e = env.UNSET ∧ v = env.BASIC_VARIANT
    · simp [h]
    · simp [h]
  · intro h
    rw [SetVariant_eq env e v]
    simp [h]
  · rw [SetVariant_eq]
    simp [Ne.symm hne]
  · intro h
    rw [SetVariant_eq env e v]
    simp [h]

end MultiLinkElement

/-! ## Per-STA Profile sub-element: size, layout, round trip -/

namespace PerStaProfileSubelement

theorem GetStaInfoLength_eq (s : PerStaProfileSubelement A R P) :
    GetStaInfoLength s = 1 + (if HasStaMacAddress s then 6 else 0) := by
  unfold GetStaInfoLength
  cases HasStaMacAddress s <;> simp

theorem staProfileSize_eq (env : Env A R P) (s : PerStaProfileSubelement A R P)
    (hm : profileMatchesFrame s = true) :
    staProfileSize env s = .ok (ownedFrameSize env s % 4294967296) := by
  obtain ⟨v, ctl, addr, profile, frame⟩ := s
  cases profile <;> cases frame <;>
    simp_all [profileMatchesFrame, staProfileSize, ownedFrameSize]

theorem information_field_size_eq (env : Env A R P) (s : PerStaProfileSubelement A R P)
    (hm : profileMatchesFrame s = true)
    (hfit : 3 + (if HasStaMacAddress s then 6 else 0) + ownedFrameSize env s < 65536) :
    GetInformationFieldSize env s
        = .ok (3 + (if HasStaMacAddress s then 6 else 0) + ownedFrameSize env s) := by
  simp only [GetInformationFieldSize, staProfileSize_eq env s hm, GetStaInfoLength_eq]
  congr 1
  cases h : HasStaMacAddress s <;> simp [h] at hfit ⊢ <;> omega

/-- The size of a sub-element in closed form: the sum is reduced to the `uint16_t`
result. -/
theorem information_field_size_mod (env : Env A R P) (s : PerStaProfileSubelement A R P)
    (hm : profileMatchesFrame s = true) :
    GetInformationFieldSize env s
        = .ok ((3 + (if HasStaMacAddress s then 6 else 0) + ownedFrameSize env s) % 65536) := by
  simp only [GetInformationFieldSize, staProfileSize_eq env s hm, GetStaInfoLength_eq]
  congr 1
  cases h : HasStaMacAddress s <;> simp [h] <;> omega

/-- C8 (amended): for a sub-element whose profile kind matches the containing frame,
`GetInformationFieldSize` returns 2 (STA Control) + 1 (STA Info Length) + 6 if the
address-present bit is set + the size-as-profile of the owned frame (0 without one),
reduced modulo 2^16 (the `uint16_t` result); so it is that sum whenever the sum is
below 65536; without an owned frame the size is 3 without an address and 9 with one. -/
theorem C8_subelement_size (env : Env A R P) (s : PerStaProfileSubelement A R P)
    (hm : profileMatchesFrame s = true) :
    GetInformationFieldSize env s
        = .ok ((2 + 1 + (if HasStaMacAddress s then 6 else 0) + ownedFrameSize env s) % 65536)
    ∧ (2 + 1 + (if HasStaMacAddress s then 6 else 0) + ownedFrameSize env s < 65536 →
        GetInformationFieldSize env s
          = .ok (2 + 1 + (if HasStaMacAddress s then 6 else 0) + ownedFrameSize env s))
    ∧ (s.m_staProfile = .monostate →
        GetInformationFieldSize env s = .ok (if HasStaMacAddress s then 9 else 3)) := by
  have hsize := information_field_size_mod env s hm
  refine ⟨hsize, ?_, ?_⟩
  · intro hfit
    rw [hsize, Nat.mod_eq_of_lt hfit]
  · intro he
    rw [hsize]
    obtain ⟨v, ctl, addr, profile, frame⟩ := s
    simp only at he
    subst he
    cases h : HasStaMacAddress (⟨v, ctl, addr, .monostate, frame⟩ : PerStaProfileSubelement A R P)
      <;> simp [ownedFrameSize]

/-- The statement of C8 (amended) at the example sub-element that owns a two-byte frame
and has an address: the size is 2 + 1 + 6 + 2 = 11. -/
theorem C8_subelement_size_witness :
    profileMatchesFrame Example.subelement5 = true
    ∧ GetInformationFieldSize Example.env Example.subelement5 = .ok 11 :=
  ⟨by decide, (C8_subelement_size Example.env Example.subelement5 (by decide)).1⟩

/-- C8 as stated fails: the sub-element without an address that owns an Association
Request frame of 65534 bytes inside an Association Request matches its containing frame,
the sum 2 + 1 + 0 + 65534 is 65537, and `GetInformationFieldSize` returns 1, the sum
reduced to 16 bits. -/
theorem C8_size_wraps_at_16_bits :
    profileMatchesFrame Example.subelementLarge = true
    ∧ HasStaMacAddress Example.subelementLarge = false
    ∧ ownedFrameSize Example.env Example.subelementLarge = 65534
    ∧ GetInformationFieldSize Example.env Example.subelementLarge = .ok 1
    ∧ GetInformationFieldSize Example.env Example.subelementLarge
        ≠ .ok (2 + 1 + (if HasStaMacAddress Example.subelementLarge then 6 else 0)
                + ownedFrameSize Example.env Example.subelementLarge) := by
  have hm : profileMatchesFrame Example.subelementLarge = true := rfl
  have ha : HasStaMacAddress Example.subelementLarge = false := by decide
  have hlen : ∀ f : List Byte, ownedFrameSize Example.env
      (⟨1, 0x13, {}, .assocRequest f, .assocRequest [0x07]⟩ :
        PerStaProfileSubelement (List Byte) (List Byte) (List Byte)) = f.length := fun _ => rfl
  have ho : ownedFrameSize Example.env Example.subelementLarge = 65534 :=
    (hlen (List.replicate 65534 0)).trans (List.length_replicate 65534 0)
  have hs : GetInformationFieldSize Example.env Example.subelementLarge = .ok 1 := by
    rw [information_field_size_mod Example.env Example.subelementLarge hm, ha, ho]
    rfl
  refine ⟨hm, ha, ho, hs, ?_⟩
  rw [hs, ha, ho]
  simp

/-- The bytes `SerializeInformationField` writes before the owned frame. -/
theorem SerializeInformationField_eq (env : Env A R P) (s : PerStaProfileSubelement A R P) :
    SerializeInformationField env s
      = match staProfileSerialize env s with
        | .error k => .error k
        | .ok bytes =>
          .ok ([toU8 s.m_staControl.val, toU8 (s.m_staControl.val / 256),
                toU8 (if HasStaMacAddress s then 7 else 1)]
               ++ (if HasStaMacAddress s then WriteTo s.m_staMacAddress else []) ++ bytes) := by
  unfold SerializeInformationField
  cases hp : staProfileSerialize env s with
  | error k => rfl
  | ok bytes =>
    cases h : HasStaMacAddress s <;>
      simp [WriteHtolsbU16, WriteU8, GetStaInfoLength, h]

/-- What `DeserializeInformationField` does on the STA Control, the STA Info Length and
the optional address written for the STA Control `ctl` and the address `addr`, followed
by any bytes `tail`, whatever the STA Info Length byte `len` is. -/
theorem DeserializeInformationField_header (env : Env A R P)
    (s0 : PerStaProfileSubelement A R P) (ctl : U16) (addr : Mac48Address) (len : Byte)
    (tail : List Byte) (length : Nat) :
    DeserializeInformationField env s0
        ([toU8 ctl.val, toU8 (ctl.val / 256), len]
          ++ (if (ctl.val &&& 0x0020) ≠ 0 then WriteTo addr else []) ++ tail) length
      = (if ¬ (3 + (if (ctl.val &&& 0x0020) ≠ 0 then 6 else 0)) ≤ length then .error .assert
         else if 3 + (if (ctl.val &&& 0x0020) ≠ 0 then 6 else 0) = length then
           .ok ({ s0 with m_staControl := ctl,
                          m_staMacAddress := if (ctl.val &&& 0x0020) ≠ 0 then addr
                                             else s0.m_staMacAddress },
                3 + (if (ctl.val &&& 0x0020) ≠ 0 then 6 else 0))
         else staProfileDeserialize env
                { s0 with m_staControl := ctl,
                          m_staMacAddress := if (ctl.val &&& 0x0020) ≠ 0 then addr
                                             else s0.m_staMacAddress }
                tail length (3 + (if (ctl.val &&& 0x0020) ≠ 0 then 6 else 0))) := by
  have hr := read_write_U16 ctl.val ctl.isLt
  simp only [WriteHtolsbU16, List.cons_append, List.nil_append] at hr
  unfold DeserializeInformationField
  simp only [List.cons_append, List.nil_append, hr, toU16_of_val, ReadU8]
  by_cases h : (ctl.val &&& 0x0020) ≠ 0
  · have hx := read_write_address addr tail
    have hd : decide ((ctl.val &&& 0x0020) ≠ 0) = true := decide_eq_true h
    simp only [if_pos h, readStaInfo, HasStaMacAddress, hd, if_true, hx, GetDistanceFrom,
      List.length_cons, List.length_append, writeTo_length]
    have e1 : (6 + tail.length + 1 + 1 + 1 - tail.length) % 65536 = 3 + 6 := by omega
    rw [e1]
  · have hd : decide ((ctl.val &&& 0x0020) ≠ 0) = false := decide_eq_false h
    simp only [if_neg h, readStaInfo, HasStaMacAddress, hd, GetDistanceFrom,
      List.length_cons, List.nil_append, Bool.false_eq_true, if_false]
    have e1 : (tail.length + 1 + 1 + 1 - tail.length) % 65536 = 3 + 0 := by omega
    rw [e1]

theorem profileMatchesFrame_of_faithful (env : Env A R P) (s : PerStaProfileSubelement A R P)
    (hf : FrameFaithful env s) : profileMatchesFrame s = true := by
  obtain ⟨v, ctl, addr, profile, frame⟩ := s
  cases profile <;> cases frame <;> simp_all [FrameFaithful, profileMatchesFrame]

theorem staProfileSerialize_eq (env : Env A R P) (s : PerStaProfileSubelement A R P)
    (hm : profileMatchesFrame s = true) :
    staProfileSerialize env s = .ok (ownedFrameBytes env s) := by
  obtain ⟨v, ctl, addr, profile, frame⟩ := s
  cases profile <;> cases frame <;>
    simp_all [profileMatchesFrame, staProfileSerialize, ownedFrameBytes]

theorem ownedFrameSize_eq (env : Env A R P) (s : PerStaProfileSubelement A R P)
    (hf : FrameFaithful env s) : ownedFrameSize env s = (ownedFrameBytes env s).length := by
  obtain ⟨v, ctl, addr, profile, frame⟩ := s
  cases profile <;> cases frame <;>
    simp_all [FrameFaithful, ownedFrameSize, ownedFrameBytes, ProfileCodec.Faithful]

theorem monostate_of_no_bytes (env : Env A R P) (s : PerStaProfileSubelement A R P)
    (hf : FrameFaithful env s) (hb : (ownedFrameBytes env s).length = 0) :
    s.m_staProfile = .monostate := by
  obtain ⟨v, ctl, addr, profile, frame⟩ := s
  cases profile <;> cases frame <;>
    simp_all [FrameFaithful, ownedFrameBytes, ProfileCodec.Faithful]

/-- The visitor of `DeserializeInformationField` reads back the owned frame of `s` from
the bytes that frame wrote. -/
theorem staProfileDeserialize_eq (env : Env A R P) (s s1 : PerStaProfileSubelement A R P)
    (hf : FrameFaithful env s) (hc : s1.m_containingFrame = s.m_containingFrame)
    (rest : List Byte) (count total : Nat)
    (ht : total = count + (ownedFrameBytes env s).length)
    (hpos : 0 < (ownedFrameBytes env s).length) (hfit : total < 65536) :
    staProfileDeserialize env s1 (ownedFrameBytes env s ++ rest) total count
      = .ok ({ s1 with m_staProfile := s.m_staProfile }, total) := by
  obtain ⟨v, ctl, addr, profile, frame⟩ := s
  obtain ⟨v1, ctl1, addr1, profile1, frame1⟩ := s1
  simp only at hc
  subst hc
  have hsub : total - count = (ownedFrameBytes env
      (⟨v, ctl, addr, profile, frame1⟩ : PerStaProfileSubelement A R P)).length := by omega
  cases profile <;> cases frame1 <;>
    simp only [FrameFaithful, ProfileCodec.Faithful, ownedFrameBytes, List.length_nil,
      Nat.lt_irrefl] at hf hpos hsub ht ⊢
  all_goals
    obtain ⟨_, _, hd⟩ := hf
    simp only [staProfileDeserialize, hsub, hd]
    congr 2
    omega

/-- Round trip of the information field of a sub-element whose owned frame is handled
faithfully by its collaborator: the size is the number of bytes written, and reading
those bytes into a sub-element `s0` that owns no frame and has the same containing frame
restores the STA Control, the address when present, and the owned frame. -/
theorem information_field_round_trip (env : Env A R P) (s s0 : PerStaProfileSubelement A R P)
    (hf : FrameFaithful env s) (h0p : s0.m_staProfile = .monostate)
    (h0c : s0.m_containingFrame = s.m_containingFrame)
    (hfit : 3 + (if HasStaMacAddress s then 6 else 0) + (ownedFrameBytes env s).length < 65536)
    (rest : List Byte) :
    ∃ info, SerializeInformationField env s = .ok info
      ∧ info.length = 3 + (if HasStaMacAddress s then 6 else 0) + (ownedFrameBytes env s).length
      ∧ GetInformationFieldSize env s = .ok info.length
      ∧ DeserializeInformationField env s0 (info ++ rest) info.length
          = .ok (⟨s0.m_variant, s.m_staControl,
                  if HasStaMacAddress s then s.m_staMacAddress else s0.m_staMacAddress,
                  s.m_staProfile, s.m_containingFrame⟩, info.length) := by
  have hm := profileMatchesFrame_of_faithful env s hf
  have hsz := ownedFrameSize_eq env s hf
  have hlen : ([toU8 s.m_staControl.val, toU8 (s.m_staControl.val / 256),
                toU8 (if HasStaMacAddress s then 7 else 1)]
               ++ (if HasStaMacAddress s then WriteTo s.m_staMacAddress else [])
               ++ ownedFrameBytes env s).length
      = 3 + (if HasStaMacAddress s then 6 else 0) + (ownedFrameBytes env s).length := by
    cases h : HasStaMacAddress s <;> simp [writeTo_length] <;> omega
  refine ⟨_, by rw [SerializeInformationField_eq, staProfileSerialize_eq env s hm], hlen, ?_, ?_⟩
  · rw [hlen, ← hsz]
    exact (information_field_size_eq env s hm (by rw [hsz]; exact hfit))
  · rw [hlen]
    have hh : HasStaMacAddress s = decide ((s.m_staControl.val &&& 0x0020) ≠ 0) := rfl
    have hd := DeserializeInformationField_header env s0 s.m_staControl s.m_staMacAddress
      (toU8 (if HasStaMacAddress s then 7 else 1)) (ownedFrameBytes env s ++ rest)
      (3 + (if HasStaMacAddress s then 6 else 0) + (ownedFrameBytes env s).length)
    simp only [hh, decide_eq_true_eq, List.append_assoc] at hd hfit ⊢
    rw [hd]
    rw [if_neg (by omega)]
    by_cases hb : (ownedFrameBytes env s).length = 0
    · have hmono := monostate_of_no_bytes env s hf hb
      rw [if_pos (by omega)]
      obtain ⟨v0, ctl0, addr0, profile0, frame0⟩ := s0
      simp only at h0p h0c
      subst h0p h0c
      simp [hb, hmono]
    · rw [if_neg (by omega)]
      refine (staProfileDeserialize_eq env s _ hf ?_ rest _ _ rfl (by omega) hfit).trans ?_
      · exact h0c
      · simp [h0c]

/-- C1: for a sub-element with any STA Control (any link ID, any complete-profile flag,
address present or not), no owned frame and no containing frame, serializing the
information field and deserializing those bytes into a fresh sub-element, with the
declared length equal to the size, yields the same link ID, the same complete-profile
flag, the same address presence and address, no owned frame, and a consumed-byte count
equal to the size. -/
theorem C1_subelement_round_trip (env : Env A R P) (s : PerStaProfileSubelement A R P)
    (variant1 : Nat) (hp : s.m_staProfile = .monostate)
    (hc : s.m_containingFrame = .monostate) :
    ∃ bytes s1, SerializeInformationField env s = .ok bytes
      ∧ GetInformationFieldSize env s = .ok bytes.length
      ∧ DeserializeInformationField env (create variant1) bytes bytes.length
          = .ok (s1, bytes.length)
      ∧ GetLinkId s1 = GetLinkId s
      ∧ IsCompleteProfileSet s1 = IsCompleteProfileSet s
      ∧ HasStaMacAddress s1 = HasStaMacAddress s
      ∧ GetStaMacAddress s1 = GetStaMacAddress s
      ∧ s1.m_staProfile = .monostate := by
  have hf : FrameFaithful env s := by
    obtain ⟨v, ctl, addr, profile, frame⟩ := s
    simp only at hp hc
    subst hp hc
    simp [FrameFaithful]
  have hb : ownedFrameBytes env s = [] := by
    obtain ⟨v, ctl, addr, profile, frame⟩ := s
    simp only at hp hc
    subst hp hc
    rfl
  obtain ⟨info, hser, hlen, hsize, hdes⟩ :=
    information_field_round_trip env s (create variant1) hf rfl (by rw [hc]; rfl)
      (by rw [hb]; cases HasStaMacAddress s <;> simp) []
  rw [List.append_nil] at hdes
  refine ⟨info, _, hser, hsize, hdes, rfl, rfl, rfl, ?_, hp⟩
  simp only [GetStaMacAddress, HasStaMacAddress]
  by_cases h : (s.m_staControl.val &&& 0x0020) ≠ 0
  · simp [h]
  · simp [h]

/-- The statement of C1 at the example sub-element (link ID 3, complete profile). -/
theorem C1_subelement_round_trip_witness :
    Example.subelement3.m_staProfile = .monostate
    ∧ Example.subelement3.m_containingFrame = .monostate
    ∧ ∃ bytes s1, SerializeInformationField Example.env Example.subelement3 = .ok bytes
      ∧ GetInformationFieldSize Example.env Example.subelement3 = .ok bytes.length
      ∧ DeserializeInformationField Example.env (create 1) bytes bytes.length
          = .ok (s1, bytes.length)
      ∧ GetLinkId s1 = GetLinkId Example.subelement3
      ∧ IsCompleteProfileSet s1 = IsCompleteProfileSet Example.subelement3
      ∧ HasStaMacAddress s1 = HasStaMacAddress Example.subelement3
      ∧ GetStaMacAddress s1 = GetStaMacAddress Example.subelement3
      ∧ s1.m_staProfile = .monostate :=
  ⟨rfl, rfl, C1_subelement_round_trip Example.env Example.subelement3 1 rfl rfl⟩

/-- C9: for a sub-element without an owned frame and without a containing frame,
`SerializeInformationField` writes exactly the STA Control, low byte first, one STA Info
Length byte equal to 1 without an address and to 7 with one, and the 6 address bytes if
and only if the address-present bit is set; for link ID 3 with the complete-profile flag
and no address the bytes are `0x13 0x00 0x01`. -/
theorem C9_subelement_layout (env : Env A R P) (variant : Nat) (staControl : U16)
    (address : Mac48Address) :
    SerializeInformationField env
        (⟨variant, staControl, address, .monostate, .monostate⟩ : PerStaProfileSubelement A R P)
      = .ok ([toU8 (staControl.val % 256), toU8 (staControl.val / 256),
              toU8 (if (staControl.val &&& 0x0020) ≠ 0 then 7 else 1)]
             ++ (if (staControl.val &&& 0x0020) ≠ 0 then
                   [address.b0, address.b1, address.b2, address.b3, address.b4, address.b5]
                 else []))
    ∧ SerializeInformationField env
        (SetCompleteProfile (SetLinkId (create variant : PerStaProfileSubelement A R P) 3))
      = .ok [0x13, 0x00, 0x01] := by
  constructor
  · rw [SerializeInformationField_eq]
    have hm : toU8 (staControl.val % 256) = toU8 staControl.val := by
      apply Fin.ext
      simp [toU8_val]
    by_cases h : (staControl.val &&& 0x0020) ≠ 0
    · simp [staProfileSerialize, HasStaMacAddress, h, WriteTo, hm]
    · simp [staProfileSerialize, HasStaMacAddress, h, hm]
  · have hs : SetCompleteProfile (SetLinkId (create variant : PerStaProfileSubelement A R P) 3)
        = ⟨variant, 0x13, {}, .monostate, .monostate⟩ := by
      simp only [SetCompleteProfile, SetLinkId, create, toU16_val]
      congr 1
    rw [hs, SerializeInformationField_eq]
    simp [staProfileSerialize, HasStaMacAddress]
    decide

end PerStaProfileSubelement

/-! ## Use of an element whose variant is unset -/

namespace MultiLinkElement

theorem AddPerStaProfileSubelement_commonInfo (env : Env A R P) (e e1 : MultiLinkElement A R P)
    (h : AddPerStaProfileSubelement env e = .ok e1) :
    e1.m_commonInfo = e.m_commonInfo ∧ e.m_commonInfo ≠ none := by
  unfold AddPerStaProfileSubelement at h
  by_cases hu : GetVariant env e = env.UNSET
  · simp [hu] at h
  · simp only [hu, if_false, Except.ok.injEq] at h
    subst h
    exact ⟨rfl, fun hn => hu ((GetVariant_eq_UNSET env e).2 hn)⟩

/-- The loop of `DeserializeInformationField` leaves the Common Info as it finds it. -/
theorem DeserializeInformationField.loop_commonInfo (env : Env A R P) (start : List Byte)
    (length : Nat) (fuel : Nat) :
    ∀ (e : MultiLinkElement A R P) (i : List Byte) (count : Nat) (e1 : MultiLinkElement A R P)
      (n : Nat), DeserializeInformationField.loop env start length fuel e i count = .ok (e1, n) →
      e1.m_commonInfo = e.m_commonInfo := by
  induction fuel with
  | zero =>
    intro e i count e1 n h
    simp [DeserializeInformationField.loop] at h
  | succ fuel ih =>
    intro e i count e1 n h
    unfold DeserializeInformationField.loop at h
    split at h
    · split at h
      · simp at h
      · split at h
        · split at h
          · simp at h
          · rename_i e2 hadd
            split at h
            · simp at h
            · dsimp only at h
              split at h
              · simp at h
              · have := ih _ _ _ _ _ h
                rw [this]
                exact (AddPerStaProfileSubelement_commonInfo env e e2 hadd).1
        · simp at h
    · simp only [Except.ok.injEq, Prod.mk.injEq] at h
      rw [← h.1]

/-- After a successful `DeserializeInformationField` the variant is set. -/
theorem DeserializeInformationField_commonInfo (env : Env A R P)
    (e e1 : MultiLinkElement A R P) (start : List Byte) (length n : Nat)
    (h : DeserializeInformationField env e start length = .ok (e1, n)) :
    e1.m_commonInfo ≠ none := by
  unfold DeserializeInformationField at h
  dsimp only at h
  split at h
  · simp at h
  · split at h
    · simp at h
    · split at h
      · simp at h
      · split at h
        · simp at h
        · split at h
          · simp at h
          · have := DeserializeInformationField.loop_commonInfo env _ _ _ _ _ _ _ _ h
            rw [this]
            simp

/-- In a reachable element whose Common Info holds `std::monostate` there is no
sub-element. -/
theorem Reachable.no_subelement_while_unset (env : Env A R P) (e : MultiLinkElement A R P)
    (hr : Reachable env e) : e.m_commonInfo = none → e.m_perStaProfileSubelements = [] := by
  induction hr with
  | create frame => intro _; rfl
  | SetVariant variant _ h _ =>
    intro hn
    unfold MultiLinkElement.SetVariant at h
    split at h
    · simp at h
    · split at h
      · simp at h
      · split at h
        · simp only [Except.ok.injEq] at h
          subst h
          simp at hn
        · simp at h
  | SetMldMacAddress address _ h _ =>
    intro hn
    unfold MultiLinkElement.SetMldMacAddress at h
    split at h
    · simp only [Except.ok.injEq] at h
      subst h
      simp at hn
    · simp at h
  | SetLinkIdInfo linkIdInfo _ h _ =>
    intro hn
    unfold MultiLinkElement.SetLinkIdInfo at h
    split at h
    · simp only [Except.ok.injEq] at h
      subst h
      simp at hn
    · simp at h
  | SetBssParamsChangeCount count _ h _ =>
    intro hn
    unfold MultiLinkElement.SetBssParamsChangeCount at h
    split at h
    · simp only [Except.ok.injEq] at h
      subst h
      simp at hn
    · simp at h
  | SetEmlsrSupported supported _ h _ =>
    intro hn
    unfold MultiLinkElement.SetEmlsrSupported at h
    split at h
    · simp at h
    · simp only [Except.ok.injEq] at h
      subst h
      simp at hn
  | SetEmlsrPaddingDelay delay _ h _ =>
    intro hn
    unfold MultiLinkElement.SetEmlsrPaddingDelay at h
    split at h
    · simp at h
    · split at h
      · simp at h
      · simp only [Except.ok.injEq] at h
        subst h
        simp at hn
  | SetEmlsrTransitionDelay delay _ h _ =>
    intro hn
    unfold MultiLinkElement.SetEmlsrTransitionDelay at h
    split at h
    · simp at h
    · split at h
      · simp at h
      · simp only [Except.ok.injEq] at h
        subst h
        simp at hn
  | SetTransitionTimeout timeout _ h _ =>
    intro hn
    unfold MultiLinkElement.SetTransitionTimeout at h
    split at h
    · simp at h
    · dsimp only at h
      split at h
      · simp only [Except.ok.injEq] at h
        subst h
        simp at hn
      · split at h
        · simp at h
        · simp only [Except.ok.injEq] at h
          subst h
          simp at hn
  | AddPerStaProfileSubelement _ h _ =>
    intro hn
    have := AddPerStaProfileSubelement_commonInfo env _ _ h
    rw [this.1] at hn
    exact absurd hn this.2
  | updatePerStaProfile i s s1 _ h ih =>
    intro hn
    simp only [MultiLinkElement.updatePerStaProfile] at hn
    have hempty := ih hn
    simp [MultiLinkElement.GetPerStaProfile, hempty] at h
  | GetInformationFieldSize size _ h _ =>
    intro hn
    unfold MultiLinkElement.GetInformationFieldSize at h
    dsimp only at h
    split at h
    · simp at h
    · split at h
      · simp at h
      · simp only [Except.ok.injEq, Prod.mk.injEq] at h
        rw [← h.2] at hn
        simp_all
  | DeserializeInformationField start length count _ h _ =>
    intro hn
    exact absurd hn (DeserializeInformationField_commonInfo env _ _ start length count h)

/-- C7: on a reachable element whose variant is `UNSET`, every Common Info accessor
(MLD address, Link ID Info, BSS Parameters Change Count, EML capabilities: setters,
has-queries and getters), `AddPerStaProfileSubelement`, `GetPerStaProfile (i)` for every
`i`, `GetInformationFieldSize` and `SerializeInformationField` stop the program instead
of returning: the accessors by the exception of `std::get`, `GetPerStaProfile` by the
exception of `std::vector::at`, the other three by an abort. -/
theorem C7_unset_use_is_fatal (env : Env A R P) (e : MultiLinkElement A R P)
    (hr : Reachable env e) (hu : GetVariant env e = env.UNSET) :
    (∀ address, SetMldMacAddress e address = .error .badAccess)
    ∧ GetMldMacAddress e = .error .badAccess
    ∧ (∀ linkIdInfo, SetLinkIdInfo e linkIdInfo = .error .badAccess)
    ∧ HasLinkIdInfo e = .error .badAccess
    ∧ GetLinkIdInfo e = .error .badAccess
    ∧ (∀ count, SetBssParamsChangeCount e count = .error .badAccess)
    ∧ HasBssParamsChangeCount e = .error .badAccess
    ∧ GetBssParamsChangeCount e = .error .badAccess
    ∧ (∀ supported, SetEmlsrSupported e supported = .error .badAccess)
    ∧ (∀ delay, SetEmlsrPaddingDelay env e delay = .error .badAccess)
    ∧ (∀ delay, SetEmlsrTransitionDelay env e delay = .error .badAccess)
    ∧ (∀ timeout, SetTransitionTimeout e timeout = .error .badAccess)
    ∧ HasEmlCapabilities e = .error .badAccess
    ∧ IsEmlsrSupported e = .error .badAccess
    ∧ GetEmlsrPaddingDelay env e = .error .badAccess
    ∧ GetEmlsrTransitionDelay env e = .error .badAccess
    ∧ GetTransitionTimeout e = .error .badAccess
    ∧ AddPerStaProfileSubelement env e = .error .abort
    ∧ (∀ i, GetPerStaProfile e i = .error .badAccess)
    ∧ GetInformationFieldSize env e = .error .abort
    ∧ SerializeInformationField env e = .error .abort := by
  have hn : e.m_commonInfo = none := (GetVariant_eq_UNSET env e).1 hu
  have hs : e.m_perStaProfileSubelements = [] :=
    Reachable.no_subelement_while_unset env e hr hn
  refine ⟨?_, ?_, ?_, ?_, ?_, ?_, ?_, ?_, ?_, ?_, ?_, ?_, ?_, ?_, ?_, ?_, ?_, ?_, ?_, ?_, ?_⟩
  · intro address; simp [SetMldMacAddress, hn]
  · simp [GetMldMacAddress, hn]
  · intro linkIdInfo; simp [SetLinkIdInfo, hn]
  · simp [HasLinkIdInfo, hn]
  · simp [GetLinkIdInfo, hn]
  · intro count; simp [SetBssParamsChangeCount, hn]
  · simp [HasBssParamsChangeCount, hn]
  · simp [GetBssParamsChangeCount, hn]
  · intro supported; simp [SetEmlsrSupported, hn]
  · intro delay; simp [SetEmlsrPaddingDelay, hn]
  · intro delay; simp [SetEmlsrTransitionDelay, hn]
  · intro timeout; simp [SetTransitionTimeout, hn]
  · simp [HasEmlCapabilities, hn]
  · simp [IsEmlsrSupported, hn]
  · simp [GetEmlsrPaddingDelay, hn]
  · simp [GetEmlsrTransitionDelay, hn]
  · simp [GetTransitionTimeout, hn]
  · simp [AddPerStaProfileSubelement, hu]
  · intro i; simp [GetPerStaProfile, hs]
  · simp [GetInformationFieldSize, hn]
  · simp [SerializeInformationField, hn]

/-- The statement of C7 at a newly constructed element, for some of the operations. -/
theorem C7_unset_use_is_fatal_witness :
    Reachable Example.env (create .monostate)
    ∧ GetVariant Example.env (create .monostate) = Example.env.UNSET
    ∧ GetMldMacAddress (create .monostate : MultiLinkElement (List Byte) (List Byte) (List Byte))
        = .error .badAccess
    ∧ (∀ i, GetPerStaProfile
        (create .monostate : MultiLinkElement (List Byte) (List Byte) (List Byte)) i
          = .error .badAccess)
    ∧ GetInformationFieldSize Example.env (create .monostate) = .error .abort :=
  have h := C7_unset_use_is_fatal Example.env (create .monostate) (Reachable.create _) rfl
  ⟨Reachable.create _, rfl, h.2.1, h.2.2.2.2.2.2.2.2.2.2.2.2.2.2.2.2.2.2.1,
    h.2.2.2.2.2.2.2.2.2.2.2.2.2.2.2.2.2.2.2.1⟩

end MultiLinkElement

/-! ## Size of the element against the bytes it writes -/

namespace PerStaProfileSubelement

theorem profileMatchesFrame_of_size (env : Env A R P) (s : PerStaProfileSubelement A R P)
    (n : Nat) (h : staProfileSize env s = .ok n) : profileMatchesFrame s = true := by
  obtain ⟨v, ctl, addr, profile, frame⟩ := s
  cases profile <;> cases frame <;> simp_all [staProfileSize, profileMatchesFrame]

theorem ownedFrameSize_of_agree (env : Env A R P) (hagree : env.SizesAgree)
    (s : PerStaProfileSubelement A R P) :
    ownedFrameSize env s = (ownedFrameBytes env s).length := by
  obtain ⟨_, h1, h2, h3⟩ := hagree
  obtain ⟨v, ctl, addr, profile, frame⟩ := s
  cases profile <;> cases frame <;> simp [ownedFrameSize, ownedFrameBytes, h1, h2, h3]

/-- The framed sub-element: what `Serialize` writes when it succeeds. -/
theorem Serialize_ok (env : Env A R P) (s : PerStaProfileSubelement A R P) (sb : List Byte)
    (h : Serialize env s = .ok sb) :
    ∃ size info, GetInformationFieldSize env s = .ok size ∧ size ≤ 255
      ∧ SerializeInformationField env s = .ok info
      ∧ sb = env.PER_STA_PROFILE_SUBELEMENT_ID :: toU8 size :: info
      ∧ profileMatchesFrame s = true
      ∧ info.length
          = 3 + (if HasStaMacAddress s then 6 else 0) + (ownedFrameBytes env s).length := by
  unfold Serialize at h
  split at h
  · simp at h
  · rename_i size hsize
    split at h
    · rename_i hle
      split at h
      · simp at h
      · rename_i info hinfo
        simp only [Except.ok.injEq] at h
        have hm : profileMatchesFrame s = true := by
          unfold GetInformationFieldSize at hsize
          dsimp only at hsize
          split at hsize
          · simp at hsize
          · rename_i n hn
            exact profileMatchesFrame_of_size env s n hn
        refine ⟨size, info, hsize, hle, hinfo, ?_, hm, ?_⟩
        · rw [← h]
          have hid : toU8 (ElementId env s).val = env.PER_STA_PROFILE_SUBELEMENT_ID := by
            apply Fin.ext
            simp [toU8_val, ElementId, Nat.mod_eq_of_lt (Fin.isLt _)]
          simp [WriteU8, hid]
        · rw [SerializeInformationField_eq, staProfileSerialize_eq env s hm] at hinfo
          simp only [Except.ok.injEq] at hinfo
          rw [← hinfo]
          cases hh : HasStaMacAddress s <;> simp [writeTo_length] <;> omega
    · simp at h

/-- The serialized size of a sub-element is the number of bytes `Serialize` writes,
reduced to 16 bits, when the owned frame reports the size it writes. -/
theorem GetSerializedSize_mod_length (env : Env A R P) (hagree : env.SizesAgree)
    (s : PerStaProfileSubelement A R P) (sb : List Byte) (h : Serialize env s = .ok sb) :
    ∃ n, GetSerializedSize env s = .ok n ∧ n < 65536 ∧ n = sb.length % 65536 := by
  obtain ⟨size, info, hsize, hle, hinfo, hsb, hm, hlen⟩ := Serialize_ok env s sb h
  have hown := ownedFrameSize_of_agree env hagree s
  have hsb_len : sb.length = 2 + info.length := by rw [hsb]; simp; omega
  have hsize2 := information_field_size_mod env s hm
  rw [hown, ← hlen, hsize] at hsize2
  simp only [Except.ok.injEq] at hsize2
  refine ⟨2 + size, ?_, by omega, by omega⟩
  simp only [GetSerializedSize, hsize, hle, if_true]

end PerStaProfileSubelement

namespace MultiLinkElement

/-- The loop of `GetInformationFieldSize` hands the containing frame to every
sub-element and adds, modulo 2^16, the number of bytes the loop of
`SerializeInformationField` writes for the sub-elements so updated. -/
theorem GetInformationFieldSize.loop_mod (env : Env A R P) (hagree : env.SizesAgree)
    (frame : ContainingFrame A R P) :
    ∀ (subs : List (PerStaProfileSubelement A R P)) (ret : Nat) (tb : List Byte),
      ret < 65536 →
      SerializeInformationField.loop env
          (subs.map (fun s => { s with m_containingFrame := frame })) = .ok tb →
      GetInformationFieldSize.loop env frame subs ret
        = .ok ((ret + tb.length) % 65536,
               subs.map (fun s => { s with m_containingFrame := frame })) := by
  intro subs
  induction subs with
  | nil =>
    intro ret tb hret hser
    simp only [List.map_nil, SerializeInformationField.loop, Except.ok.injEq] at hser
    subst hser
    simp [GetInformationFieldSize.loop, Nat.mod_eq_of_lt hret]
  | cons s rest ih =>
    intro ret tb hret hser
    rw [List.map_cons] at hser
    unfold SerializeInformationField.loop at hser
    split at hser
    · simp at hser
    · rename_i sb hsb
      split at hser
      · simp at hser
      · rename_i more hmore
        simp only [Except.ok.injEq] at hser
        subst hser
        obtain ⟨n, hsz, hn, hmod⟩ :=
          PerStaProfileSubelement.GetSerializedSize_mod_length env hagree _ sb hsb
        have hrest := ih ((ret + n) % 65536) more (Nat.mod_lt _ (by decide)) hmore
        have hsum : ((ret + n) % 65536 + more.length) % 65536
            = (ret + (sb.length + more.length)) % 65536 := by omega
        simp only [GetInformationFieldSize.loop, hsz, hrest, hsum, List.length_append,
          List.map_cons]

/-- C10 (amended): for a Basic element whose collaborators write as many bytes as they
report (the Common Info size being below 256, as its `uint8_t` result demands),
`GetInformationFieldSize` hands the containing frame of the element to every sub-element
and returns, modulo 2^16, one more than the number of bytes `SerializeInformationField`
writes for the element so updated, whenever that serialization succeeds (the extra byte
is the Element ID Extension, which `GetInformationFieldSize` counts and
`SerializeInformationField` does not write); so it returns exactly one more than the
number of bytes written whenever that number is below 65535. -/
theorem C10_size_counts_extension_byte (env : Env A R P) (frame : ContainingFrame A R P)
    (c : CommonInfoBasicMle) (subs : List (PerStaProfileSubelement A R P)) (bytes : List Byte)
    (hagree : env.SizesAgree) (hci : env.GetSize c < 256)
    (hser : SerializeInformationField env
        ⟨frame, some c, subs.map (fun s => { s with m_containingFrame := frame })⟩ = .ok bytes) :
    GetInformationFieldSize env ⟨frame, some c, subs⟩
        = .ok ((bytes.length + 1) % 65536,
               ⟨frame, some c, subs.map (fun s => { s with m_containingFrame := frame })⟩)
    ∧ (bytes.length + 1 < 65536 →
        GetInformationFieldSize env ⟨frame, some c, subs⟩
          = .ok (bytes.length + 1,
                 ⟨frame, some c, subs.map (fun s => { s with m_containingFrame := frame })⟩)) := by
  have hmain : GetInformationFieldSize env ⟨frame, some c, subs⟩
        = .ok ((bytes.length + 1) % 65536,
               ⟨frame, some c, subs.map (fun s => { s with m_containingFrame := frame })⟩) := by
    unfold SerializeInformationField at hser
    dsimp only at hser
    split at hser
    · simp at hser
    · rename_i tb htb
      simp only [Except.ok.injEq] at hser
      subst hser
      simp only [WriteHtolsbU16, List.length_append, List.length_cons, List.length_nil]
      have hcs := hagree.1 c
      have hloop := GetInformationFieldSize.loop_mod env hagree frame subs
        ((3 + env.GetSize c % 256) % 65536) tb (Nat.mod_lt _ (by decide)) htb
      simp only [GetInformationFieldSize, hloop]
      congr 2
      omega
  refine ⟨hmain, ?_⟩
  intro hfit
  rw [hmain, Nat.mod_eq_of_lt hfit]

/-- The example environment writes as many bytes as it reports. -/
theorem Example.sizesAgree : Example.env.SizesAgree := by
  refine ⟨?_, fun _ _ => rfl, fun _ _ => rfl, fun _ _ => rfl⟩
  intro c
  obtain ⟨addr, l, b, m⟩ := c
  cases l <;> cases b <;> cases m <;> rfl

/-- The statement of C10 (amended) at the example element inside an Association
Request whose sub-element owns an Association Request frame and has not received the
containing frame yet: `GetInformationFieldSize` hands the frame over and returns 25,
and 24 bytes are written for the element so updated. -/
theorem C10_size_counts_extension_byte_witness :
    Example.env.SizesAgree
    ∧ Example.env.GetSize Example.commonInfo < 256
    ∧ SerializeInformationField Example.env Example.elementInAssocRequest
        = .ok [145, 0, 170, 187, 204, 221, 238, 255, 2, 53, 48,
               0, 11, 37, 0, 7, 170, 187, 204, 221, 238, 255, 49, 4]
    ∧ GetInformationFieldSize Example.env
        ⟨.assocRequest [0x07], some Example.commonInfo,
         [{ Example.subelement5 with m_containingFrame := .monostate }]⟩
        = .ok (25, Example.elementInAssocRequest) :=
  ⟨Example.sizesAgree, by decide, rfl,
   (C10_size_counts_extension_byte Example.env (.assocRequest [0x07]) Example.commonInfo
     [{ Example.subelement5 with m_containingFrame := .monostate }]
     [145, 0, 170, 187, 204, 221, 238, 255, 2, 53, 48,
      0, 11, 37, 0, 7, 170, 187, 204, 221, 238, 255, 49, 4]
     Example.sizesAgree (by decide) rfl).2 (by decide)⟩

/-- C10 as stated fails: for the Basic element with address `AA:BB:CC:DD:EE:FF`, no
optional field and no sub-element, in an environment whose collaborators write as many
bytes as they report, `GetInformationFieldSize` returns 9 while
`SerializeInformationField` writes the 8 bytes `01 00 AA BB CC DD EE FF`. -/
theorem C10_size_differs_from_written :
    Example.env.SizesAgree
    ∧ GetInformationFieldSize Example.env Example.bareElement = .ok (9, Example.bareElement)
    ∧ SerializeInformationField Example.env Example.bareElement
        = .ok [0x01, 0x00, 0xAA, 0xBB, 0xCC, 0xDD, 0xEE, 0xFF]
    ∧ ¬ (∀ size e1 bytes,
          GetInformationFieldSize Example.env Example.bareElement = .ok (size, e1) →
          SerializeInformationField Example.env Example.bareElement = .ok bytes →
          size = bytes.length) := by
  refine ⟨Example.sizesAgree, rfl, rfl, ?_⟩
  intro h
  have := h 9 Example.bareElement [0x01, 0x00, 0xAA, 0xBB, 0xCC, 0xDD, 0xEE, 0xFF] rfl rfl
  simp at this

end MultiLinkElement

/-! ## Round trip of the whole element -/

namespace PerStaProfileSubelement

/-- Round trip of a framed sub-element: reading what `Serialize` wrote for a valid
sub-element into the sub-element that the decoding loop creates gives the sub-element
back and leaves the iterator behind the bytes written. -/
theorem Deserialize_Serialize (env : Env A R P) (frame : ContainingFrame A R P)
    (s : PerStaProfileSubelement A R P) (hv : Valid env frame s) (sb : List Byte)
    (hser : Serialize env s = .ok sb) (hfit : sb.length < 65536) (rest : List Byte) :
    Deserialize env { (create env.BASIC_VARIANT : PerStaProfileSubelement A R P) with
                      m_containingFrame := frame } (sb ++ rest) = .ok (s, rest)
    ∧ 2 ≤ sb.length := by
  obtain ⟨hvar, hctx, haddr, hf⟩ := hv
  obtain ⟨size, info, hsize, hle, hinfo, hsb, hm, hlen⟩ := Serialize_ok env s sb hser
  have hsb_len : sb.length = 2 + info.length := by rw [hsb]; simp; omega
  obtain ⟨info1, hinfo1, _, hsize1, hdes⟩ :=
    information_field_round_trip env s
      { (create env.BASIC_VARIANT : PerStaProfileSubelement A R P) with
        m_containingFrame := frame } hf rfl hctx.symm (by omega) rest
  rw [hinfo] at hinfo1
  simp only [Except.ok.injEq] at hinfo1
  subst hinfo1
  rw [hsize] at hsize1
  simp only [Except.ok.injEq] at hsize1
  subst hsize1
  refine ⟨?_, by omega⟩
  have hres : (⟨env.BASIC_VARIANT, s.m_staControl,
      if HasStaMacAddress s then s.m_staMacAddress else {}, s.m_staProfile,
      s.m_containingFrame⟩ : PerStaProfileSubelement A R P) = s := by
    obtain ⟨v, ctl, addr, profile, cframe⟩ := s
    simp only at hvar
    subst hvar
    cases hh : HasStaMacAddress
        (⟨env.BASIC_VARIANT, ctl, addr, profile, cframe⟩ : PerStaProfileSubelement A R P)
    · have := haddr hh
      simp only at this
      simp [this]
    · simp
  simp only [create] at hdes
  rw [hres] at hdes
  have hmod : info.length % 256 = info.length := Nat.mod_eq_of_lt (by omega)
  subst hsb
  simp only [Deserialize, List.cons_append, ReadU8, ElementId, create, ne_eq,
    not_true_eq_false, if_false, toU8_val, hmod, hdes, Next, List.length_append,
    Nat.le_add_right, if_true, List.drop_left]

end PerStaProfileSubelement

namespace MultiLinkElement

/-- The decoding loop, started behind the bytes `pre` with the sub-elements `done`
already read, reads the sub-elements `todo` from the bytes their serialization wrote. -/
theorem DeserializeInformationField.loop_round_trip (env : Env A R P)
    (frame : ContainingFrame A R P) (c : CommonInfoBasicMle) :
    ∀ (todo done : List (PerStaProfileSubelement A R P)) (tb pre : List Byte) (fuel : Nat),
      (∀ s ∈ todo, PerStaProfileSubelement.Valid env frame s) →
      SerializeInformationField.loop env todo = .ok tb →
      tb.length + 1 ≤ fuel → (pre ++ tb).length < 65536 →
      DeserializeInformationField.loop env (pre ++ tb) (pre ++ tb).length fuel
          ⟨frame, some c, done⟩ tb pre.length
        = .ok (⟨frame, some c, done ++ todo⟩, (pre ++ tb).length) := by
  intro todo
  induction todo with
  | nil =>
    intro done tb pre fuel _ hser hfuel _
    simp only [SerializeInformationField.loop, Except.ok.injEq] at hser
    subst hser
    obtain ⟨fuel, rfl⟩ : ∃ k, fuel = k + 1 := ⟨fuel - 1, by omega⟩
    simp [DeserializeInformationField.loop]
  | cons s rest ih =>
    intro done tb pre fuel hvalid hser hfuel hfit
    unfold SerializeInformationField.loop at hser
    split at hser
    · simp at hser
    · rename_i sb hsb
      split at hser
      · simp at hser
      · rename_i more hmore
        simp only [Except.ok.injEq] at hser
        subst hser
        obtain ⟨fuel, rfl⟩ : ∃ k, fuel = k + 1 := ⟨fuel - 1, by omega⟩
        simp only [List.length_append] at hfuel hfit
        obtain ⟨hdes, hlen2⟩ := PerStaProfileSubelement.Deserialize_Serialize env frame s
          (hvalid s (List.mem_cons_self _ _)) sb hsb (by omega) more
        obtain ⟨size, info, _, _, _, hsbeq, _, _⟩ :=
          PerStaProfileSubelement.Serialize_ok env s sb hsb
        have hpeek : PeekU8 (sb ++ more) = .ok env.PER_STA_PROFILE_SUBELEMENT_ID.val := by
          rw [hsbeq]
          rfl
        have hrec := ih (done ++ [s]) more (pre ++ sb) fuel
          (fun x hx => hvalid x (List.mem_cons_of_mem _ hx)) hmore (by omega)
          (by simp only [List.length_append]; omega)
        have hlt : pre.length < (pre ++ (sb ++ more)).length := by
          simp only [List.length_append]; omega
        have hdist : GetDistanceFrom more (pre ++ (sb ++ more)) % 65536 = (pre ++ sb).length := by
          simp only [GetDistanceFrom, List.length_append]
          rw [Nat.mod_eq_of_lt (by omega)]
          omega
        have hvar : GetVariant env (⟨frame, some c, done⟩ : MultiLinkElement A R P)
            = env.BASIC_VARIANT := rfl
        rw [List.append_assoc] at hrec
        simp only [DeserializeInformationField.loop, hlt, if_true, hpeek,
          AddPerStaProfileSubelement, hvar, env.basic_ne_unset, if_false, GetPerStaProfile,
          GetNPerStaProfileSubelements, List.length_append, List.length_singleton,
          Nat.add_sub_cancel, List.get?_eq_getElem?, List.getElem?_concat_length, hdes,
          updatePerStaProfile, List.set_append_right, le_refl, Nat.sub_self, List.set_cons_zero,
          hdist, List.append_assoc, List.singleton_append]
        simp only [List.length_append, List.append_assoc, List.singleton_append] at hrec
        rw [if_pos (by omega), hrec]

/-- The Multi-Link Control field written for a Basic element gives back the variant
and the presence bitmap. -/
theorem mlControl_fields (tag bitmap : Nat) (htag : tag < 8) (hbitmap : bitmap < 4096) :
    (tag % 256 + (bitmap % 65536) <<< 4) % 65536 < 65536
    ∧ ((tag % 256 + (bitmap % 65536) <<< 4) % 65536) &&& 0x0007 = tag
    ∧ ((tag % 256 + (bitmap % 65536) <<< 4) % 65536) >>> 4 = bitmap := by
  have h7 : ∀ n : Nat, n &&& 0x0007 = n % 8 := fun n => Nat.and_pow_two_sub_one_eq_mod n 3
  rw [h7, Nat.shiftLeft_eq, Nat.shiftRight_eq_div_pow]
  refine ⟨by omega, by omega, by omega⟩

/-- C2: for a Basic element whose sub-elements are valid for the containing frame of the
element and whose collaborators (Common Info field, owned management frames) are
faithful on it, deserializing the bytes written by `SerializeInformationField`, with
their number (a `uint16_t`) as the declared length, into a newly constructed element
bound to the same containing frame yields the element itself, field for field, with the
same sub-elements in the same order, and returns the number of bytes written. -/
theorem C2_element_round_trip (env : Env A R P) (frame : ContainingFrame A R P)
    (c : CommonInfoBasicMle) (subs : List (PerStaProfileSubelement A R P)) (bytes : List Byte)
    (htag : env.BASIC_VARIANT < 8) (hc : env.CommonInfoFaithful c)
    (hvalid : ∀ s ∈ subs, PerStaProfileSubelement.Valid env frame s)
    (hser : SerializeInformationField env ⟨frame, some c, subs⟩ = .ok bytes)
    (hfit : bytes.length < 65536) :
    DeserializeInformationField env (create frame) bytes bytes.length
      = .ok (⟨frame, some c, subs⟩, bytes.length) := by
  obtain ⟨hbitmap, hclen, hcrt⟩ := hc
  unfold SerializeInformationField at hser
  dsimp only at hser
  split at hser
  · simp at hser
  · rename_i tb htb
    simp only [Except.ok.injEq] at hser
    have hvar : GetVariant env (⟨frame, some c, subs⟩ : MultiLinkElement A R P)
        = env.BASIC_VARIANT := rfl
    rw [hvar] at hser
    obtain ⟨hlt, hand, hshift⟩ := mlControl_fields env.BASIC_VARIANT (env.GetPresenceBitmap c)
      htag hbitmap
    have hread := read_write_U16 _ hlt (env.Serialize c ++ tb)
    have hset : SetVariant env (create frame) env.BASIC_VARIANT
        = .ok (⟨frame, some {}, []⟩ : MultiLinkElement A R P) := by
      rw [SetVariant_eq, if_pos ⟨rfl, rfl⟩]
      rfl
    have hmod : (env.Serialize c).length % 256 = (env.Serialize c).length :=
      Nat.mod_eq_of_lt hclen
    have hnext : Next (env.Serialize c).length (env.Serialize c ++ tb) = .ok tb := by
      simp [Next]
    have hloop := DeserializeInformationField.loop_round_trip env frame c subs [] tb
      (WriteHtolsbU16 ((env.BASIC_VARIANT % 256 + (env.GetPresenceBitmap c % 65536) <<< 4)
        % 65536) ++ env.Serialize c) (tb.length + 1) hvalid htb (le_refl _)
      (by rw [hser]; exact hfit)
    rw [hser] at hloop
    have hcount : (0 + 2 + (env.Serialize c).length) % 65536
        = (WriteHtolsbU16 ((env.BASIC_VARIANT % 256 + (env.GetPresenceBitmap c % 65536) <<< 4)
            % 65536) ++ env.Serialize c).length := by
      have hb : bytes.length = 2 + (env.Serialize c).length + tb.length := by
        rw [← hser]
        simp only [WriteHtolsbU16, List.length_append, List.length_cons, List.length_nil]
      simp only [WriteHtolsbU16, List.length_append, List.length_cons, List.length_nil]
      omega
    rw [← hcount] at hloop
    rw [List.nil_append] at hloop
    unfold DeserializeInformationField
    dsimp only
    rw [← hser, List.append_assoc, hread]
    simp only [hand, hset, hshift, hcrt, hmod, hnext]
    rw [List.append_assoc] at hser
    rw [hser]
    exact hloop

/-- The Common Info collaborator of the example environment is faithful on the example
Common Info. -/
theorem Example.commonInfo_faithful : Example.env.CommonInfoFaithful Example.commonInfo :=
  ⟨by decide, by decide, by
    intro rest
    have hs : Example.env.Serialize Example.commonInfo
        = [170, 187, 204, 221, 238, 255, 2, 53, 48] := rfl
    have hb : Example.env.GetPresenceBitmap Example.commonInfo = 9 := rfl
    rw [hs, hb]
    simp only [Example.env, Example.Deserialize, List.cons_append, List.nil_append, ReadFrom,
      Example.readLinkIdInfo, Example.readBssParamsChangeCount, Example.readEmlCapabilities,
      ReadU8, ReadLsbtohU16, GetDistanceFrom, List.length_cons]
    simp only [Nat.reduceMod, Nat.reduceDiv, if_true, if_false, Nat.reduceEqDiff]
    have hd : rest.length + 1 + 1 + 1 + 1 + 1 + 1 + 1 + 1 + 1 - rest.length = 9 := by omega
    rw [hd]
    rfl⟩

/-- The example sub-element that owns a frame is valid inside an Association Request. -/
theorem Example.subelement5_valid :
    ∀ s ∈ [Example.subelement5],
      PerStaProfileSubelement.Valid Example.env (.assocRequest [0x07]) s := by
  intro s hs
  rw [List.mem_singleton] at hs
  subst hs
  refine ⟨rfl, rfl, fun h => absurd h (by decide), ?_⟩
  refine ⟨rfl, by decide, fun rest => ?_⟩
  simp [Example.env, Example.rawProfile]

/-- The statement of C2 at the example element inside an Association Request, whose
sub-element has link ID 5, an address and an owned frame of two bytes. -/
theorem C2_element_round_trip_witness :
    Example.env.BASIC_VARIANT < 8
    ∧ Example.env.CommonInfoFaithful Example.commonInfo
    ∧ (∀ s ∈ [Example.subelement5],
        PerStaProfileSubelement.Valid Example.env (.assocRequest [0x07]) s)
    ∧ SerializeInformationField Example.env Example.elementInAssocRequest
        = .ok [145, 0, 170, 187, 204, 221, 238, 255, 2, 53, 48,
               0, 11, 37, 0, 7, 170, 187, 204, 221, 238, 255, 49, 4]
    ∧ DeserializeInformationField Example.env (create (.assocRequest [0x07]))
        [145, 0, 170, 187, 204, 221, 238, 255, 2, 53, 48,
         0, 11, 37, 0, 7, 170, 187, 204, 221, 238, 255, 49, 4] 24
        = .ok (Example.elementInAssocRequest, 24) :=
  ⟨by decide, Example.commonInfo_faithful, Example.subelement5_valid, rfl,
   C2_element_round_trip Example.env (.assocRequest [0x07]) Example.commonInfo
     [Example.subelement5]
     [145, 0, 170, 187, 204, 221, 238, 255, 2, 53, 48,
      0, 11, 37, 0, 7, 170, 187, 204, 221, 238, 255, 49, 4]
     (by decide) Example.commonInfo_faithful Example.subelement5_valid rfl (by decide)⟩

end MultiLinkElement

end ns3

namespace ns3

variable {A R P : Type}

/-! ## Multi-Link Control field -/

namespace MultiLinkElement

/-- The control field, the variant check and the hand-over of the presence bitmap in
`DeserializeInformationField`, for a newly constructed element. -/
theorem DeserializeInformationField_control (env : Env A R P) (frame : ContainingFrame A R P)
    (ctl : Nat) (hctl : ctl < 65536) (rest : List Byte) (length : Nat) :
    DeserializeInformationField env (create frame) (toU8 ctl :: toU8 (ctl / 256) :: rest) length
      = if ctl % 8 = env.BASIC_VARIANT then
          match env.Deserialize {} rest (ctl / 16) with
          | .error k => .error k
          | .ok (arg, nBytes) =>
            match Next (nBytes % 256) rest with
            | .error k => .error k
            | .ok i =>
              DeserializeInformationField.loop env (toU8 ctl :: toU8 (ctl / 256) :: rest) length
                (i.length + 1) ⟨frame, some arg, []⟩ i ((0 + 2 + nBytes % 256) % 65536)
        else .error .abort := by
  have hread := read_write_U16 ctl hctl rest
  simp only [WriteHtolsbU16, List.cons_append, List.nil_append] at hread
  have h7 : ctl &&& 0x0007 = ctl % 8 := Nat.and_pow_two_sub_one_eq_mod ctl 3
  have h4 : ctl >>> 4 = ctl / 16 := Nat.shiftRight_eq_div_pow ctl 4
  have hu : GetVariant env (create frame : MultiLinkElement A R P) = env.UNSET := rfl
  unfold DeserializeInformationField
  simp only [hread, h7, h4, SetVariant_eq, hu, true_and]
  by_cases hb : ctl % 8 = env.BASIC_VARIANT
  · simp only [hb, if_true, create]
  · simp only [hb, if_false]

/-- The bytes `SerializeInformationField` writes for a Basic element: the Multi-Link
Control field, low byte first, the Common Info, then the sub-elements. -/
theorem SerializeInformationField_basic (env : Env A R P) (frame : ContainingFrame A R P)
    (c : CommonInfoBasicMle) (subs : List (PerStaProfileSubelement A R P)) :
    SerializeInformationField env ⟨frame, some c, subs⟩
      = match SerializeInformationField.loop env subs with
        | .error k => .error k
        | .ok tb =>
          .ok (toU8 ((env.BASIC_VARIANT % 256 + env.GetPresenceBitmap c * 16) % 65536)
            :: toU8 ((env.BASIC_VARIANT % 256 + env.GetPresenceBitmap c * 16) % 65536 / 256)
            :: (env.Serialize c ++ tb)) := by
  have hvar : GetVariant env (⟨frame, some c, subs⟩ : MultiLinkElement A R P)
      = env.BASIC_VARIANT := rfl
  have hm : (env.BASIC_VARIANT % 256 + (env.GetPresenceBitmap c % 65536) <<< 4) % 65536
      = (env.BASIC_VARIANT % 256 + env.GetPresenceBitmap c * 16) % 65536 := by
    rw [Nat.shiftLeft_eq]
    omega
  unfold SerializeInformationField
  dsimp only
  rw [hvar, hm]
  cases SerializeInformationField.loop env subs with
  | error k => rfl
  | ok tb => simp [WriteHtolsbU16]

/-- C11: for a Basic element whose variant tag fits bits 0-2 and whose Common Info
reports the presence bitmap `b`, `SerializeInformationField` writes the two bytes, low
byte first, of `(tag + b * 16) mod 2^16`, then the Common Info, then the sub-elements
(it fails only where the serialization of a sub-element does, and never without
sub-elements); that value has the tag in bits 0-2, bit 3 zero and `b` (mod 2^12) from
bit 4 upward; `DeserializeInformationField` takes the variant from `control mod 8` and
hands `control / 16` to the Common Info as the presence bitmap; so for `b < 2^12` the
pair read back from the bytes written is the pair written; with tag 1 and bitmap 0 the
bytes are `0x01 0x00`. -/
theorem C11_multi_link_control (env : Env A R P) (frame : ContainingFrame A R P)
    (c : CommonInfoBasicMle) (subs : List (PerStaProfileSubelement A R P))
    (htag : env.BASIC_VARIANT < 8) :
    SerializeInformationField env ⟨frame, some c, subs⟩
        = (match SerializeInformationField.loop env subs with
           | .error k => .error k
           | .ok tb =>
             .ok (toU8 ((env.BASIC_VARIANT + env.GetPresenceBitmap c * 16) % 65536)
               :: toU8 ((env.BASIC_VARIANT + env.GetPresenceBitmap c * 16) % 65536 / 256)
               :: (env.Serialize c ++ tb)))
    ∧ SerializeInformationField env ⟨frame, some c, []⟩
        = .ok (toU8 ((env.BASIC_VARIANT + env.GetPresenceBitmap c * 16) % 65536)
            :: toU8 ((env.BASIC_VARIANT + env.GetPresenceBitmap c * 16) % 65536 / 256)
            :: env.Serialize c)
    ∧ (∀ bytes, SerializeInformationField env ⟨frame, some c, subs⟩ = .ok bytes →
        ∃ tail, bytes
          = toU8 ((env.BASIC_VARIANT + env.GetPresenceBitmap c * 16) % 65536)
            :: toU8 ((env.BASIC_VARIANT + env.GetPresenceBitmap c * 16) % 65536 / 256)
            :: tail)
    ∧ (env.BASIC_VARIANT + env.GetPresenceBitmap c * 16) % 65536 % 8 = env.BASIC_VARIANT
    ∧ (env.BASIC_VARIANT + env.GetPresenceBitmap c * 16) % 65536 / 8 % 2 = 0
    ∧ (env.BASIC_VARIANT + env.GetPresenceBitmap c * 16) % 65536 / 16
        = env.GetPresenceBitmap c % 4096
    ∧ (∀ (ctl : Nat) (rest : List Byte) (length : Nat), ctl < 65536 →
        DeserializeInformationField env (create frame)
            (toU8 ctl :: toU8 (ctl / 256) :: rest) length
          = if ctl % 8 = env.BASIC_VARIANT then
              match env.Deserialize {} rest (ctl / 16) with
              | .error k => .error k
              | .ok (arg, nBytes) =>
                match Next (nBytes % 256) rest with
                | .error k => .error k
                | .ok i =>
                  DeserializeInformationField.loop env (toU8 ctl :: toU8 (ctl / 256) :: rest)
                    length (i.length + 1) ⟨frame, some arg, []⟩ i
                    ((0 + 2 + nBytes % 256) % 65536)
            else .error .abort)
    ∧ (env.GetPresenceBitmap c < 4096 →
        (env.BASIC_VARIANT + env.GetPresenceBitmap c * 16) % 65536 % 8 = env.BASIC_VARIANT
        ∧ (env.BASIC_VARIANT + env.GetPresenceBitmap c * 16) % 65536 / 16
            = env.GetPresenceBitmap c)
    ∧ (env.GetPresenceBitmap c < 4096 → ∀ (rest : List Byte) (length : Nat),
        DeserializeInformationField env (create frame)
            (toU8 ((env.BASIC_VARIANT + env.GetPresenceBitmap c * 16) % 65536)
              :: toU8 ((env.BASIC_VARIANT + env.GetPresenceBitmap c * 16) % 65536 / 256)
              :: rest) length
          = match env.Deserialize {} rest (env.GetPresenceBitmap c) with
            | .error k => .error k
            | .ok (arg, nBytes) =>
              match Next (nBytes % 256) rest with
              | .error k => .error k
              | .ok i =>
                DeserializeInformationField.loop env
                  (toU8 ((env.BASIC_VARIANT + env.GetPresenceBitmap c * 16) % 65536)
                    :: toU8 ((env.BASIC_VARIANT + env.GetPresenceBitmap c * 16) % 65536 / 256)
                    :: rest)
                  length (i.length + 1) ⟨frame, some arg, []⟩ i
                  ((0 + 2 + nBytes % 256) % 65536))
    ∧ (env.BASIC_VARIANT = 1 → env.GetPresenceBitmap c = 0 →
        SerializeInformationField env ⟨frame, some c, []⟩
            = .ok (0x01 :: 0x00 :: env.Serialize c)
        ∧ ∀ bytes, SerializeInformationField env ⟨frame, some c, subs⟩ = .ok bytes →
            ∃ tail, bytes = 0x01 :: 0x00 :: tail) := by
  have hmod : env.BASIC_VARIANT % 256 = env.BASIC_VARIANT := Nat.mod_eq_of_lt (by omega)
  have hall := SerializeInformationField_basic env frame c subs
  have hnil := SerializeInformationField_basic env frame c []
  rw [hmod] at hall hnil
  simp only [SerializeInformationField.loop, List.append_nil] at hnil
  have hguard : ∀ bytes, SerializeInformationField env ⟨frame, some c, subs⟩ = .ok bytes →
      ∃ tail, bytes
        = toU8 ((env.BASIC_VARIANT + env.GetPresenceBitmap c * 16) % 65536)
          :: toU8 ((env.BASIC_VARIANT + env.GetPresenceBitmap c * 16) % 65536 / 256)
          :: tail := by
    intro bytes hser
    rw [hall] at hser
    split at hser
    · simp at hser
    · rename_i tb _
      simp only [Except.ok.injEq] at hser
      exact ⟨env.Serialize c ++ tb, hser.symm⟩
  refine ⟨hall, hnil, hguard, by omega, by omega, by omega, ?_,
    fun _ => ⟨by omega, by omega⟩, ?_, ?_⟩
  · intro ctl rest length hctl
    exact DeserializeInformationField_control env frame ctl hctl rest length
  · intro hb rest length
    have h := DeserializeInformationField_control env frame
      ((env.BASIC_VARIANT + env.GetPresenceBitmap c * 16) % 65536)
      (Nat.mod_lt _ (by decide)) rest length
    have h8 : (env.BASIC_VARIANT + env.GetPresenceBitmap c * 16) % 65536 % 8
        = env.BASIC_VARIANT := by omega
    have h16 : (env.BASIC_VARIANT + env.GetPresenceBitmap c * 16) % 65536 / 16
        = env.GetPresenceBitmap c := by omega
    rw [h, if_pos h8, h16]
  · intro h1 h0
    refine ⟨?_, ?_⟩
    · rw [hnil, h1, h0]
      rfl
    · intro bytes hser
      obtain ⟨tail, h⟩ := hguard bytes hser
      rw [h1, h0] at h
      exact ⟨tail, h⟩

/-- The statement of C11 at the example element with one sub-element (tag 1, bitmap 9),
whose control field is `0x91 0x00`, and at the example element with no optional field
and no sub-element (tag 1, bitmap 0), whose control field is `0x01 0x00`. -/
theorem C11_multi_link_control_witness :
    Example.env.BASIC_VARIANT < 8
    ∧ SerializeInformationField Example.env Example.element
        = .ok [0x91, 0x00, 0xAA, 0xBB, 0xCC, 0xDD, 0xEE, 0xFF, 2, 53, 48, 0, 3, 0x13, 0, 1]
    ∧ SerializeInformationField Example.env Example.bareElement
        = .ok [0x01, 0x00, 0xAA, 0xBB, 0xCC, 0xDD, 0xEE, 0xFF]
    ∧ (0x91 : Nat) % 8 = 1 ∧ (0x91 : Nat) / 16 = 9 :=
  ⟨by decide,
   (C11_multi_link_control Example.env .monostate Example.commonInfo [Example.subelement3]
     (by decide)).1,
   (C11_multi_link_control Example.env .monostate { m_mldMacAddress := Example.address } []
     (by decide)).2.1,
   by decide, by decide⟩

/-! ## Strictness of the decoding loop -/

/-- `DeserializeInformationField` up to the entry of its loop, when every step before
the loop succeeds. -/
theorem DeserializeInformationField_to_loop (env : Env A R P)
    (e e1 : MultiLinkElement A R P) (start i i1 : List Byte) (length ctl n : Nat)
    (arg arg1 : CommonInfoBasicMle)
    (hread : ReadLsbtohU16 start = .ok (ctl, i))
    (hset : SetVariant env e (ctl &&& 0x0007) = .ok e1)
    (hci : e1.m_commonInfo = some arg)
    (hdes : env.Deserialize arg i (ctl >>> 4) = .ok (arg1, n))
    (hnext : Next (n % 256) i = .ok i1) :
    DeserializeInformationField env e start length
      = DeserializeInformationField.loop env start length (i1.length + 1)
          { e1 with m_commonInfo := some arg1 } i1 ((0 + 2 + n % 256) % 65536) := by
  unfold DeserializeInformationField
  simp only [hread, hset, hci, hdes, hnext]

/-- C12: when the control field and the Common Info have been read, fewer bytes than
the declared length have been consumed and the next byte is not the identifier of the
Per-STA Profile sub-element, `DeserializeInformationField` aborts; the same holds at
every later turn of the loop, which has no branch that skips a sub-element. -/
theorem C12_unknown_subelement_is_fatal (env : Env A R P)
    (e e1 : MultiLinkElement A R P) (start i rest : List Byte) (length ctl n : Nat)
    (arg arg1 : CommonInfoBasicMle) (b : Byte)
    (hread : ReadLsbtohU16 start = .ok (ctl, i))
    (hset : SetVariant env e (ctl &&& 0x0007) = .ok e1)
    (hci : e1.m_commonInfo = some arg)
    (hdes : env.Deserialize arg i (ctl >>> 4) = .ok (arg1, n))
    (hnext : Next (n % 256) i = .ok (b :: rest))
    (hcount : (2 + n % 256) % 65536 < length)
    (hid : b ≠ env.PER_STA_PROFILE_SUBELEMENT_ID) :
    DeserializeInformationField env e start length = .error .abort
    ∧ ∀ (fuel : Nat) (e2 : MultiLinkElement A R P) (count : Nat), count < length →
        DeserializeInformationField.loop env start length (fuel + 1) e2 (b :: rest) count
          = .error .abort := by
  have hval : ¬ b.val = env.PER_STA_PROFILE_SUBELEMENT_ID.val := fun h => hid (Fin.ext h)
  have hloop : ∀ (fuel : Nat) (e2 : MultiLinkElement A R P) (count : Nat), count < length →
      DeserializeInformationField.loop env start length (fuel + 1) e2 (b :: rest) count
        = .error .abort := by
    intro fuel e2 count hlt
    simp only [DeserializeInformationField.loop, hlt, if_true, PeekU8, hval, if_false]
  refine ⟨?_, hloop⟩
  rw [DeserializeInformationField_to_loop env e e1 start i (b :: rest) length ctl n arg arg1
    hread hset hci hdes hnext]
  exact hloop _ _ _ (by omega)

/-- The statement of C12 at a buffer in which the byte after the Common Info is
`0x05`. -/
theorem C12_unknown_subelement_is_fatal_witness :
    (2 + 6 % 256) % 65536 < 13
    ∧ (0x05 : Byte) ≠ Example.env.PER_STA_PROFILE_SUBELEMENT_ID
    ∧ DeserializeInformationField Example.env (create .monostate)
        [0x01, 0x00, 0xAA, 0xBB, 0xCC, 0xDD, 0xEE, 0xFF, 0x05, 0x03, 0x13, 0x00, 0x01] 13
      = .error .abort :=
  ⟨by decide, by decide,
  (C12_unknown_subelement_is_fatal Example.env (create .monostate)
    ⟨.monostate, some {}, []⟩
    [0x01, 0x00, 0xAA, 0xBB, 0xCC, 0xDD, 0xEE, 0xFF, 0x05, 0x03, 0x13, 0x00, 0x01]
    [0xAA, 0xBB, 0xCC, 0xDD, 0xEE, 0xFF, 0x05, 0x03, 0x13, 0x00, 0x01]
    [0x03, 0x13, 0x00, 0x01] 13 1 6 {} { m_mldMacAddress := Example.address } 0x05
    rfl rfl rfl rfl rfl (by decide) (by decide)).1⟩

/-! ## Declared length of the element -/

/-- The decoding loop returns only a count that is not below the declared length. -/
theorem DeserializeInformationField.loop_count (env : Env A R P) (start : List Byte)
    (length : Nat) (fuel : Nat) :
    ∀ (e : MultiLinkElement A R P) (i : List Byte) (count : Nat) (e1 : MultiLinkElement A R P)
      (n : Nat), DeserializeInformationField.loop env start length fuel e i count = .ok (e1, n) →
      length ≤ n := by
  induction fuel with
  | zero =>
    intro e i count e1 n h
    simp [DeserializeInformationField.loop] at h
  | succ fuel ih =>
    intro e i count e1 n h
    unfold DeserializeInformationField.loop at h
    split at h
    · split at h
      · simp at h
      · split at h
        · split at h
          · simp at h
          · split at h
            · simp at h
            · dsimp only at h
              split at h
              · simp at h
              · exact ih _ _ _ _ _ h
        · simp at h
    · rename_i hge
      simp only [Except.ok.injEq, Prod.mk.injEq] at h
      omega

/-- C13 (amended): whenever `DeserializeInformationField` of the element returns, the
count it returns is not below the declared length, and it is not checked against it:
when the control field and the Common Info alone consume at least the declared length,
their count is returned without reading a sub-element; at every turn of the loop a
running count that is not below the declared length is returned as it is; and when the
count after reading a sub-element is not below the declared length, the loop returns
the element with that sub-element and that count.  In each case the count may exceed the
declared length. -/
theorem C13_returned_count_reaches_length (env : Env A R P) (e : MultiLinkElement A R P)
    (start : List Byte) (length : Nat) :
    (∀ e1 n, DeserializeInformationField env e start length = .ok (e1, n) → length ≤ n)
    ∧ (∀ (e1 : MultiLinkElement A R P) (i i1 : List Byte) (ctl n : Nat)
        (arg arg1 : CommonInfoBasicMle),
        ReadLsbtohU16 start = .ok (ctl, i) → SetVariant env e (ctl &&& 0x0007) = .ok e1 →
        e1.m_commonInfo = some arg → env.Deserialize arg i (ctl >>> 4) = .ok (arg1, n) →
        Next (n % 256) i = .ok i1 → length ≤ (2 + n % 256) % 65536 →
        DeserializeInformationField env e start length
          = .ok ({ e1 with m_commonInfo := some arg1 }, (2 + n % 256) % 65536))
    ∧ (∀ (fuel : Nat) (e2 : MultiLinkElement A R P) (i : List Byte) (count : Nat),
        length ≤ count →
        DeserializeInformationField.loop env start length (fuel + 1) e2 i count
          = .ok (e2, count))
    ∧ (∀ (fuel : Nat) (e2 e3 : MultiLinkElement A R P) (i i1 : List Byte) (count : Nat)
        (p p1 : PerStaProfileSubelement A R P),
        count < length → PeekU8 i = .ok env.PER_STA_PROFILE_SUBELEMENT_ID.val →
        AddPerStaProfileSubelement env e2 = .ok e3 →
        GetPerStaProfile e3 (GetNPerStaProfileSubelements e3 - 1) = .ok p →
        PerStaProfileSubelement.Deserialize env
            { p with m_containingFrame := e3.m_containingFrame } i = .ok (p1, i1) →
        length ≤ GetDistanceFrom i1 start % 65536 →
        DeserializeInformationField.loop env start length (fuel + 2) e2 i count
          = .ok (updatePerStaProfile e3 (GetNPerStaProfileSubelements e3 - 1) p1,
                 GetDistanceFrom i1 start % 65536)) := by
  refine ⟨?_, ?_, ?_, ?_⟩
  · intro e1 n h
    unfold DeserializeInformationField at h
    dsimp only at h
    split at h
    · simp at h
    · split at h
      · simp at h
      · split at h
        · simp at h
        · split at h
          · simp at h
          · split at h
            · simp at h
            · exact DeserializeInformationField.loop_count env _ _ _ _ _ _ _ _ h
  · intro e1 i i1 ctl n arg arg1 hread hset hci hdes hnext hle
    rw [DeserializeInformationField_to_loop env e e1 start i i1 length ctl n arg arg1
      hread hset hci hdes hnext]
    have hnot : ¬ (0 + 2 + n % 256) % 65536 < length := by omega
    simp only [DeserializeInformationField.loop, hnot, if_false]
  · intro fuel e2 i count hle
    simp only [DeserializeInformationField.loop, not_lt.mpr hle, if_false]
  · intro fuel e2 e3 i i1 count p p1 hlt hpeek hadd hget hdes hle
    simp only [DeserializeInformationField.loop, hlt, if_true, hpeek, hadd, hget, hdes,
      not_lt.mpr hle, if_false]

/-- The statement of C13 (amended) at a turn of the loop: behind the control field and
the Common Info of the buffer `01 00 AA BB CC DD EE FF 00 03 13 00 01` the count is 8;
with a declared length of 10 the loop reads the sub-element `00 03 13 00 01` and returns
the count 13. -/
theorem C13_returned_count_reaches_length_witness :
    DeserializeInformationField.loop Example.env
        [0x01, 0x00, 0xAA, 0xBB, 0xCC, 0xDD, 0xEE, 0xFF, 0x00, 0x03, 0x13, 0x00, 0x01] 10 7
        Example.bareElement [0x00, 0x03, 0x13, 0x00, 0x01] 8
      = .ok ({ Example.bareElement with m_perStaProfileSubelements := [Example.subelement3] },
             13) :=
  (C13_returned_count_reaches_length Example.env (create .monostate)
    [0x01, 0x00, 0xAA, 0xBB, 0xCC, 0xDD, 0xEE, 0xFF, 0x00, 0x03, 0x13, 0x00, 0x01] 10).2.2.2
    5 Example.bareElement
    { Example.bareElement with m_perStaProfileSubelements := [PerStaProfileSubelement.create 1] }
    [0x00, 0x03, 0x13, 0x00, 0x01] [] 8 (PerStaProfileSubelement.create 1) Example.subelement3
    (by decide) rfl rfl rfl rfl (by decide)

/-- C13 as stated fails.  With a declared length of 5, the control field and the Common
Info of the buffer `01 00 AA BB CC DD EE FF` consume 8 bytes, and
`DeserializeInformationField` returns the count 8 instead of stopping the program.
With a declared length of 10, the same bytes followed by the sub-element
`00 03 13 00 01` consume 13 bytes, and `DeserializeInformationField` returns the element
with that sub-element and the count 13. -/
theorem C13_returns_more_than_declared :
    DeserializeInformationField Example.env (create .monostate)
        [0x01, 0x00, 0xAA, 0xBB, 0xCC, 0xDD, 0xEE, 0xFF] 5
      = .ok (Example.bareElement, 8)
    ∧ ¬ (∀ e1 n, DeserializeInformationField Example.env (create .monostate)
          [0x01, 0x00, 0xAA, 0xBB, 0xCC, 0xDD, 0xEE, 0xFF] 5 = .ok (e1, n) → n = 5)
    ∧ DeserializeInformationField Example.env (create .monostate)
        [0x01, 0x00, 0xAA, 0xBB, 0xCC, 0xDD, 0xEE, 0xFF, 0x00, 0x03, 0x13, 0x00, 0x01] 10
      = .ok ({ Example.bareElement with m_perStaProfileSubelements := [Example.subelement3] },
             13)
    ∧ ¬ (∀ e1 n, DeserializeInformationField Example.env (create .monostate)
          [0x01, 0x00, 0xAA, 0xBB, 0xCC, 0xDD, 0xEE, 0xFF, 0x00, 0x03, 0x13, 0x00, 0x01] 10
            = .ok (e1, n) → n = 10) := by
  refine ⟨rfl, fun h => ?_, rfl, fun h => ?_⟩
  · have := h Example.bareElement 8 rfl
    simp at this
  · have := h { Example.bareElement with m_perStaProfileSubelements := [Example.subelement3] }
      13 rfl
    simp at this

end MultiLinkElement

/-! ## Sub-element: leftover bytes, profile against containing frame -/

namespace PerStaProfileSubelement

/-- C14 (amended): with no containing frame and a declared length greater than the bytes
taken by the STA Control, the STA Info Length and the optional address (3, or 9 when the
address-present bit is set), `DeserializeInformationField` of the sub-element does not
fail: it returns that number of bytes, below the declared length, and leaves the profile
as it was.  The failure comes from the framed `Deserialize` of the sub-element, which
stops on the mismatch between the count returned and the Length it read. -/
theorem C14_leftover_bytes_are_returned_short (env : Env A R P)
    (s0 : PerStaProfileSubelement A R P) (ctl : U16) (addr : Mac48Address) (len : Byte)
    (tail : List Byte) (length : Nat) (hctx : s0.m_containingFrame = .monostate)
    (hlen : 3 + (if (ctl.val &&& 0x0020) ≠ 0 then 6 else 0) < length) :
    DeserializeInformationField env s0
        ([toU8 ctl.val, toU8 (ctl.val / 256), len]
          ++ (if (ctl.val &&& 0x0020) ≠ 0 then WriteTo addr else []) ++ tail) length
      = .ok ({ s0 with m_staControl := ctl,
                       m_staMacAddress := if (ctl.val &&& 0x0020) ≠ 0 then addr
                                          else s0.m_staMacAddress },
             3 + (if (ctl.val &&& 0x0020) ≠ 0 then 6 else 0))
    ∧ (length < 256 →
        Deserialize env s0
          ([env.PER_STA_PROFILE_SUBELEMENT_ID, toU8 length]
            ++ ([toU8 ctl.val, toU8 (ctl.val / 256), len]
                ++ (if (ctl.val &&& 0x0020) ≠ 0 then WriteTo addr else []) ++ tail))
          = .error .abort) := by
  have hd := DeserializeInformationField_header env s0 ctl addr len tail length
  generalize (if (ctl.val &&& 0x0020) ≠ 0 then (6 : Nat) else 0) = k at hd hlen ⊢
  rw [if_neg (show ¬ ¬ (3 + k) ≤ length by omega),
    if_neg (show ¬ (3 + k = length) by omega)] at hd
  have hfin : DeserializeInformationField env s0
        ([toU8 ctl.val, toU8 (ctl.val / 256), len]
          ++ (if (ctl.val &&& 0x0020) ≠ 0 then WriteTo addr else []) ++ tail) length
      = .ok ({ s0 with m_staControl := ctl,
                       m_staMacAddress := if (ctl.val &&& 0x0020) ≠ 0 then addr
                                          else s0.m_staMacAddress },
             3 + k) := by
    rw [hd]
    simp only [staProfileDeserialize, hctx]
  refine ⟨hfin, fun h256 => ?_⟩
  have hmod : length % 256 = length := Nat.mod_eq_of_lt h256
  have hne : ¬ (3 + k = length) := by omega
  simp only [Deserialize, List.cons_append, List.nil_append, ReadU8, ElementId, ne_eq,
    not_true_eq_false, if_false, toU8_val, hmod]
  simp only [List.cons_append, List.nil_append, ne_eq] at hfin
  rw [hfin]
  simp only [hne, not_false_eq_true, if_true]

/-- The statement of C14 (amended) at the payload `13 00 01 FF` with declared length 4. -/
theorem C14_leftover_bytes_are_returned_short_witness :
    (create 1 : PerStaProfileSubelement (List Byte) (List Byte) (List Byte)).m_containingFrame
        = .monostate
    ∧ 3 + (if ((0x13 : U16).val &&& 0x0020) ≠ 0 then 6 else 0) < 4
    ∧ DeserializeInformationField Example.env (create 1)
        ([toU8 (0x13 : U16).val, toU8 ((0x13 : U16).val / 256), 0x01]
          ++ (if ((0x13 : U16).val &&& 0x0020) ≠ 0 then WriteTo {} else []) ++ [0xFF]) 4
      = .ok ({ (create 1 : PerStaProfileSubelement (List Byte) (List Byte) (List Byte)) with
                 m_staControl := 0x13,
                 m_staMacAddress := if ((0x13 : U16).val &&& 0x0020) ≠ 0 then {}
                                    else (create 1 : PerStaProfileSubelement (List Byte)
                                            (List Byte) (List Byte)).m_staMacAddress },
             3 + (if ((0x13 : U16).val &&& 0x0020) ≠ 0 then 6 else 0)) :=
  ⟨rfl, by decide,
   (C14_leftover_bytes_are_returned_short Example.env (create 1) 0x13 {} 0x01 [0xFF] 4 rfl
     (by decide)).1⟩

/-- C14 as stated fails: with no containing frame, the payload `13 00 01 FF` and the
declared length 4, `DeserializeInformationField` returns the count 3 and a sub-element
without a frame. -/
theorem C14_leftover_bytes_do_not_fail :
    DeserializeInformationField Example.env (create 1) [0x13, 0x00, 0x01, 0xFF] 4
      = .ok (⟨1, 0x13, {}, .monostate, .monostate⟩, 3) := by
  rfl

/-- C15: a sub-element that owns a management frame whose kind is not the kind of the
containing frame (or that has no containing frame) stops the program in both
`GetInformationFieldSize` and `SerializeInformationField`, by the assertion on the
containing frame. -/
theorem C15_frame_mismatch_is_fatal (env : Env A R P) (s : PerStaProfileSubelement A R P)
    (hown : s.m_staProfile ≠ .monostate) (hmis : profileMatchesFrame s = false) :
    GetInformationFieldSize env s = .error .assert
    ∧ SerializeInformationField env s = .error .assert := by
  obtain ⟨v, ctl, addr, profile, frame⟩ := s
  cases profile <;> cases frame <;>
    simp_all [profileMatchesFrame, GetInformationFieldSize, SerializeInformationField,
      staProfileSize, staProfileSerialize]

/-- The statement of C15 at a sub-element that owns an Association Request frame and has
an Association Response as containing frame. -/
theorem C15_frame_mismatch_is_fatal_witness :
    (⟨1, 0x13, {}, .assocRequest [0x31], .assocResponse [0x07]⟩ :
        PerStaProfileSubelement (List Byte) (List Byte) (List Byte)).m_staProfile ≠ .monostate
    ∧ profileMatchesFrame (⟨1, 0x13, {}, .assocRequest [0x31], .assocResponse [0x07]⟩ :
        PerStaProfileSubelement (List Byte) (List Byte) (List Byte)) = false
    ∧ GetInformationFieldSize Example.env ⟨1, 0x13, {}, .assocRequest [0x31], .assocResponse [0x07]⟩
        = .error .assert
    ∧ SerializeInformationField Example.env
        ⟨1, 0x13, {}, .assocRequest [0x31], .assocResponse [0x07]⟩ = .error .assert :=
  ⟨by simp, rfl,
   C15_frame_mismatch_is_fatal Example.env
     ⟨1, 0x13, {}, .assocRequest [0x31], .assocResponse [0x07]⟩ (by simp) rfl⟩

/-- C16 (amended): a sub-element without an owned frame is accepted only when there is no
containing frame, where `GetInformationFieldSize` returns 3 (9 with an address) and
`SerializeInformationField` writes the STA Control, the STA Info Length and the optional
address; under an Association Request, as under any other containing frame, both stop
the program by the assertion "Missing management frame for Per-STA Profile
subelement". -/
theorem C16_empty_profile_needs_no_frame (env : Env A R P) (variant : Nat) (staControl : U16)
    (address : Mac48Address) :
    (∀ frame : ContainingFrame A R P, frame ≠ .monostate →
        GetInformationFieldSize env ⟨variant, staControl, address, .monostate, frame⟩
          = .error .assert
        ∧ SerializeInformationField env ⟨variant, staControl, address, .monostate, frame⟩
          = .error .assert)
    ∧ (∀ containing : A,
        GetInformationFieldSize env
            ⟨variant, staControl, address, .monostate, .assocRequest containing⟩
          = .error .assert
        ∧ SerializeInformationField env
            ⟨variant, staControl, address, .monostate, .assocRequest containing⟩
          = .error .assert)
    ∧ GetInformationFieldSize env
        (⟨variant, staControl, address, .monostate, .monostate⟩ : PerStaProfileSubelement A R P)
        = .ok (if (staControl.val &&& 0x0020) ≠ 0 then 9 else 3)
    ∧ SerializeInformationField env
        (⟨variant, staControl, address, .monostate, .monostate⟩ : PerStaProfileSubelement A R P)
        = .ok ([toU8 staControl.val, toU8 (staControl.val / 256),
                toU8 (if (staControl.val &&& 0x0020) ≠ 0 then 7 else 1)]
               ++ (if (staControl.val &&& 0x0020) ≠ 0 then WriteTo address else [])) := by
  have hall : ∀ frame : ContainingFrame A R P, frame ≠ .monostate →
      GetInformationFieldSize env ⟨variant, staControl, address, .monostate, frame⟩
        = .error .assert
      ∧ SerializeInformationField env ⟨variant, staControl, address, .monostate, frame⟩
        = .error .assert := by
    intro frame hne
    cases frame <;>
      simp_all [GetInformationFieldSize, SerializeInformationField, staProfileSize,
        staProfileSerialize]
  refine ⟨hall, fun containing => hall _ (by simp), ?_, ?_⟩
  · by_cases h : (staControl.val &&& 0x0020) ≠ 0
    · simp [GetInformationFieldSize, staProfileSize, GetStaInfoLength, HasStaMacAddress, h]
    · simp [GetInformationFieldSize, staProfileSize, GetStaInfoLength, HasStaMacAddress, h]
  · rw [SerializeInformationField_eq]
    by_cases h : (staControl.val &&& 0x0020) ≠ 0
    · simp [staProfileSerialize, HasStaMacAddress, h]
    · simp [staProfileSerialize, HasStaMacAddress, h]

/-- C16 as stated fails: for the sub-element with link ID 3, the complete-profile flag,
no address and no owned frame, inside an Association Request, `GetInformationFieldSize`
and `SerializeInformationField` stop the program by an assertion. -/
theorem C16_empty_profile_in_assoc_request_asserts :
    GetInformationFieldSize Example.env ⟨1, 0x13, {}, .monostate, .assocRequest [0x07]⟩
      = .error .assert
    ∧ SerializeInformationField Example.env ⟨1, 0x13, {}, .monostate, .assocRequest [0x07]⟩
      = .error .assert :=
  ⟨rfl, rfl⟩

end PerStaProfileSubelement

/-! ## Bits of the STA Control field -/

/-- A value has a non-zero intersection with the mask `2^k` exactly when its bit `k` is
set. -/
theorem and_two_pow_ne_zero (c k : Nat) : (c &&& 2 ^ k ≠ 0) ↔ c.testBit k = true := by
  constructor
  · intro h
    obtain ⟨j, hj⟩ := Nat.ne_zero_implies_bit_true h
    rw [Nat.testBit_and, Nat.testBit_two_pow] at hj
    simp only [Bool.and_eq_true, decide_eq_true_eq] at hj
    rw [hj.2]
    exact hj.1
  · intro h hz
    have : (c &&& 2 ^ k).testBit k = true := by
      rw [Nat.testBit_and, Nat.testBit_two_pow_self, h]
      rfl
    rw [hz] at this
    simp at this

/-- Setting bits of a 16-bit value with a 16-bit mask needs no narrowing. -/
theorem toU16_or (c : U16) (m : Nat) (hm : m < 65536) : (toU16 (c.val ||| m)).val = c.val ||| m := by
  rw [toU16_val]
  exact Nat.mod_eq_of_lt (Nat.or_lt_two_pow (n := 16) c.isLt hm)

/-- Clearing bits of a 16-bit value needs no narrowing. -/
theorem toU16_and (c : U16) (m : Nat) : (toU16 (c.val &&& m)).val = c.val &&& m := by
  rw [toU16_val]
  exact Nat.mod_eq_of_lt (Nat.lt_of_le_of_lt Nat.and_le_left c.isLt)

/-- The bits of the mask `0xfff0`. -/
theorem testBit_fff0 (i : Nat) : Nat.testBit 0xfff0 i = (decide (4 ≤ i) && decide (i < 16)) := by
  have h : (0xfff0 : Nat) = 2 ^ 4 * (2 ^ 12 - 1) := by norm_num
  rw [h, Nat.testBit_mul_pow_two, Nat.testBit_two_pow_sub_one]
  by_cases h4 : 4 ≤ i
  · have : (i - 4 < 12) ↔ i < 16 := by omega
    simp [h4, this]
  · simp [h4]

/-- The bits of the mask `0x0f`. -/
theorem testBit_000f (i : Nat) : Nat.testBit 0x0f i = decide (i < 4) := by
  have h : (0x0f : Nat) = 2 ^ 4 - 1 := by norm_num
  rw [h, Nat.testBit_two_pow_sub_one]

/-- Bit `i` of a 16-bit value is clear for `i ≥ 16`. -/
theorem U16_testBit_high (c : U16) (i : Nat) (h : 16 ≤ i) : c.val.testBit i = false := by
  apply Nat.testBit_lt_two_pow
  have h16 : (65536 : Nat) = 2 ^ 16 := by norm_num
  have hlt : c.val < 2 ^ 16 := h16 ▸ c.isLt
  exact Nat.lt_of_lt_of_le hlt (Nat.pow_le_pow_right (show 0 < 2 by decide) h)

namespace PerStaProfileSubelement

/-- The STA Control field after `SetLinkId`, bit by bit. -/
theorem SetLinkId_testBit (s : PerStaProfileSubelement A R P) (x : Byte) (i : Nat) :
    (SetLinkId s x).m_staControl.val.testBit i
      = if i < 4 then x.val.testBit i else s.m_staControl.val.testBit i := by
  have hx : x.val &&& 0x0f < 65536 :=
    Nat.lt_of_le_of_lt Nat.and_le_right (by decide)
  simp only [SetLinkId]
  rw [toU16_or _ _ hx, toU16_and, Nat.testBit_or, Nat.testBit_and, Nat.testBit_and,
    testBit_fff0, testBit_000f]
  by_cases h4 : i < 4
  · have : ¬ 4 ≤ i := by omega
    simp [h4, this]
  · by_cases h16 : i < 16
    · have : 4 ≤ i := by omega
      simp [h4, h16, this]
    · simp [h4, h16, U16_testBit_high s.m_staControl i (by omega)]

/-- The STA Control field after `SetCompleteProfile`, bit by bit. -/
theorem SetCompleteProfile_testBit (s : PerStaProfileSubelement A R P) (i : Nat) :
    (SetCompleteProfile s).m_staControl.val.testBit i
      = (s.m_staControl.val.testBit i || decide (i = 4)) := by
  simp only [SetCompleteProfile]
  rw [toU16_or _ _ (by decide), Nat.testBit_or]
  have h : (0x0010 : Nat) = 2 ^ 4 := by norm_num
  rw [h, Nat.testBit_two_pow]
  simp [eq_comm]

/-- The link ID is made of the bits 0 to 3 of the STA Control field. -/
theorem GetLinkId_eq_of_bits (s s1 : PerStaProfileSubelement A R P)
    (h : ∀ i, i < 4 → s1.m_staControl.val.testBit i = s.m_staControl.val.testBit i) :
    GetLinkId s1 = GetLinkId s := by
  simp only [GetLinkId]
  congr 1
  apply Nat.eq_of_testBit_eq
  intro i
  rw [Nat.testBit_and, Nat.testBit_and, testBit_000f]
  by_cases h4 : i < 4
  · simp [h4, h i h4]
  · simp [h4]

/-- The complete-profile flag is bit 4 of the STA Control field. -/
theorem IsCompleteProfileSet_eq_testBit (s : PerStaProfileSubelement A R P) :
    IsCompleteProfileSet s = s.m_staControl.val.testBit 4 := by
  have h : (0x0010 : Nat) = 2 ^ 4 := by norm_num
  simp only [IsCompleteProfileSet, h]
  by_cases hb : s.m_staControl.val.testBit 4 = true
  · rw [hb]
    exact decide_eq_true ((and_two_pow_ne_zero _ 4).2 hb)
  · have hn : ¬ (s.m_staControl.val &&& 2 ^ 4 ≠ 0) := fun hh => hb ((and_two_pow_ne_zero _ 4).1 hh)
    rw [decide_eq_false hn]
    simpa using hb

/-- The address-present flag is bit 5 of the STA Control field. -/
theorem HasStaMacAddress_eq_testBit (s : PerStaProfileSubelement A R P) :
    HasStaMacAddress s = s.m_staControl.val.testBit 5 := by
  have h : (0x0020 : Nat) = 2 ^ 5 := by norm_num
  simp only [HasStaMacAddress, h]
  by_cases hb : s.m_staControl.val.testBit 5 = true
  · rw [hb]
    exact decide_eq_true ((and_two_pow_ne_zero _ 5).2 hb)
  · have hn : ¬ (s.m_staControl.val &&& 2 ^ 5 ≠ 0) := fun hh => hb ((and_two_pow_ne_zero _ 5).1 hh)
    rw [decide_eq_false hn]
    simpa using hb

/-- `SetStaMacAddress` on a sub-element of the Basic variant, and the bits of the STA
Control field after it. -/
theorem SetStaMacAddress_eq (env : Env A R P) (s : PerStaProfileSubelement A R P)
    (address : Mac48Address) (hv : s.m_variant = env.BASIC_VARIANT) :
    SetStaMacAddress env s address
        = .ok { s with m_staMacAddress := address,
                       m_staControl := toU16 (s.m_staControl.val ||| 0x0020) }
    ∧ ∀ i, (toU16 (s.m_staControl.val ||| 0x0020)).val.testBit i
        = (s.m_staControl.val.testBit i || decide (i = 5)) := by
  constructor
  · simp [SetStaMacAddress, hv]
  · intro i
    rw [toU16_or _ _ (by decide), Nat.testBit_or]
    have h : (0x0020 : Nat) = 2 ^ 5 := by norm_num
    rw [h, Nat.testBit_two_pow]
    simp [eq_comm]

/-- C17: what copy assignment does.  After `a = b` the sub-element `a` has the variant,
the STA Control and the address of `b`, and the profile of `b` when `b` owns a frame;
when `b` owns no frame, `a` keeps the profile it had, so that a sub-element that owned an
Association Request frame still owns it after being assigned a sub-element without a
frame.  Assigning a sub-element its own value leaves it unmodified. -/
theorem C17_assign_keeps_old_frame :
    (∀ a b : PerStaProfileSubelement A R P,
        (assign a b).m_variant = b.m_variant
        ∧ (assign a b).m_staControl = b.m_staControl
        ∧ (assign a b).m_staMacAddress = b.m_staMacAddress)
    ∧ (∀ a b : PerStaProfileSubelement A R P, b.m_staProfile ≠ .monostate →
        (assign a b).m_staProfile = b.m_staProfile)
    ∧ (∀ a b : PerStaProfileSubelement A R P, b.m_staProfile = .monostate →
        (assign a b).m_staProfile = a.m_staProfile)
    ∧ (∀ a : PerStaProfileSubelement A R P, assign a a = a)
    ∧ (assign Example.subelement5 Example.subelement3).m_staProfile
        = .assocRequest [0x31, 0x04]
    ∧ Example.subelement3.m_staProfile = .monostate
    ∧ (assign Example.subelement5 Example.subelement3).m_staProfile
        ≠ Example.subelement3.m_staProfile := by
  refine ⟨?_, ?_, ?_, ?_, rfl, rfl, by decide⟩
  · intro a b
    obtain ⟨v, ctl, addr, profile, frame⟩ := b
    cases profile <;> exact ⟨rfl, rfl, rfl⟩
  · intro a b h
    obtain ⟨v, ctl, addr, profile, frame⟩ := b
    cases profile
    · exact absurd rfl h
    all_goals rfl
  · intro a b h
    obtain ⟨v, ctl, addr, profile, frame⟩ := b
    simp only at h
    subst h
    rfl
  · intro a
    obtain ⟨v, ctl, addr, profile, frame⟩ := a
    cases profile <;> rfl

/-- C18: for a sub-element of the Basic variant, `HasStaMacAddress` is true exactly when
bit 5 of the STA Control is set, `GetStaMacAddress` aborts exactly when
`HasStaMacAddress` is false and returns the stored address otherwise, and
`SetStaMacAddress (a)` succeeds, after which `HasStaMacAddress` is true and
`GetStaMacAddress` returns `a`. -/
theorem C18_address_presence (env : Env A R P) (s : PerStaProfileSubelement A R P)
    (address : Mac48Address) (hv : s.m_variant = env.BASIC_VARIANT) :
    (HasStaMacAddress s = true ↔ s.m_staControl.val.testBit 5 = true)
    ∧ (GetStaMacAddress s = .error .abort ↔ HasStaMacAddress s = false)
    ∧ (HasStaMacAddress s = true → GetStaMacAddress s = .ok s.m_staMacAddress)
    ∧ ∃ s1, SetStaMacAddress env s address = .ok s1
        ∧ HasStaMacAddress s1 = true
        ∧ GetStaMacAddress s1 = .ok address := by
  refine ⟨by rw [HasStaMacAddress_eq_testBit], ?_, ?_, ?_⟩
  · cases h : HasStaMacAddress s <;> simp [GetStaMacAddress, h]
  · intro h
    simp [GetStaMacAddress, h]
  · obtain ⟨hset, hbits⟩ := SetStaMacAddress_eq env s address hv
    have hhas : HasStaMacAddress
        ({ s with m_staMacAddress := address,
                  m_staControl := toU16 (s.m_staControl.val ||| 0x0020) } :
          PerStaProfileSubelement A R P) = true := by
      rw [HasStaMacAddress_eq_testBit]
      simp only [hbits 5]
      simp
    refine ⟨_, hset, hhas, ?_⟩
    simp only [GetStaMacAddress, hhas]
    simp

/-- The statement of C18 at the example sub-element without an address. -/
theorem C18_address_presence_witness :
    Example.subelement3.m_variant = Example.env.BASIC_VARIANT
    ∧ (HasStaMacAddress Example.subelement3 = true
        ↔ Example.subelement3.m_staControl.val.testBit 5 = true)
    ∧ (GetStaMacAddress Example.subelement3 = .error .abort
        ↔ HasStaMacAddress Example.subelement3 = false)
    ∧ (HasStaMacAddress Example.subelement3 = true →
        GetStaMacAddress Example.subelement3 = .ok Example.subelement3.m_staMacAddress)
    ∧ ∃ s1, SetStaMacAddress Example.env Example.subelement3 Example.address = .ok s1
        ∧ HasStaMacAddress s1 = true
        ∧ GetStaMacAddress s1 = .ok Example.address :=
  ⟨rfl, C18_address_presence Example.env Example.subelement3 Example.address rfl⟩

/-- C19: the setters of the STA Control act on disjoint subfields.  `SetLinkId (x)` makes
`GetLinkId` return `x mod 16` and leaves every bit from bit 4 upward, hence the
complete-profile flag and the address presence, unchanged; `SetCompleteProfile` makes
`IsCompleteProfileSet` true, is idempotent and leaves the link ID and the address
presence unchanged; `SetStaMacAddress` leaves the link ID and the complete-profile flag
unchanged.  None of the first two touches a member other than the STA Control. -/
theorem C19_sta_control_setters (env : Env A R P) (s : PerStaProfileSubelement A R P)
    (x : Byte) (address : Mac48Address) :
    (GetLinkId (SetLinkId s x)).val = x.val % 16
    ∧ (∀ i, 4 ≤ i →
        (SetLinkId s x).m_staControl.val.testBit i = s.m_staControl.val.testBit i)
    ∧ IsCompleteProfileSet (SetLinkId s x) = IsCompleteProfileSet s
    ∧ HasStaMacAddress (SetLinkId s x) = HasStaMacAddress s
    ∧ SetLinkId s x = { s with m_staControl := (SetLinkId s x).m_staControl }
    ∧ IsCompleteProfileSet (SetCompleteProfile s) = true
    ∧ SetCompleteProfile (SetCompleteProfile s) = SetCompleteProfile s
    ∧ GetLinkId (SetCompleteProfile s) = GetLinkId s
    ∧ HasStaMacAddress (SetCompleteProfile s) = HasStaMacAddress s
    ∧ SetCompleteProfile s = { s with m_staControl := (SetCompleteProfile s).m_staControl }
    ∧ (∀ s1, SetStaMacAddress env s address = .ok s1 →
        GetLinkId s1 = GetLinkId s ∧ IsCompleteProfileSet s1 = IsCompleteProfileSet s) := by
  have hlink : ∀ i, 4 ≤ i →
      (SetLinkId s x).m_staControl.val.testBit i = s.m_staControl.val.testBit i := by
    intro i hi
    rw [SetLinkId_testBit, if_neg (by omega)]
  refine ⟨?_, hlink, ?_, ?_, rfl, ?_, ?_, ?_, ?_, rfl, ?_⟩
  · have h15 : (0x000f : Nat) = 2 ^ 4 - 1 := by norm_num
    have hval : (SetLinkId s x).m_staControl.val &&& 0x000f = x.val % 16 := by
      rw [h15, ← Nat.and_pow_two_sub_one_eq_mod x.val 4, ← h15]
      apply Nat.eq_of_testBit_eq
      intro i
      rw [Nat.testBit_and, Nat.testBit_and, SetLinkId_testBit, testBit_000f]
      by_cases h4 : i < 4
      · simp [h4]
      · simp [h4]
    simp only [GetLinkId, toU8_val, hval]
    omega
  · rw [IsCompleteProfileSet_eq_testBit, IsCompleteProfileSet_eq_testBit, hlink 4 (by decide)]
  · rw [HasStaMacAddress_eq_testBit, HasStaMacAddress_eq_testBit, hlink 5 (by decide)]
  · rw [IsCompleteProfileSet_eq_testBit, SetCompleteProfile_testBit]
    simp
  · have hv : (SetCompleteProfile (SetCompleteProfile s)).m_staControl
        = (SetCompleteProfile s).m_staControl := by
      apply Fin.ext
      apply Nat.eq_of_testBit_eq
      intro i
      rw [SetCompleteProfile_testBit, SetCompleteProfile_testBit]
      cases s.m_staControl.val.testBit i <;> simp
    simp only [SetCompleteProfile] at hv ⊢
    rw [hv]
  · apply GetLinkId_eq_of_bits
    intro i hi
    rw [SetCompleteProfile_testBit]
    have : ¬ i = 4 := by omega
    simp [this]
  · rw [HasStaMacAddress_eq_testBit, HasStaMacAddress_eq_testBit, SetCompleteProfile_testBit]
    simp
  · intro s1 hs1
    unfold SetStaMacAddress at hs1
    split at hs1
    · simp at hs1
    · rename_i hvar
      simp only [ne_eq, Decidable.not_not] at hvar
      obtain ⟨_, hbits⟩ := SetStaMacAddress_eq env s address hvar
      simp only [Except.ok.injEq] at hs1
      subst hs1
      constructor
      · apply GetLinkId_eq_of_bits
        intro i hi
        simp only [hbits i]
        have : ¬ i = 5 := by omega
        simp [this]
      · rw [IsCompleteProfileSet_eq_testBit, IsCompleteProfileSet_eq_testBit]
        simp only [hbits 4]
        simp

end PerStaProfileSubelement

/-! ## EML capabilities -/

namespace MultiLinkElement

/-- C20: lazy creation of the EML capabilities.  On a Basic element without the record,
each of `SetEmlsrSupported`, `SetEmlsrPaddingDelay`, `SetEmlsrTransitionDelay` (with a
delay the encoder accepts) and `SetTransitionTimeout` (with a legal timeout) creates the
record with its own sub-field set and the other three zero, so that `HasEmlCapabilities`
is true; on an element that has the record, each setter changes its own sub-field and
leaves the other three, and the rest of the element, unchanged; after
`SetEmlsrSupported (b)`, `IsEmlsrSupported` returns `b` and `GetTransitionTimeout`
returns what it returned before. -/
theorem C20_eml_capabilities_lazy (env : Env A R P) (frame : ContainingFrame A R P)
    (address : Mac48Address) (linkIdInfo count : Option Byte)
    (subs : List (PerStaProfileSubelement A R P)) (caps : EmlCapabilities)
    (supported : Bool) (delay : Time) (code i : Nat) :
    SetEmlsrSupported ⟨frame, some ⟨address, linkIdInfo, count, none⟩, subs⟩ supported
        = .ok ⟨frame, some ⟨address, linkIdInfo, count,
                some ⟨if supported then 1 else 0, 0, 0, 0⟩⟩, subs⟩
    ∧ (env.EncodeEmlsrPaddingDelay delay = .ok code →
        SetEmlsrPaddingDelay env ⟨frame, some ⟨address, linkIdInfo, count, none⟩, subs⟩ delay
          = .ok ⟨frame, some ⟨address, linkIdInfo, count, some ⟨0, code, 0, 0⟩⟩, subs⟩)
    ∧ (env.EncodeEmlsrTransitionDelay delay = .ok code →
        SetEmlsrTransitionDelay env ⟨frame, some ⟨address, linkIdInfo, count, none⟩, subs⟩ delay
          = .ok ⟨frame, some ⟨address, linkIdInfo, count, some ⟨0, 0, code, 0⟩⟩, subs⟩)
    ∧ (i ≤ 10 →
        SetTransitionTimeout ⟨frame, some ⟨address, linkIdInfo, count, none⟩, subs⟩
            (if i = 0 then 0 else ((2 ^ (i + 6) : Nat) : Int))
          = .ok ⟨frame, some ⟨address, linkIdInfo, count, some ⟨0, 0, 0, i⟩⟩, subs⟩)
    ∧ (∀ caps1 : EmlCapabilities,
        HasEmlCapabilities
            (⟨frame, some ⟨address, linkIdInfo, count, some caps1⟩, subs⟩ : MultiLinkElement A R P)
          = .ok true)
    ∧ HasEmlCapabilities
        (⟨frame, some ⟨address, linkIdInfo, count, none⟩, subs⟩ : MultiLinkElement A R P)
        = .ok false
    ∧ SetEmlsrSupported ⟨frame, some ⟨address, linkIdInfo, count, some caps⟩, subs⟩ supported
        = .ok ⟨frame, some ⟨address, linkIdInfo, count,
                some { caps with emlsrSupport := if supported then 1 else 0 }⟩, subs⟩
    ∧ (env.EncodeEmlsrPaddingDelay delay = .ok code →
        SetEmlsrPaddingDelay env ⟨frame, some ⟨address, linkIdInfo, count, some caps⟩, subs⟩ delay
          = .ok ⟨frame, some ⟨address, linkIdInfo, count,
                  some { caps with emlsrPaddingDelay := code }⟩, subs⟩)
    ∧ (env.EncodeEmlsrTransitionDelay delay = .ok code →
        SetEmlsrTransitionDelay env ⟨frame, some ⟨address, linkIdInfo, count, some caps⟩, subs⟩
            delay
          = .ok ⟨frame, some ⟨address, linkIdInfo, count,
                  some { caps with emlsrTransitionDelay := code }⟩, subs⟩)
    ∧ (i ≤ 10 →
        SetTransitionTimeout ⟨frame, some ⟨address, linkIdInfo, count, some caps⟩, subs⟩
            (if i = 0 then 0 else ((2 ^ (i + 6) : Nat) : Int))
          = .ok ⟨frame, some ⟨address, linkIdInfo, count,
                  some { caps with transitionTimeout := i }⟩, subs⟩)
    ∧ IsEmlsrSupported
        (⟨frame, some ⟨address, linkIdInfo, count,
            some { caps with emlsrSupport := if supported then 1 else 0 }⟩, subs⟩ :
          MultiLinkElement A R P) = .ok supported
    ∧ GetTransitionTimeout
        (⟨frame, some ⟨address, linkIdInfo, count,
            some { caps with emlsrSupport := if supported then 1 else 0 }⟩, subs⟩ :
          MultiLinkElement A R P)
        = GetTransitionTimeout
            (⟨frame, some ⟨address, linkIdInfo, count, some caps⟩, subs⟩ :
              MultiLinkElement A R P) := by
  refine ⟨rfl, ?_, ?_, ?_, fun _ => rfl, rfl, rfl, ?_, ?_, ?_, ?_, rfl⟩
  · intro h
    simp [SetEmlsrPaddingDelay, emlCapabilitiesOrNew, h]
  · intro h
    simp [SetEmlsrTransitionDelay, emlCapabilitiesOrNew, h]
  · intro h
    exact SetTransitionTimeout_legal frame ⟨address, linkIdInfo, count, none⟩ subs i h
  · intro h
    simp [SetEmlsrPaddingDelay, emlCapabilitiesOrNew, h]
  · intro h
    simp [SetEmlsrTransitionDelay, emlCapabilitiesOrNew, h]
  · intro h
    exact SetTransitionTimeout_legal frame ⟨address, linkIdInfo, count, some caps⟩ subs i h
  · cases supported <;> simp [IsEmlsrSupported]

end MultiLinkElement

end ns3

namespace ns3

variable {A R P : Type}

/-! ## Getters of optional fields -/

namespace MultiLinkElement

/-- C21: the getters of absent optional fields, on a Basic element.  `GetLinkIdInfo` and
`GetBssParamsChangeCount` throw (`std::optional::value`), `GetEmlsrPaddingDelay`,
`GetEmlsrTransitionDelay` and `GetTransitionTimeout` stop at their assertion, while
`IsEmlsrSupported` dereferences the empty optional with no check at all; the
has-queries return false. -/
theorem C21_absent_field_getters (env : Env A R P) (frame : ContainingFrame A R P)
    (address : Mac48Address) (linkIdInfo count : Option Byte) (caps : Option EmlCapabilities)
    (subs : List (PerStaProfileSubelement A R P)) :
    (HasLinkIdInfo (⟨frame, some ⟨address, none, count, caps⟩, subs⟩ : MultiLinkElement A R P)
        = .ok false
      ∧ GetLinkIdInfo (⟨frame, some ⟨address, none, count, caps⟩, subs⟩ : MultiLinkElement A R P)
        = .error .badAccess)
    ∧ (HasBssParamsChangeCount
          (⟨frame, some ⟨address, linkIdInfo, none, caps⟩, subs⟩ : MultiLinkElement A R P)
        = .ok false
      ∧ GetBssParamsChangeCount
          (⟨frame, some ⟨address, linkIdInfo, none, caps⟩, subs⟩ : MultiLinkElement A R P)
        = .error .badAccess)
    ∧ HasEmlCapabilities
        (⟨frame, some ⟨address, linkIdInfo, count, none⟩, subs⟩ : MultiLinkElement A R P)
        = .ok false
    ∧ GetEmlsrPaddingDelay env ⟨frame, some ⟨address, linkIdInfo, count, none⟩, subs⟩
        = .error .assert
    ∧ GetEmlsrTransitionDelay env ⟨frame, some ⟨address, linkIdInfo, count, none⟩, subs⟩
        = .error .assert
    ∧ GetTransitionTimeout
        (⟨frame, some ⟨address, linkIdInfo, count, none⟩, subs⟩ : MultiLinkElement A R P)
        = .error .assert
    ∧ IsEmlsrSupported
        (⟨frame, some ⟨address, linkIdInfo, count, none⟩, subs⟩ : MultiLinkElement A R P)
        = .error .undefinedBehaviour :=
  ⟨⟨rfl, rfl⟩, ⟨rfl, rfl⟩, rfl, rfl, rfl, rfl, rfl⟩

/-! ## Deserialization needs an unset element and the Basic tag -/

/-- C23: `DeserializeInformationField` of the element aborts when the variant of the
element is already set, for example after the constructor that takes a variant, and
when bits 0-2 of the control field are not the tag of the Basic variant; on an element
whose variant is unset and a control field with that tag it installs a default Common
Info and proceeds to the Common Info of the buffer; whenever it returns, the variant was
unset before and is Basic afterwards. -/
theorem C23_deserialize_needs_unset_and_basic (env : Env A R P) (e : MultiLinkElement A R P)
    (lo hi : Byte) (rest : List Byte) (length : Nat) :
    (GetVariant env e ≠ env.UNSET →
        DeserializeInformationField env e (lo :: hi :: rest) length = .error .abort)
    ∧ (GetVariant env e ≠ env.UNSET →
        ∀ start, ∃ k, DeserializeInformationField env e start length = .error k)
    ∧ (∀ (frame : ContainingFrame A R P) (e0 : MultiLinkElement A R P),
        createWithVariant env env.BASIC_VARIANT frame = .ok e0 →
        DeserializeInformationField env e0 (lo :: hi :: rest) length = .error .abort)
    ∧ ((lo.val + 256 * hi.val) % 8 ≠ env.BASIC_VARIANT →
        DeserializeInformationField env e (lo :: hi :: rest) length = .error .abort)
    ∧ (GetVariant env e = env.UNSET → (lo.val + 256 * hi.val) % 8 = env.BASIC_VARIANT →
        DeserializeInformationField env e (lo :: hi :: rest) length
          = match env.Deserialize {} rest ((lo.val + 256 * hi.val) / 16) with
            | .error k => .error k
            | .ok (arg, nBytes) =>
              match Next (nBytes % 256) rest with
              | .error k => .error k
              | .ok i =>
                DeserializeInformationField.loop env (lo :: hi :: rest) length (i.length + 1)
                  { e with m_commonInfo := some arg } i ((0 + 2 + nBytes % 256) % 65536))
    ∧ (∀ start e1 n, DeserializeInformationField env e start length = .ok (e1, n) →
        GetVariant env e = env.UNSET ∧ GetVariant env e1 = env.BASIC_VARIANT) := by
  have h7 : (lo.val + 256 * hi.val) &&& 0x0007 = (lo.val + 256 * hi.val) % 8 :=
    Nat.and_pow_two_sub_one_eq_mod _ 3
  have h4 : (lo.val + 256 * hi.val) >>> 4 = (lo.val + 256 * hi.val) / 16 :=
    Nat.shiftRight_eq_div_pow _ 4
  have hset : ∀ (e2 : MultiLinkElement A R P), GetVariant env e2 ≠ env.UNSET →
      DeserializeInformationField env e2 (lo :: hi :: rest) length = .error .abort := by
    intro e2 hne
    unfold DeserializeInformationField
    simp only [ReadLsbtohU16, SetVariant_eq, hne, false_and, if_false]
  have hany : ∀ start e1 n, DeserializeInformationField env e start length = .ok (e1, n) →
      GetVariant env e = env.UNSET := by
    intro start e1 n h
    by_contra hne
    unfold DeserializeInformationField at h
    dsimp only at h
    split at h
    · simp at h
    · simp only [SetVariant_eq, hne, false_and, if_false] at h
      simp at h
  refine ⟨hset e, ?_, ?_, ?_, ?_, ?_⟩
  · intro hne start
    cases hres : DeserializeInformationField env e start length with
    | error k => exact ⟨k, rfl⟩
    | ok r => exact absurd (hany start r.1 r.2 hres) hne
  · intro frame e0 h0
    apply hset
    unfold createWithVariant at h0
    split at h0
    · simp at h0
    · rw [SetVariant_eq] at h0
      split at h0
      · simp only [Except.ok.injEq] at h0
        rw [← h0]
        exact env.basic_ne_unset
      · simp at h0
  · intro hne
    unfold DeserializeInformationField
    simp only [ReadLsbtohU16, SetVariant_eq, h7, hne, and_false, if_false]
  · intro hu hb
    unfold DeserializeInformationField
    simp only [ReadLsbtohU16, SetVariant_eq, h7, h4, hu, hb, and_self, if_true]
  · intro start e1 n h
    refine ⟨hany start e1 n h, ?_⟩
    have hci := DeserializeInformationField_commonInfo env e e1 start length n h
    unfold GetVariant
    cases hc : e1.m_commonInfo with
    | none => exact absurd hc hci
    | some c => rfl

end MultiLinkElement

/-! ## Ownership of the STA profile -/

namespace PerStaProfileSubelement

/-- C22: after `SetAssocRequest` with an Association Request, with a Reassociation
Request, or `SetAssocResponse`, exactly the has-query of the kind just set is true,
whatever was owned before, and the getter returns the frame just set; in every state at
most one has-query is true; `GetAssocResponse` aborts exactly when `HasAssocResponse` is
false and `GetAssocRequest` aborts exactly when `HasAssocRequest` and
`HasReassocRequest` are both false. -/
theorem C22_profile_ownership (s : PerStaProfileSubelement A R P) (a : A) (r : R) (p : P) :
    (HasAssocRequest (SetAssocRequest s (.inl a)) = true
      ∧ HasReassocRequest (SetAssocRequest s (.inl a)) = false
      ∧ HasAssocResponse (SetAssocRequest s (.inl a)) = false
      ∧ GetAssocRequest (SetAssocRequest s (.inl a)) = .ok (.inl a))
    ∧ (HasAssocRequest (SetAssocRequest s (.inr r)) = false
      ∧ HasReassocRequest (SetAssocRequest s (.inr r)) = true
      ∧ HasAssocResponse (SetAssocRequest s (.inr r)) = false
      ∧ GetAssocRequest (SetAssocRequest s (.inr r)) = .ok (.inr r))
    ∧ (HasAssocRequest (SetAssocResponse s p) = false
      ∧ HasReassocRequest (SetAssocResponse s p) = false
      ∧ HasAssocResponse (SetAssocResponse s p) = true
      ∧ GetAssocResponse (SetAssocResponse s p) = .ok p)
    ∧ ((HasAssocRequest s && HasReassocRequest s) = false
      ∧ (HasAssocRequest s && HasAssocResponse s) = false
      ∧ (HasReassocRequest s && HasAssocResponse s) = false)
    ∧ (GetAssocResponse s = .error .abort ↔ HasAssocResponse s = false)
    ∧ ((∃ frame, GetAssocResponse s = .ok frame) ↔ HasAssocResponse s = true)
    ∧ (GetAssocRequest s = .error .abort
        ↔ (HasAssocRequest s = false ∧ HasReassocRequest s = false))
    ∧ ((∃ frame, GetAssocRequest s = .ok frame)
        ↔ (HasAssocRequest s = true ∨ HasReassocRequest s = true)) := by
  refine ⟨⟨rfl, rfl, rfl, rfl⟩, ⟨rfl, rfl, rfl, rfl⟩, ⟨rfl, rfl, rfl, rfl⟩, ?_, ?_, ?_, ?_, ?_⟩
  all_goals
    obtain ⟨v, ctl, addr, profile, frame⟩ := s
    cases profile <;>
      simp [HasAssocRequest, HasReassocRequest, HasAssocResponse, GetAssocResponse,
        GetAssocRequest]

end PerStaProfileSubelement

/-! ## Decoding of the owned frame and of the STA Info Length -/

namespace PerStaProfileSubelement

/-- C24: on a payload whose STA Control, STA Info Length and optional address take `c`
bytes (3, or 9 with the address-present bit), with `c` not above the declared length:
when `c` is the declared length the profile is left as it was and `c` is returned; when
`c` is below it and the containing frame is of kind K, the collaborator of kind K is run
on the bytes that follow with the length `declaredLength - c`, the sub-element then owns
the frame it read, of kind K, and the returned count is `c` plus the bytes it reports
(no narrowing occurs when it reports at most the bytes it was given). -/
theorem C24_frame_kind_follows_context (env : Env A R P) (s0 : PerStaProfileSubelement A R P)
    (ctl : U16) (addr : Mac48Address) (len : Byte) (tail : List Byte) (length : Nat) :
    (3 + (if (ctl.val &&& 0x0020) ≠ 0 then 6 else 0) = length →
        DeserializeInformationField env s0
            ([toU8 ctl.val, toU8 (ctl.val / 256), len]
              ++ (if (ctl.val &&& 0x0020) ≠ 0 then WriteTo addr else []) ++ tail) length
          = .ok ({ s0 with m_staControl := ctl,
                           m_staMacAddress := if (ctl.val &&& 0x0020) ≠ 0 then addr
                                              else s0.m_staMacAddress }, length))
    ∧ (3 + (if (ctl.val &&& 0x0020) ≠ 0 then 6 else 0) < length →
        ∀ containing, s0.m_containingFrame = .assocRequest containing →
        DeserializeInformationField env s0
            ([toU8 ctl.val, toU8 (ctl.val / 256), len]
              ++ (if (ctl.val &&& 0x0020) ≠ 0 then WriteTo addr else []) ++ tail) length
          = match env.assocRequest.DeserializeFromPerStaProfile tail
                (length - (3 + (if (ctl.val &&& 0x0020) ≠ 0 then 6 else 0))) containing with
            | .error k => .error k
            | .ok (assoc, n) =>
              .ok ({ s0 with m_staControl := ctl,
                             m_staMacAddress := if (ctl.val &&& 0x0020) ≠ 0 then addr
                                                else s0.m_staMacAddress,
                             m_staProfile := .assocRequest assoc },
                   (3 + (if (ctl.val &&& 0x0020) ≠ 0 then 6 else 0) + n % 4294967296) % 65536))
    ∧ (3 + (if (ctl.val &&& 0x0020) ≠ 0 then 6 else 0) < length →
        ∀ containing, s0.m_containingFrame = .reassocRequest containing →
        DeserializeInformationField env s0
            ([toU8 ctl.val, toU8 (ctl.val / 256), len]
              ++ (if (ctl.val &&& 0x0020) ≠ 0 then WriteTo addr else []) ++ tail) length
          = match env.reassocRequest.DeserializeFromPerStaProfile tail
                (length - (3 + (if (ctl.val &&& 0x0020) ≠ 0 then 6 else 0))) containing with
            | .error k => .error k
            | .ok (assoc, n) =>
              .ok ({ s0 with m_staControl := ctl,
                             m_staMacAddress := if (ctl.val &&& 0x0020) ≠ 0 then addr
                                                else s0.m_staMacAddress,
                             m_staProfile := .reassocRequest assoc },
                   (3 + (if (ctl.val &&& 0x0020) ≠ 0 then 6 else 0) + n % 4294967296) % 65536))
    ∧ (3 + (if (ctl.val &&& 0x0020) ≠ 0 then 6 else 0) < length →
        ∀ containing, s0.m_containingFrame = .assocResponse containing →
        DeserializeInformationField env s0
            ([toU8 ctl.val, toU8 (ctl.val / 256), len]
              ++ (if (ctl.val &&& 0x0020) ≠ 0 then WriteTo addr else []) ++ tail) length
          = match env.assocResponse.DeserializeFromPerStaProfile tail
                (length - (3 + (if (ctl.val &&& 0x0020) ≠ 0 then 6 else 0))) containing with
            | .error k => .error k
            | .ok (assoc, n) =>
              .ok ({ s0 with m_staControl := ctl,
                             m_staMacAddress := if (ctl.val &&& 0x0020) ≠ 0 then addr
                                                else s0.m_staMacAddress,
                             m_staProfile := .assocResponse assoc },
                   (3 + (if (ctl.val &&& 0x0020) ≠ 0 then 6 else 0) + n % 4294967296) % 65536))
    ∧ (∀ n, length < 65536 →
        n ≤ length - (3 + (if (ctl.val &&& 0x0020) ≠ 0 then 6 else 0)) →
        3 + (if (ctl.val &&& 0x0020) ≠ 0 then 6 else 0) < length →
        (3 + (if (ctl.val &&& 0x0020) ≠ 0 then 6 else 0) + n % 4294967296) % 65536
          = 3 + (if (ctl.val &&& 0x0020) ≠ 0 then 6 else 0) + n) := by
  have hd := DeserializeInformationField_header env s0 ctl addr len tail length
  generalize (if (ctl.val &&& 0x0020) ≠ 0 then (6 : Nat) else 0) = k at hd ⊢
  refine ⟨?_, ?_, ?_, ?_, ?_⟩
  · intro hc
    rw [hd, if_neg (show ¬ ¬ (3 + k) ≤ length by omega), if_pos hc, hc]
  · intro hc containing hctx
    rw [hd, if_neg (show ¬ ¬ (3 + k) ≤ length by omega),
      if_neg (show ¬ (3 + k = length) by omega)]
    simp only [staProfileDeserialize, hctx]
  · intro hc containing hctx
    rw [hd, if_neg (show ¬ ¬ (3 + k) ≤ length by omega),
      if_neg (show ¬ (3 + k = length) by omega)]
    simp only [staProfileDeserialize, hctx]
  · intro hc containing hctx
    rw [hd, if_neg (show ¬ ¬ (3 + k) ≤ length by omega),
      if_neg (show ¬ (3 + k = length) by omega)]
    simp only [staProfileDeserialize, hctx]
  · intro n hlen hn hc
    omega

/-- `DeserializeInformationField` does not depend on the third byte of the payload. -/
theorem DeserializeInformationField_ignores_length (env : Env A R P)
    (s0 : PerStaProfileSubelement A R P) (a b l1 l2 : Byte) (rest : List Byte) (length : Nat) :
    DeserializeInformationField env s0 (a :: b :: l1 :: rest) length
      = DeserializeInformationField env s0 (a :: b :: l2 :: rest) length := by
  simp only [DeserializeInformationField, ReadLsbtohU16, ReadU8, GetDistanceFrom,
    List.length_cons]

/-- C25: two payloads of the same length that agree everywhere but at their third byte,
the STA Info Length, give the same outcome of `DeserializeInformationField` for the same
sub-element, declared length and containing frame: the same failure, or the same STA
Control, address, profile and count.  What is read after the third byte depends on the
address-present bit alone. -/
theorem C25_sta_info_length_is_ignored (env : Env A R P) (s0 : PerStaProfileSubelement A R P)
    (p1 p2 : List Byte) (length : Nat) (hlen : p1.length = p2.length)
    (hsame : ∀ i, i ≠ 2 → p1.get? i = p2.get? i) :
    DeserializeInformationField env s0 p1 length = DeserializeInformationField env s0 p2 length := by
  match p1, p2, hlen, hsame with
  | [], [], _, _ => rfl
  | [a], [a1], _, h =>
    have h0 := h 0 (by decide)
    simp only [List.get?_cons_zero, Option.some.injEq] at h0
    rw [h0]
  | [a, b], [a1, b1], _, h =>
    have h0 := h 0 (by decide)
    have h1 := h 1 (by decide)
    simp only [List.get?_cons_zero, List.get?_cons_succ, Option.some.injEq] at h0 h1
    rw [h0, h1]
  | a :: b :: l1 :: r1, a1 :: b1 :: l2 :: r2, _, h =>
    have h0 := h 0 (by decide)
    have h1 := h 1 (by decide)
    simp only [List.get?_cons_zero, List.get?_cons_succ, Option.some.injEq] at h0 h1
    have hr : r1 = r2 := by
      apply List.ext_get?
      intro j
      have := h (j + 3) (by omega)
      simpa only [List.get?_cons_succ] using this
    rw [h0, h1, hr]
    exact DeserializeInformationField_ignores_length env s0 a1 b1 l1 l2 r2 length

/-- The statement of C25 at the payloads `13 00 01` and `13 00 63` with declared length
3. -/
theorem C25_sta_info_length_is_ignored_witness :
    ([0x13, 0x00, 0x01] : List Byte).length = ([0x13, 0x00, 0x63] : List Byte).length
    ∧ (∀ i, i ≠ 2 → ([0x13, 0x00, 0x01] : List Byte).get? i
        = ([0x13, 0x00, 0x63] : List Byte).get? i)
    ∧ DeserializeInformationField Example.env (create 1) [0x13, 0x00, 0x01] 3
        = DeserializeInformationField Example.env (create 1) [0x13, 0x00, 0x63] 3 :=
  have h : ∀ i, i ≠ 2 → ([0x13, 0x00, 0x01] : List Byte).get? i
      = ([0x13, 0x00, 0x63] : List Byte).get? i := by
    intro i hi
    match i, hi with
    | 0, _ => rfl
    | 1, _ => rfl
    | 2, h2 => exact absurd rfl h2
    | _ + 3, _ => rfl
  ⟨rfl, h, C25_sta_info_length_is_ignored Example.env (create 1) _ _ 3 rfl h⟩

end PerStaProfileSubelement

/-! ## Invariant of constructed elements -/

namespace PerStaProfileSubelement

/-- `DeserializeInformationField` of the sub-element keeps its variant. -/
theorem DeserializeInformationField_variant (env : Env A R P)
    (s s1 : PerStaProfileSubelement A R P) (start : List Byte) (length n : Nat)
    (h : DeserializeInformationField env s start length = .ok (s1, n)) :
    s1.m_variant = s.m_variant := by
  unfold DeserializeInformationField at h
  split at h
  · simp at h
  · dsimp only at h
    split at h
    · simp at h
    · split at h
      · simp at h
      · rename_i s2 i2 hread
        have h2 : s2.m_variant = s.m_variant := by
          unfold readStaInfo at hread
          split at hread
          · split at hread
            · simp at hread
            · simp only [Except.ok.injEq, Prod.mk.injEq] at hread
              rw [← hread.1]
          · simp only [Except.ok.injEq, Prod.mk.injEq] at hread
            rw [← hread.1]
        split at h
        · simp at h
        · split at h
          · simp only [Except.ok.injEq, Prod.mk.injEq] at h
            rw [← h.1, h2]
          · unfold staProfileDeserialize at h
            split at h
            · simp only [Except.ok.injEq, Prod.mk.injEq] at h
              rw [← h.1, h2]
            all_goals
              split at h
              · simp at h
              · simp only [Except.ok.injEq, Prod.mk.injEq] at h
                rw [← h.1, h2]

/-- The framed `Deserialize` of the sub-element keeps its variant. -/
theorem Deserialize_variant (env : Env A R P) (s s1 : PerStaProfileSubelement A R P)
    (i i1 : List Byte) (h : Deserialize env s i = .ok (s1, i1)) : s1.m_variant = s.m_variant := by
  unfold Deserialize at h
  split at h
  · simp at h
  · split at h
    · simp at h
    · split at h
      · simp at h
      · split at h
        · simp at h
        · rename_i s2 count hd
          split at h
          · simp at h
          · split at h
            · simp at h
            · simp only [Except.ok.injEq, Prod.mk.injEq] at h
              rw [← h.1]
              exact DeserializeInformationField_variant env _ _ _ _ _ hd

end PerStaProfileSubelement

namespace MultiLinkElement

/-- What `AddPerStaProfileSubelement` does when it succeeds. -/
theorem AddPerStaProfileSubelement_eq (env : Env A R P) (e e1 : MultiLinkElement A R P)
    (h : AddPerStaProfileSubelement env e = .ok e1) :
    e1 = { e with m_perStaProfileSubelements :=
                    e.m_perStaProfileSubelements ++ [PerStaProfileSubelement.create env.BASIC_VARIANT] }
    ∧ GetVariant env e = env.BASIC_VARIANT := by
  unfold AddPerStaProfileSubelement at h
  dsimp only at h
  split at h
  · simp at h
  · rename_i hu
    have hb : GetVariant env e = env.BASIC_VARIANT := by
      unfold GetVariant at hu ⊢
      cases hc : e.m_commonInfo with
      | none => simp [hc] at hu
      | some c => rfl
    simp only [Except.ok.injEq] at h
    rw [← h, hb]
    exact ⟨rfl, rfl⟩

/-- The decoding loop keeps every sub-element at the Basic variant. -/
theorem DeserializeInformationField.loop_variant (env : Env A R P) (start : List Byte)
    (length : Nat) (fuel : Nat) :
    ∀ (e : MultiLinkElement A R P) (i : List Byte) (count : Nat) (e1 : MultiLinkElement A R P)
      (n : Nat), DeserializeInformationField.loop env start length fuel e i count = .ok (e1, n) →
      (∀ s ∈ e.m_perStaProfileSubelements, s.m_variant = env.BASIC_VARIANT) →
      ∀ s ∈ e1.m_perStaProfileSubelements, s.m_variant = env.BASIC_VARIANT := by
  induction fuel with
  | zero =>
    intro e i count e1 n h
    simp [DeserializeInformationField.loop] at h
  | succ fuel ih =>
    intro e i count e1 n h hinv
    unfold DeserializeInformationField.loop at h
    split at h
    · split at h
      · simp at h
      · split at h
        · split at h
          · simp at h
          · rename_i e2 hadd
            obtain ⟨he2, _⟩ := AddPerStaProfileSubelement_eq env e e2 hadd
            have hinv2 : ∀ s ∈ e2.m_perStaProfileSubelements, s.m_variant = env.BASIC_VARIANT := by
              intro s hs
              rw [he2] at hs
              simp only [List.mem_append, List.mem_singleton] at hs
              rcases hs with hs | hs
              · exact hinv s hs
              · rw [hs]
                rfl
            split at h
            · simp at h
            · rename_i x hx
              dsimp only at h
              split at h
              · simp at h
              · rename_i s2 i2 hdes
                have hxmem : x ∈ e2.m_perStaProfileSubelements := by
                  unfold GetPerStaProfile at hx
                  split at hx
                  · rename_i y hy
                    simp only [Except.ok.injEq] at hx
                    rw [← hx]
                    exact List.get?_mem hy
                  · simp at hx
                have hs2 : s2.m_variant = env.BASIC_VARIANT := by
                  rw [PerStaProfileSubelement.Deserialize_variant env _ _ _ _ hdes]
                  exact hinv2 x hxmem
                apply ih _ _ _ _ _ h
                intro s hs
                simp only [updatePerStaProfile] at hs
                rcases List.mem_or_eq_of_mem_set hs with hs | hs
                · exact hinv2 s hs
                · rw [hs]
                  exact hs2
        · simp at h
    · simp only [Except.ok.injEq, Prod.mk.injEq] at h
      rw [← h.1]
      exact hinv

/-- A constructed element is a reachable one. -/
theorem Constructed.reachable (env : Env A R P) (e : MultiLinkElement A R P)
    (hc : Constructed env e) : Reachable env e := by
  induction hc with
  | create frame => exact Reachable.create frame
  | SetVariant variant _ h ih => exact Reachable.SetVariant variant ih h
  | SetMldMacAddress address _ h ih => exact Reachable.SetMldMacAddress address ih h
  | SetLinkIdInfo linkIdInfo _ h ih => exact Reachable.SetLinkIdInfo linkIdInfo ih h
  | SetBssParamsChangeCount count _ h ih => exact Reachable.SetBssParamsChangeCount count ih h
  | SetEmlsrSupported supported _ h ih => exact Reachable.SetEmlsrSupported supported ih h
  | SetEmlsrPaddingDelay delay _ h ih => exact Reachable.SetEmlsrPaddingDelay delay ih h
  | SetEmlsrTransitionDelay delay _ h ih => exact Reachable.SetEmlsrTransitionDelay delay ih h
  | SetTransitionTimeout timeout _ h ih => exact Reachable.SetTransitionTimeout timeout ih h
  | AddPerStaProfileSubelement _ h ih => exact Reachable.AddPerStaProfileSubelement ih h
  | DeserializeInformationField start length count _ h ih =>
    exact Reachable.DeserializeInformationField start length count ih h
  | updatePerStaProfile i s s1 _ h _ ih => exact Reachable.updatePerStaProfile i s s1 ih h

/-- In a constructed element every sub-element has the Basic variant. -/
theorem Constructed.subelements_basic (env : Env A R P) (e : MultiLinkElement A R P)
    (hc : Constructed env e) :
    ∀ s ∈ e.m_perStaProfileSubelements, s.m_variant = env.BASIC_VARIANT := by
  induction hc with
  | create frame =>
    intro s hs
    exact absurd hs (List.not_mem_nil s)
  | SetVariant variant _ h ih =>
    rw [SetVariant_eq] at h
    split at h
    · simp only [Except.ok.injEq] at h
      rw [← h]
      exact ih
    · simp at h
  | SetMldMacAddress address _ h ih =>
    unfold MultiLinkElement.SetMldMacAddress at h
    split at h
    · simp only [Except.ok.injEq] at h
      rw [← h]
      exact ih
    · simp at h
  | SetLinkIdInfo linkIdInfo _ h ih =>
    unfold MultiLinkElement.SetLinkIdInfo at h
    split at h
    · simp only [Except.ok.injEq] at h
      rw [← h]
      exact ih
    · simp at h
  | SetBssParamsChangeCount count _ h ih =>
    unfold MultiLinkElement.SetBssParamsChangeCount at h
    split at h
    · simp only [Except.ok.injEq] at h
      rw [← h]
      exact ih
    · simp at h
  | SetEmlsrSupported supported _ h ih =>
    unfold MultiLinkElement.SetEmlsrSupported at h
    split at h
    · simp at h
    · simp only [Except.ok.injEq] at h
      rw [← h]
      exact ih
  | SetEmlsrPaddingDelay delay _ h ih =>
    unfold MultiLinkElement.SetEmlsrPaddingDelay at h
    split at h
    · simp at h
    · split at h
      · simp at h
      · simp only [Except.ok.injEq] at h
        rw [← h]
        exact ih
  | SetEmlsrTransitionDelay delay _ h ih =>
    unfold MultiLinkElement.SetEmlsrTransitionDelay at h
    split at h
    · simp at h
    · split at h
      · simp at h
      · simp only [Except.ok.injEq] at h
        rw [← h]
        exact ih
  | SetTransitionTimeout timeout _ h ih =>
    unfold MultiLinkElement.SetTransitionTimeout at h
    split at h
    · simp at h
    · dsimp only at h
      split at h
      · simp only [Except.ok.injEq] at h
        rw [← h]
        exact ih
      · split at h
        · simp at h
        · simp only [Except.ok.injEq] at h
          rw [← h]
          exact ih
  | AddPerStaProfileSubelement _ h ih =>
    obtain ⟨he1, _⟩ := AddPerStaProfileSubelement_eq env _ _ h
    intro s hs
    rw [he1] at hs
    simp only [List.mem_append, List.mem_singleton] at hs
    rcases hs with hs | hs
    · exact ih s hs
    · rw [hs]
      rfl
  | DeserializeInformationField start length count _ h ih =>
    unfold MultiLinkElement.DeserializeInformationField at h
    dsimp only at h
    split at h
    · simp at h
    · split at h
      · simp at h
      · rename_i e2 hset
        rw [SetVariant_eq] at hset
        split at hset
        · simp only [Except.ok.injEq] at hset
          split at h
          · simp at h
          · split at h
            · simp at h
            · split at h
              · simp at h
              · apply DeserializeInformationField.loop_variant env _ _ _ _ _ _ _ _ h
                rw [← hset]
                exact ih
        · simp at hset
  | @updatePerStaProfile e0 i s s1 _ h hv ih =>
    intro x hx
    simp only [MultiLinkElement.updatePerStaProfile] at hx
    have hsmem : s ∈ e0.m_perStaProfileSubelements := by
      unfold MultiLinkElement.GetPerStaProfile at h
      split at h
      · rename_i y hy
        simp only [Except.ok.injEq] at h
        rw [← h]
        exact List.get?_mem hy
      · simp at h
    rcases List.mem_or_eq_of_mem_set hx with hx | hx
    · exact ih x hx
    · rw [hx, hv]
      exact ih s hsmem

/-- C26: in every state built from a newly constructed element by `SetVariant`, the
Common Info setters, `AddPerStaProfileSubelement` and `DeserializeInformationField` (and
by the setters of its sub-elements), (1) an element whose variant is unset has no
sub-element, (2) every sub-element has the variant of the element, which is Basic, so
that `SetStaMacAddress` on it succeeds; `AddPerStaProfileSubelement` succeeds exactly
when the variant is set and then appends one default sub-element (link ID 0, no flag, no
address, no owned frame) and changes nothing else. -/
theorem C26_constructed_invariant (env : Env A R P) (e : MultiLinkElement A R P)
    (hc : Constructed env e) :
    (GetVariant env e = env.UNSET → e.m_perStaProfileSubelements = [])
    ∧ (∀ s ∈ e.m_perStaProfileSubelements,
        s.m_variant = GetVariant env e ∧ s.m_variant = env.BASIC_VARIANT)
    ∧ (∀ s ∈ e.m_perStaProfileSubelements, ∀ address,
        PerStaProfileSubelement.SetStaMacAddress env s address
          = .ok { s with m_staMacAddress := address,
                         m_staControl := toU16 (s.m_staControl.val ||| 0x0020) })
    ∧ (∀ e1, AddPerStaProfileSubelement env e = .ok e1 →
        e1 = { e with m_perStaProfileSubelements :=
                 e.m_perStaProfileSubelements ++ [PerStaProfileSubelement.create env.BASIC_VARIANT] })
    ∧ (GetVariant env e ≠ env.UNSET ↔ ∃ e1, AddPerStaProfileSubelement env e = .ok e1)
    ∧ (PerStaProfileSubelement.GetLinkId
          (PerStaProfileSubelement.create env.BASIC_VARIANT : PerStaProfileSubelement A R P) = 0
      ∧ PerStaProfileSubelement.IsCompleteProfileSet
          (PerStaProfileSubelement.create env.BASIC_VARIANT : PerStaProfileSubelement A R P)
          = false
      ∧ PerStaProfileSubelement.HasStaMacAddress
          (PerStaProfileSubelement.create env.BASIC_VARIANT : PerStaProfileSubelement A R P)
          = false
      ∧ (PerStaProfileSubelement.create env.BASIC_VARIANT :
          PerStaProfileSubelement A R P).m_staProfile = .monostate
      ∧ (PerStaProfileSubelement.create env.BASIC_VARIANT :
          PerStaProfileSubelement A R P).m_staControl = 0) := by
  have hbasic := Constructed.subelements_basic env e hc
  have hempty : GetVariant env e = env.UNSET → e.m_perStaProfileSubelements = [] := fun hu =>
    Reachable.no_subelement_while_unset env e (Constructed.reachable env e hc)
      ((GetVariant_eq_UNSET env e).1 hu)
  have hlink : toU8 ((0 : U16).val &&& 0x000f) = 0 := by decide
  have hflag : decide (((0 : U16).val &&& 0x0010) ≠ 0) = false := by decide
  have haddr : decide (((0 : U16).val &&& 0x0020) ≠ 0) = false := by decide
  refine ⟨hempty, ?_, ?_, ?_, ?_, ⟨hlink, hflag, haddr, rfl, rfl⟩⟩
  · intro s hs
    refine ⟨?_, hbasic s hs⟩
    rw [hbasic s hs]
    unfold GetVariant
    cases hci : e.m_commonInfo with
    | none =>
      have := hempty ((GetVariant_eq_UNSET env e).2 hci)
      rw [this] at hs
      simp at hs
    | some c => rfl
  · intro s hs address
    exact (PerStaProfileSubelement.SetStaMacAddress_eq env s address (hbasic s hs)).1
  · intro e1 h
    exact (AddPerStaProfileSubelement_eq env e e1 h).1
  · constructor
    · intro hne
      refine ⟨{ e with m_perStaProfileSubelements := e.m_perStaProfileSubelements
                  ++ [PerStaProfileSubelement.create (GetVariant env e)] }, ?_⟩
      simp [AddPerStaProfileSubelement, hne]
    · rintro ⟨e1, h⟩ hu
      simp [AddPerStaProfileSubelement, hu] at h

/-- The statement of C26 at the element obtained by construction, `SetVariant` and
`AddPerStaProfileSubelement`. -/
theorem C26_constructed_invariant_witness :
    Constructed Example.env
        (⟨.monostate, some {}, [PerStaProfileSubelement.create 1]⟩ :
          MultiLinkElement (List Byte) (List Byte) (List Byte))
    ∧ (∀ s ∈ [(PerStaProfileSubelement.create 1 :
          PerStaProfileSubelement (List Byte) (List Byte) (List Byte))],
        s.m_variant = GetVariant Example.env
            (⟨.monostate, some {}, [PerStaProfileSubelement.create 1]⟩ :
              MultiLinkElement (List Byte) (List Byte) (List Byte))
          ∧ s.m_variant = Example.env.BASIC_VARIANT) :=
  have hc : Constructed Example.env
      (⟨.monostate, some {}, [PerStaProfileSubelement.create 1]⟩ :
        MultiLinkElement (List Byte) (List Byte) (List Byte)) :=
    Constructed.AddPerStaProfileSubelement
      (Constructed.SetVariant 1 (Constructed.create .monostate) rfl) rfl
  ⟨hc, (C26_constructed_invariant Example.env _ hc).2.1⟩

end MultiLinkElement

end ns3
